import Mathlib

/-! pimd kernel multicast-route synchronisation (`pimd/pim_mroute.c`)

A shallow embedding of the multicast routing socket manager, the upcall
classifier and the four upcall handlers of `pim_mroute.c`.

Conventions of the embedding

* C functions become Lean functions of the same name.  A pointer argument that
  the C function writes through is passed by value and returned next to the
  return code; module-level globals live in `World`.
* The results of the external calls (system calls, collaborators that can fail)
  are scripted in `World.env`, one entry per call, consumed in call order; every
  external action is recorded, with its result, in `World.trace`.
* Behaviour the C standard leaves undefined (null dereference, out-of-bounds
  index, a failed `zassert`) is an explicit `Fault`.
-/

namespace PimMroute

/-! ## Addresses and kernel structures -/

/-- The wildcard source, `INADDR_ANY`. -/
def INADDR_ANY : Nat := 0

/-- The "unresolved" address, `INADDR_NONE`. -/
def INADDR_NONE : Nat := 0xffffffff

/-- An (S,G) key, `struct prefix_sg`; addresses are the 32-bit `s_addr` values. -/
structure prefix_sg where
  src : Nat
  grp : Nat
deriving DecidableEq, Repr

/-- The kernel forwarding-cache control block, `struct mfcctl`; `mfcc_ttls` is
the per-VIF output array. -/
structure mfcctl where
  mfcc_origin : Nat
  mfcc_mcastgrp : Nat
  mfcc_parent : Nat
  mfcc_ttls : List Nat
deriving DecidableEq, Repr

/-- The VIF control block, `struct vifctl`, with the fields `pim_mroute.c` fills. -/
structure vifctl where
  vifc_vifi : Nat
  vifc_flags : Nat
  vifc_threshold : Nat
  vifc_rate_limit : Nat
  vifc_lcl_ifindex : Nat
  vifc_lcl_addr : Nat
deriving DecidableEq, Repr

/-- Packet and byte counters of a cache entry, `struct channel_counts`. -/
structure channel_counts where
  lastused : Nat
  pktcnt : Nat
  oldpktcnt : Nat
  bytecnt : Nat
  oldbytecnt : Nat
  wrong_if : Nat
  oldwrong_if : Nat
  oldlastused : Nat
deriving DecidableEq, Repr

/-- A forwarding-cache entry, `struct channel_oil`.  `installed` is the C `int`
flag: `0` is "not installed". -/
structure channel_oil where
  oil : mfcctl
  installed : Int
  oil_size : Int
  oil_ref_count : Int
  oif_flags : List Nat
  cc : channel_counts
deriving DecidableEq, Repr

/-! ## Interfaces and protocol records -/

/-- Modelled from the spec: the SSM-only interface type `PIM_INTERFACE_SSM`
(pim_iface.h). -/
def PIM_INTERFACE_SSM : Nat := 0

/-- Modelled from the spec: the any-source interface type `PIM_INTERFACE_SM`
(pim_iface.h). -/
def PIM_INTERFACE_SM : Nat := 1

/-- Per-interface PIM state, `struct pim_interface` (the fields read here). -/
structure pim_interface where
  itype : Nat
  mroute_vif_index : Nat
  primary_address : Nat
  pim_dr_addr : Nat
deriving DecidableEq, Repr

/-- A network interface, `struct interface`; `info` is the nullable pointer to
the PIM state, `connected` the connected prefixes as (address, prefix length). -/
structure interface where
  name : String
  ifindex : Nat
  connected : List (Nat × Nat)
  info : Option pim_interface
deriving DecidableEq, Repr

/-- A next hop, `struct pim_nexthop`; `interface` is a nullable pointer. -/
structure pim_nexthop where
  interface : Option interface
  mrib_nexthop_addr : Nat
deriving DecidableEq, Repr

/-- An RPF record, `struct pim_rpf`. -/
structure pim_rpf where
  source_nexthop : pim_nexthop
  rpf_addr : Nat
deriving DecidableEq, Repr

/-- Upstream join state, `enum pim_upstream_state`. -/
inductive pim_upstream_state where
  | PIM_UPSTREAM_NOTJOINED
  | PIM_UPSTREAM_JOINED
deriving DecidableEq, Repr

/-- The SPT bit, `enum pim_upstream_sptbit`. -/
inductive pim_upstream_sptbit where
  | PIM_UPSTREAM_SPTBIT_FALSE
  | PIM_UPSTREAM_SPTBIT_TRUE
deriving DecidableEq, Repr

/-- Per-(S,G) upstream state, `struct pim_upstream`.  `channel_oil` is the
nullable pointer to the cache entry, an index into `World.oils`; `t_rs_timer`
and `t_ka_timer` are the nullable timer handles (the keepalive one holds the
time it was started with). -/
structure pim_upstream where
  sg : prefix_sg
  upstream_register : Nat
  fhr : Int
  ref_count : Int
  channel_oil : Option Nat
  join_state : pim_upstream_state
  sptbit : pim_upstream_sptbit
  rpf : pim_rpf
  t_rs_timer : Bool
  t_ka_timer : Option Nat
deriving DecidableEq, Repr

/-- Assert state of a per-interface channel, `enum pim_ifassert_state`. -/
inductive pim_ifassert_state where
  | PIM_IFASSERT_NOINFO
  | PIM_IFASSERT_I_AM_WINNER
  | PIM_IFASSERT_I_AM_LOSER
deriving DecidableEq, Repr

/-- Per-interface (S,G) channel state, `struct pim_ifchannel`; `interface` is
the `ifindex` of the interface it hangs off. -/
structure pim_ifchannel where
  interface : Nat
  sg : prefix_sg
  flags : Nat
  ifassert_state : pim_ifassert_state
deriving DecidableEq, Repr

/-! ## External actions -/

/-- The socket options issued on the multicast routing socket, with the
argument block each carries. -/
inductive SockOpt where
  | MRT_INIT
  | MRT_DONE
  | MRT_PIM (upcalls : Nat)
  | MRT_ADD_VIF (vc : vifctl)
  | MRT_DEL_VIF (vc : vifctl)
  | MRT_ADD_MFC (oil : mfcctl)
  | MRT_DEL_MFC (oil : mfcctl)
deriving DecidableEq, Repr

/-- Privilege operations of `pimd_privs.change`. -/
inductive zebra_privs_ops_t where
  | ZPRIVS_RAISE
  | ZPRIVS_LOWER
deriving DecidableEq, Repr

/-- The externally visible actions, each with the result it returned. -/
inductive Event where
  | privs_change (op : zebra_privs_ops_t) (ret : Int)
  | socket (ret : Int)
  | setsockopt (fd : Int) (opt : SockOpt) (ret : Int)
  | close (fd : Int) (ret : Int)
  | read (fd : Int) (ret : Int)
  | ioctl_SIOCGETSGCNT (fd : Int) (src grp : Nat) (ret : Int)
  | thread_add_read (fd : Int)
  | thread_cancel (fd : Int)
  | alloc (ret : Int)
  | pim_zlookup_sg_statistics (sg : prefix_sg)
  | pim_upstream_keep_alive_timer_start (sg : prefix_sg) (time : Nat)
  | pim_channel_add_oif (sg : prefix_sg) (oif : Nat) (proto_mask : Nat)
  | pim_register_send (payload : List Nat) (len : Nat) (src : Nat) (rpg : pim_rpf)
      (null_register : Int)
  | pim_nexthop_lookup (addr : Nat) (ret : Int)
  | pim_register_stop_send (ifp : Option interface) (sg : prefix_sg) (src originator : Nat)
  | pim_upstream_inherited_olist (sg : prefix_sg)
  | assert_action_a1 (ifindex : Nat) (sg : prefix_sg) (ret : Int)
deriving DecidableEq, Repr

/-- Undefined behaviour and aborts. -/
inductive Fault where
  | null_deref
  | out_of_bounds
  | assert_failed
  | uninitialised
deriving DecidableEq, Repr

/-! ## The process state -/

/-- The globals of pimd that `pim_mroute.c` reads or writes, the protocol
tables of its collaborators, and the scripted environment. -/
structure World where
  /-- The multicast routing socket, `-1` when forwarding is disabled. -/
  qpim_mroute_socket_fd : Int
  /-- The armed read registration (the descriptor it waits on), if any. -/
  qpim_mroute_socket_reader : Option Int
  qpim_mroute_socket_creation : Nat
  qpim_mroute_add_last : Nat
  qpim_mroute_add_events : Int
  qpim_mroute_del_last : Nat
  qpim_mroute_del_events : Int
  qpim_keep_alive_time : Nat
  /-- The debug switches `PIM_DEBUG_MROUTE` and `PIM_DEBUG_MROUTE_DETAIL`. -/
  debug_mroute : Bool
  debug_mroute_detail : Bool
  /-- The compile-time switch `VIFF_USE_IFINDEX`. -/
  viff_use_ifindex : Bool
  /-- The value `pim_time_monotonic_sec` returns. -/
  clock : Nat
  /-- The interface list. -/
  ifaces : List interface
  /-- The VIF index of the PIM-register pseudo-interface `pim_regiface`. -/
  pim_regiface : Nat
  /-- The RP of each group; a group without an entry is unresolved. -/
  rp : List (Nat × pim_rpf)
  /-- The next-hop resolver's table, address to next hop. -/
  nexthops : List (Nat × pim_nexthop)
  /-- The forwarding-cache table; a `channel_oil` pointer is an index into it. -/
  oils : List channel_oil
  /-- The upstream table; a `pim_upstream` pointer is an index into it. -/
  upstreams : List pim_upstream
  /-- The per-interface channels; a `pim_ifchannel` pointer is an index. -/
  ifchannels : List pim_ifchannel
  /-- The kernel's per-(S,G) counters: (pktcnt, bytecnt, wrong_if). -/
  sgcnt : List (prefix_sg × Nat × Nat × Nat)
  /-- The statistics collaborator's per-(S,G) answer:
  (lastused, pktcnt, bytecnt, wrong_if). -/
  zstats : List (prefix_sg × Nat × Nat × Nat × Nat)
  /-- Datagrams waiting on the socket: the value `read` returns and the
  contents of the 2000-byte buffer after the call. -/
  inbox : List (Int × List Nat)
  /-- Scripted results of the external calls, in call order (`0` once exhausted). -/
  env : List Int
  /-- The external actions performed so far, oldest first. -/
  trace : List Event
deriving DecidableEq, Repr

/-- Modelled from the spec: the macro `PIM_MROUTE_IS_ENABLED` (pimd.h):
forwarding reads as enabled while the socket descriptor is valid. -/
def PIM_MROUTE_IS_ENABLED (w : World) : Bool := decide (0 ≤ w.qpim_mroute_socket_fd)

/-- Modelled from the spec: the macro `PIM_MROUTE_IS_DISABLED` (pimd.h):
forwarding reads as disabled while the socket descriptor is invalid (`-1`). -/
def PIM_MROUTE_IS_DISABLED (w : World) : Bool := decide (w.qpim_mroute_socket_fd < 0)

/-- One external call: take the next scripted result and record the action. -/
def extcall (w : World) (ev : Int → Event) : Int × World :=
  let r := w.env.headD 0
  (r, { w with env := w.env.tail, trace := w.trace ++ [ev r] })

/-- An external action without a result of interest: record it. -/
def emit (w : World) (ev : Event) : World :=
  { w with trace := w.trace ++ [ev] }

/-- The system call `setsockopt(fd, IPPROTO_IP, opt, ...)`. -/
def setsockopt (w : World) (fd : Int) (opt : SockOpt) : Int × World :=
  extcall w (Event.setsockopt fd opt)

/-- The system call `close(fd)`. -/
def close (w : World) (fd : Int) : Int × World :=
  extcall w (Event.close fd)

/-- Read of `a[i]` in a C array. -/
def arr_get (a : List Nat) (i : Nat) : Except Fault Nat :=
  match a[i]? with
  | some v => .ok v
  | none => .error Fault.out_of_bounds

/-- Write `a[i] = v` in a C array. -/
def arr_set (a : List Nat) (i : Nat) (v : Nat) : Except Fault (List Nat) :=
  if i < a.length then .ok (a.set i v) else .error Fault.out_of_bounds

/-- The upcall type `IGMPMSG_NOCACHE` of the kernel ABI (its index in
`igmpmsgtype2str`). -/
def IGMPMSG_NOCACHE : Nat := 1
/-- The upcall type `IGMPMSG_WRONGVIF` of the kernel ABI. -/
def IGMPMSG_WRONGVIF : Nat := 2
/-- The upcall type `IGMPMSG_WHOLEPKT` of the kernel ABI. -/
def IGMPMSG_WHOLEPKT : Nat := 3
/-- The upcall type `IGMPMSG_WRVIFWHOLE` of the kernel ABI. -/
def IGMPMSG_WRVIFWHOLE : Nat := 4

/-! ## Kernel socket manager -/

/-- `pim_mroute_set(fd, enable)`: start or stop kernel forwarding; when
starting, also register for the `WRVIFWHOLE` upcalls. -/
def pim_mroute_set (w : World) (fd : Int) (enable : Bool) : Int × World :=
  let opt := if enable then SockOpt.MRT_INIT else SockOpt.MRT_DONE
  let (err, w) := setsockopt w fd opt
  if err ≠ 0 then (-1, w)
  else if enable then
    let upcalls := IGMPMSG_WRVIFWHOLE
    let (err, w) := setsockopt w fd (SockOpt.MRT_PIM upcalls)
    if err ≠ 0 then (-1, w) else (0, w)
  else (0, w)

/-- `pim_mroute_add(c_oil)`: program one forwarding-cache entry into the
kernel.  Returns the return code, the entry as left in memory, and the world. -/
def pim_mroute_add (w : World) (c_oil : channel_oil) :
    Except Fault (Int × channel_oil × World) := do
  let w := { w with qpim_mroute_add_last := w.clock,
                    qpim_mroute_add_events := w.qpim_mroute_add_events + 1 }
  if PIM_MROUTE_IS_DISABLED w then
    return (-1, c_oil, w)
  -- the kernel expects the incoming vif in the outgoing list of a (*,G)
  let (orig, c_oil) ←
    if c_oil.oil.mfcc_origin = INADDR_ANY then do
      let v ← arr_get c_oil.oil.mfcc_ttls c_oil.oil.mfcc_parent
      let ttls ← arr_set c_oil.oil.mfcc_ttls c_oil.oil.mfcc_parent 1
      pure (v, { c_oil with oil := { c_oil.oil with mfcc_ttls := ttls } })
    else pure (0, c_oil)
  -- an unresolved (S,G) entry is owned by pimreg: use it as IIF for the first call
  let (orig_iif_vif, c_oil) :=
    if c_oil.installed = 0 ∧ c_oil.oil.mfcc_origin ≠ INADDR_ANY ∧ c_oil.oil.mfcc_parent ≠ 0 then
      (c_oil.oil.mfcc_parent, { c_oil with oil := { c_oil.oil with mfcc_parent := 0 } })
    else (0, c_oil)
  let (err, w) := setsockopt w w.qpim_mroute_socket_fd (SockOpt.MRT_ADD_MFC c_oil.oil)
  let (err, c_oil, w) :=
    if err = 0 ∧ c_oil.installed = 0 ∧ c_oil.oil.mfcc_origin ≠ INADDR_ANY ∧ orig_iif_vif ≠ 0 then
      let c_oil := { c_oil with oil := { c_oil.oil with mfcc_parent := orig_iif_vif } }
      let (err, w) := setsockopt w w.qpim_mroute_socket_fd (SockOpt.MRT_ADD_MFC c_oil.oil)
      (err, c_oil, w)
    else (err, c_oil, w)
  let c_oil ←
    if c_oil.oil.mfcc_origin = INADDR_ANY then do
      let ttls ← arr_set c_oil.oil.mfcc_ttls c_oil.oil.mfcc_parent orig
      pure { c_oil with oil := { c_oil.oil with mfcc_ttls := ttls } }
    else pure c_oil
  if err ≠ 0 then
    return (-2, c_oil, w)
  return (0, { c_oil with installed := 1 }, w)

/-- `pim_mroute_del(c_oil)`: delete the kernel-side entry. -/
def pim_mroute_del (w : World) (c_oil : channel_oil) : Int × channel_oil × World :=
  let w := { w with qpim_mroute_del_last := w.clock,
                    qpim_mroute_del_events := w.qpim_mroute_del_events + 1 }
  if PIM_MROUTE_IS_DISABLED w then (-1, c_oil, w)
  else
    let (err, w) := setsockopt w w.qpim_mroute_socket_fd (SockOpt.MRT_DEL_MFC c_oil.oil)
    if err ≠ 0 then (-2, c_oil, w)
    else (0, { c_oil with installed := 0 }, w)

/-- `mroute_read_off()`, that is `THREAD_OFF(qpim_mroute_socket_reader)`: cancel
the read registration if there is one and clear the handle. -/
def mroute_read_off (w : World) : World :=
  match w.qpim_mroute_socket_reader with
  | some fd => { emit w (Event.thread_cancel fd) with qpim_mroute_socket_reader := none }
  | none => w

/-- `pim_mroute_socket_disable()`. -/
def pim_mroute_socket_disable (w : World) : Int × World :=
  if PIM_MROUTE_IS_DISABLED w then (-1, w)
  else
    let (r, w) := pim_mroute_set w w.qpim_mroute_socket_fd false
    if r ≠ 0 then (-2, w)
    else
      let (r, w) := close w w.qpim_mroute_socket_fd
      if r ≠ 0 then (-3, w)
      else
        let w := mroute_read_off w
        (0, { w with qpim_mroute_socket_fd := -1 })

/-- Modelled from the spec: the constant `PIM_MROUTE_MIN_TTL` (pim_mroute.h), the
value of an enabled output slot. -/
def PIM_MROUTE_MIN_TTL : Nat := 1

/-- `pim_mroute_add_vif(ifp, ifaddr, flags)`: register the interface's VIF.
`vifc_vifi` is the 16-bit `vifi_t` and `vifc_flags` an `unsigned char`: the
assignments truncate. -/
def pim_mroute_add_vif (w : World) (ifp : Option interface) (ifaddr : Nat) (flags : Nat) :
    Except Fault (Int × World) := do
  let some ifp := ifp | throw Fault.null_deref
  let pim_ifp := ifp.info
  if PIM_MROUTE_IS_DISABLED w then
    return (-1, w)
  let some pim_ifp := pim_ifp | throw Fault.null_deref
  let vc : vifctl :=
    { vifc_vifi := pim_ifp.mroute_vif_index % 2 ^ 16, vifc_flags := 0, vifc_threshold := 0,
      vifc_rate_limit := 0, vifc_lcl_ifindex := 0, vifc_lcl_addr := 0 }
  if ¬ w.viff_use_ifindex ∧ ifaddr = INADDR_ANY then
    return (-1, w)
  let vc :=
    if w.viff_use_ifindex then { vc with vifc_lcl_ifindex := ifp.ifindex }
    else { vc with vifc_lcl_addr := ifaddr }
  let vc := { vc with vifc_flags := flags % 256, vifc_threshold := PIM_MROUTE_MIN_TTL,
                      vifc_rate_limit := 0 }
  let (err, w) := setsockopt w w.qpim_mroute_socket_fd (SockOpt.MRT_ADD_VIF vc)
  if err ≠ 0 then
    return (-2, w)
  return (0, w)

/-- `pim_mroute_del_vif(vif_index)`: unregister a VIF; the index is truncated
to the 16-bit `vifi_t` of `vifc_vifi`. -/
def pim_mroute_del_vif (w : World) (vif_index : Nat) : Int × World :=
  if PIM_MROUTE_IS_DISABLED w then (-1, w)
  else
    let vc : vifctl :=
      { vifc_vifi := vif_index % 2 ^ 16, vifc_flags := 0, vifc_threshold := 0,
        vifc_rate_limit := 0, vifc_lcl_ifindex := 0, vifc_lcl_addr := 0 }
    let (err, w) := setsockopt w w.qpim_mroute_socket_fd (SockOpt.MRT_DEL_VIF vc)
    if err ≠ 0 then (-2, w) else (0, w)

/-- `mroute_read_on()`: arm the read registration on the control socket.
`THREAD_READ_ON` adds the read only when the handle is null. -/
def mroute_read_on (w : World) : Except Fault World :=
  if w.qpim_mroute_socket_reader.isSome then .error Fault.assert_failed
  else if ¬ PIM_MROUTE_IS_ENABLED w then .error Fault.assert_failed
  else
    .ok { emit w (Event.thread_add_read w.qpim_mroute_socket_fd) with
          qpim_mroute_socket_reader := some w.qpim_mroute_socket_fd }

/-- `pim_mroute_socket_enable()`. -/
def pim_mroute_socket_enable (w : World) : Except Fault (Int × World) := do
  if PIM_MROUTE_IS_ENABLED w then
    return (-1, w)
  let (_, w) := extcall w (Event.privs_change zebra_privs_ops_t.ZPRIVS_RAISE)
  let (fd, w) := extcall w Event.socket
  let (_, w) := extcall w (Event.privs_change zebra_privs_ops_t.ZPRIVS_LOWER)
  if fd < 0 then
    return (-2, w)
  let (r, w) := pim_mroute_set w fd true
  if r ≠ 0 then
    let (_, w) := close w fd
    return (-3, w)
  let w := { w with qpim_mroute_socket_fd := fd }
  let w := { w with qpim_mroute_socket_creation := w.clock }
  let w ← mroute_read_on w
  return (0, w)

/-! ## Collaborators -/

/-- Read of a pointer `p[i]` into one of the tables; a dangling pointer faults. -/
def deref {α : Type} (l : List α) (i : Nat) : Except Fault α :=
  match l[i]? with
  | some a => .ok a
  | none => .error Fault.null_deref

/-- Write through a pointer into one of the tables. -/
def upd {α : Type} (l : List α) (i : Nat) (f : α → α) : List α :=
  match l[i]? with
  | some a => l.set i (f a)
  | none => l

/-- Modelled from the spec: `pim_zlookup_sg_statistics` (pim_zlookup.c), the
external statistics collaborator.  It overwrites the current counters of the
entry with its answer for the entry's (S,G), when it has one. -/
def pim_zlookup_sg_statistics (w : World) (c_oil : channel_oil) : channel_oil × World :=
  let sg : prefix_sg := { src := c_oil.oil.mfcc_origin, grp := c_oil.oil.mfcc_mcastgrp }
  let w := emit w (Event.pim_zlookup_sg_statistics sg)
  match w.zstats.lookup sg with
  | some (lastused, pktcnt, bytecnt, wrong_if) =>
    let cc := { c_oil.cc with
      lastused := lastused, pktcnt := pktcnt, bytecnt := bytecnt, wrong_if := wrong_if }
    ({ c_oil with cc := cc }, w)
  | none => (c_oil, w)

/-- `pim_mroute_update_counters(c_oil)`: snapshot the counters and refresh
them from the statistics collaborator and the kernel. -/
def pim_mroute_update_counters (w : World) (c_oil : channel_oil) : channel_oil × World :=
  let src := c_oil.oil.mfcc_origin
  let grp := c_oil.oil.mfcc_mcastgrp
  let c_oil := { c_oil with cc := { c_oil.cc with oldpktcnt := c_oil.cc.pktcnt } }
  let c_oil := { c_oil with cc := { c_oil.cc with oldbytecnt := c_oil.cc.bytecnt } }
  let c_oil := { c_oil with cc := { c_oil.cc with oldwrong_if := c_oil.cc.wrong_if } }
  let c_oil := { c_oil with cc := { c_oil.cc with oldlastused := c_oil.cc.lastused } }
  let (c_oil, w) := pim_zlookup_sg_statistics w c_oil
  let (err, w) := extcall w (Event.ioctl_SIOCGETSGCNT w.qpim_mroute_socket_fd src grp)
  if err ≠ 0 then (c_oil, w)
  else
    let sgreq := (w.sgcnt.lookup { src := src, grp := grp }).getD (0, 0, 0)
    let c_oil := { c_oil with cc := { c_oil.cc with pktcnt := sgreq.1 } }
    let c_oil := { c_oil with cc := { c_oil.cc with bytecnt := sgreq.2.1 } }
    let c_oil := { c_oil with cc := { c_oil.cc with wrong_if := sgreq.2.2 } }
    (c_oil, w)

/-- Modelled from the spec: `RP(G)` (pim_rp.c), the RP resolver: the RPF record
of the group's RP, or a record whose `rpf_addr` is the unresolved sentinel. -/
def RP (w : World) (grp : Nat) : pim_rpf :=
  (w.rp.lookup grp).getD
    { source_nexthop := { interface := none, mrib_nexthop_addr := 0 }, rpf_addr := INADDR_NONE }

/-- Modelled from the spec: `pim_if_find_by_vif_index` (pim_iface.c), the
interface table: the interface whose PIM state carries the VIF index, or null. -/
def pim_if_find_by_vif_index (w : World) (vif_index : Nat) : Option interface :=
  w.ifaces.find? fun ifp =>
    match ifp.info with
    | some pim_ifp => decide (pim_ifp.mroute_vif_index = vif_index)
    | none => false

/-- Modelled from the spec: the macro `PIM_I_am_DR` (pim_iface.h): this router
is the Designated Router on the interface. -/
def PIM_I_am_DR (pim_ifp : pim_interface) : Bool :=
  decide (pim_ifp.pim_dr_addr = pim_ifp.primary_address)

/-- Match of an address against a connected prefix (address, prefix length). -/
def prefix_match (p : Nat × Nat) (addr : Nat) : Bool :=
  decide (p.2 ≤ 32 ∧ p.1 / 2 ^ (32 - p.2) = addr / 2 ^ (32 - p.2))

/-- Modelled from the spec: `pim_if_connected_to_source` (pim_iface.c): the
source lies in one of the interface's connected subnets. -/
def pim_if_connected_to_source (ifp : Option interface) (src : Nat) : Except Fault Bool :=
  match ifp with
  | none => .error Fault.null_deref
  | some ifp => .ok (ifp.connected.any fun p => prefix_match p src)

/-- The number of VIF slots of the kernel arrays, `MAXVIFS` of the kernel ABI. -/
def MAXVIFS : Nat := 32

/-- The key of a cache entry. -/
def channel_oil.sg (c : channel_oil) : prefix_sg :=
  { src := c.oil.mfcc_origin, grp := c.oil.mfcc_mcastgrp }

/-- Modelled from the spec: `pim_channel_oil_add` (pim_oil.c), lookup-or-create
of the cache entry of (S,G): an existing entry gains a reference; otherwise a
fresh, uninstalled entry with the given parent VIF is allocated, which can
fail (null). -/
def pim_channel_oil_add (w : World) (sg : prefix_sg) (input_vif_index : Nat) :
    Option Nat × World :=
  match w.oils.findIdx? fun c => decide (c.sg = sg) with
  | some i =>
    (some i, { w with oils := upd w.oils i (fun c =>
      { c with oil_ref_count := c.oil_ref_count + 1 }) })
  | none =>
    let (r, w) := extcall w Event.alloc
    if r ≠ 0 then (none, w)
    else
      let c : channel_oil :=
        { oil := { mfcc_origin := sg.src, mfcc_mcastgrp := sg.grp,
                   mfcc_parent := input_vif_index, mfcc_ttls := List.replicate MAXVIFS 0 },
          installed := 0, oil_size := 0, oil_ref_count := 1,
          oif_flags := List.replicate MAXVIFS 0,
          cc := { lastused := 0, pktcnt := 0, oldpktcnt := 0, bytecnt := 0, oldbytecnt := 0,
                  wrong_if := 0, oldwrong_if := 0, oldlastused := 0 } }
      (some w.oils.length, { w with oils := w.oils ++ [c] })

/-- Modelled from the spec: `pim_upstream_find` (pim_upstream.c), the upstream
table lookup by (S,G). -/
def pim_upstream_find (w : World) (sg : prefix_sg) : Option Nat :=
  w.upstreams.findIdx? fun u => decide (u.sg = sg)

/-- Modelled from the spec: `pim_upstream_add` (pim_upstream.c), lookup-or-create
of the upstream record of (S,G): an existing record gains a reference; otherwise
a fresh record is allocated (not joined, SPT bit off, not FHR, no cache entry,
no timers, RPF next hop from the next-hop resolver), which can fail (null). -/
def pim_upstream_add (w : World) (sg : prefix_sg) (_ifp : Option interface) :
    Option Nat × World :=
  match pim_upstream_find w sg with
  | some i =>
    (some i, { w with upstreams := upd w.upstreams i (fun u =>
      { u with ref_count := u.ref_count + 1 }) })
  | none =>
    let (r, w) := extcall w Event.alloc
    if r ≠ 0 then (none, w)
    else
      let nh : pim_nexthop :=
        (w.nexthops.lookup sg.src).getD { interface := none, mrib_nexthop_addr := 0 }
      let u : pim_upstream :=
        { sg := sg, upstream_register := 0, fhr := 0, ref_count := 1, channel_oil := none,
          join_state := pim_upstream_state.PIM_UPSTREAM_NOTJOINED,
          sptbit := pim_upstream_sptbit.PIM_UPSTREAM_SPTBIT_FALSE,
          rpf := { source_nexthop := nh, rpf_addr := nh.mrib_nexthop_addr },
          t_rs_timer := false, t_ka_timer := none }
      (some w.upstreams.length, { w with upstreams := w.upstreams ++ [u] })

/-- Modelled from the spec: `pim_upstream_keep_alive_timer_start`
(pim_upstream.c): (re)start the keepalive timer of the record with the given
duration. -/
def pim_upstream_keep_alive_timer_start (w : World) (up : Nat) (time : Nat) :
    Except Fault World := do
  let u ← deref w.upstreams up
  let w := emit w (Event.pim_upstream_keep_alive_timer_start u.sg time)
  return { w with upstreams := upd w.upstreams up (fun u => { u with t_ka_timer := some time }) }

/-- Modelled from the spec: the constant `PIM_OIF_FLAG_PROTO_PIM` (pim_oil.h), the
"added by PIM protocol" flag of an outgoing interface. -/
def PIM_OIF_FLAG_PROTO_PIM : Nat := 2

/-- Modelled from the spec: `pim_channel_add_oif` (pim_oil.c): add the
interface with the given VIF index to the entry's outgoing set, with the given
protocol flag.  A VIF index outside the arrays is rejected without change. -/
def pim_channel_add_oif (w : World) (oil : Nat) (oif : Nat) (proto_mask : Nat) :
    Except Fault World := do
  let c ← deref w.oils oil
  let w := emit w (Event.pim_channel_add_oif c.sg oif proto_mask)
  if oif < c.oil.mfcc_ttls.length ∧ oif < c.oif_flags.length then
    return { w with oils := upd w.oils oil (fun c =>
      { c with oil := { c.oil with mfcc_ttls := c.oil.mfcc_ttls.set oif PIM_MROUTE_MIN_TTL },
               oif_flags := upd c.oif_flags oif (fun f => f ||| proto_mask) }) }
  return w

/-- Modelled from the spec: `pim_ifchannel_find` (pim_ifchannel.c), the
per-interface channel table lookup by (interface, S,G). -/
def pim_ifchannel_find (w : World) (ifp : Option interface) (sg : prefix_sg) :
    Except Fault (Option Nat) :=
  match ifp with
  | none => .error Fault.null_deref
  | some ifp =>
    .ok (w.ifchannels.findIdx? fun ch => decide (ch.interface = ifp.ifindex ∧ ch.sg = sg))

/-- Modelled from the spec: the constant `PIM_IF_MASK_COULD_ASSERT`
(pim_ifchannel.h), the could-assert bit of the channel flags. -/
def PIM_IF_MASK_COULD_ASSERT : Nat := 1

/-- Modelled from the spec: the macro `PIM_IF_FLAG_TEST_COULD_ASSERT`
(pim_ifchannel.h): the could-assert capability flag is set. -/
def PIM_IF_FLAG_TEST_COULD_ASSERT (flags : Nat) : Bool :=
  decide (flags &&& PIM_IF_MASK_COULD_ASSERT ≠ 0)

/-- Modelled from the spec: `assert_action_a1` (pim_assert.c), the Assert
transition A1: on success the channel becomes "I am Assert Winner". -/
def assert_action_a1 (w : World) (ch : Nat) : Except Fault (Int × World) := do
  let c ← deref w.ifchannels ch
  let (r, w) := extcall w (Event.assert_action_a1 c.interface c.sg)
  if r ≠ 0 then
    return (r, w)
  return (0, { w with ifchannels := upd w.ifchannels ch (fun c =>
    { c with ifassert_state := pim_ifassert_state.PIM_IFASSERT_I_AM_WINNER }) })

/-- Modelled from the spec: `pim_nexthop_lookup` (pim_rpf.c), the next-hop
resolver: the next hop toward the address, when there is one. -/
def pim_nexthop_lookup (w : World) (addr : Nat) : Option pim_nexthop × World :=
  match w.nexthops.lookup addr with
  | some nh => (some nh, emit w (Event.pim_nexthop_lookup addr 0))
  | none => (none, emit w (Event.pim_nexthop_lookup addr (-1)))

/-! ## Wire format

The datagram is a byte buffer.  `struct ip` and `struct igmpmsg` are two views
of the same leading bytes: `ip_p` and `im_mbz` share byte 9, the addresses
share bytes 12 to 19. -/

/-- One byte of the buffer. -/
def rd_u8 (buf : List Nat) (off : Nat) : Except Fault Nat :=
  match buf[off]? with
  | some b => .ok (b % 256)
  | none => .error Fault.out_of_bounds

/-- A 16-bit field of the buffer, most significant byte first. -/
def rd_u16 (buf : List Nat) (off : Nat) : Except Fault Nat := do
  let b0 ← rd_u8 buf off
  let b1 ← rd_u8 buf (off + 1)
  return b0 * 256 + b1

/-- A 32-bit address field of the buffer, most significant byte first. -/
def rd_addr (buf : List Nat) (off : Nat) : Except Fault Nat := do
  let b0 ← rd_u8 buf off
  let b1 ← rd_u8 buf (off + 1)
  let b2 ← rd_u8 buf (off + 2)
  let b3 ← rd_u8 buf (off + 3)
  return ((b0 * 256 + b1) * 256 + b2) * 256 + b3

/-- The size of `struct ip`. -/
def sizeof_ip : Nat := 20

/-- The field `ip_len` of `struct ip`, after `ntohs`. -/
def ip_len (buf : List Nat) : Except Fault Nat := rd_u16 buf 2
/-- The field `ip_p` of `struct ip`. -/
def ip_p (buf : List Nat) : Except Fault Nat := rd_u8 buf 9
/-- The field `ip_src` of `struct ip`. -/
def ip_src (buf : List Nat) : Except Fault Nat := rd_addr buf 12
/-- The field `ip_dst` of `struct ip`. -/
def ip_dst (buf : List Nat) : Except Fault Nat := rd_addr buf 16
/-- The field `im_msgtype` of `struct igmpmsg`. -/
def im_msgtype (buf : List Nat) : Except Fault Nat := rd_u8 buf 8
/-- The field `im_vif` of `struct igmpmsg`. -/
def im_vif (buf : List Nat) : Except Fault Nat := rd_u8 buf 10
/-- The field `im_src` of `struct igmpmsg`. -/
def im_src (buf : List Nat) : Except Fault Nat := rd_addr buf 12
/-- The field `im_dst` of `struct igmpmsg`. -/
def im_dst (buf : List Nat) : Except Fault Nat := rd_addr buf 16

/-- The table `igmpmsgtype2str`, of `IGMPMSG_WRVIFWHOLE + 1` entries. -/
def igmpmsgtype2str : List String :=
  ["<unknown_upcall?>", "NOCACHE", "WRONGVIF", "WHOLEPKT", "WRVIFWHOLE"]

/-! ## Upcall handlers -/

/-- `pim_mroute_msg_nocache(fd, ifp, msg)`: a new source was detected. -/
def pim_mroute_msg_nocache (w : World) (_fd : Int) (ifp : Option interface) (msg : List Nat) :
    Except Fault (Int × World) := do
  let some ifp0 := ifp | throw Fault.null_deref
  let pim_ifp := ifp0.info
  let rpg := RP w (← im_dst msg)
  if rpg.rpf_addr = INADDR_NONE then
    return (0, w)
  let some pim_ifp := pim_ifp | return (0, w)
  if ¬ PIM_I_am_DR pim_ifp then
    return (0, w)
  if pim_ifp.itype = PIM_INTERFACE_SSM then
    return (0, w)
  if ¬ (← pim_if_connected_to_source ifp (← im_src msg)) then
    return (0, w)
  let sg : prefix_sg := { src := ← im_src msg, grp := ← im_dst msg }
  let (oil, w) := pim_channel_oil_add w sg pim_ifp.mroute_vif_index
  let some oil := oil | return (0, w)
  let (up, w) := pim_upstream_add w sg ifp
  let some up := up | return (0, w)
  let w ← pim_upstream_keep_alive_timer_start w up w.qpim_keep_alive_time
  -- up->channel_oil = oil
  let w := { w with upstreams := upd w.upstreams up (fun u => { u with channel_oil := some oil }) }
  -- up->channel_oil->cc.pktcnt++
  let w := { w with oils := upd w.oils oil (fun c =>
    { c with cc := { c.cc with pktcnt := (c.cc.pktcnt + 1) % 2 ^ 64 } }) }
  -- up->fhr = 1
  let w := { w with upstreams := upd w.upstreams up (fun u => { u with fhr := 1 }) }
  let w ← pim_channel_add_oif w oil w.pim_regiface PIM_OIF_FLAG_PROTO_PIM
  -- up->join_state = PIM_UPSTREAM_JOINED
  let w := { w with upstreams := upd w.upstreams up (fun u =>
    { u with join_state := pim_upstream_state.PIM_UPSTREAM_JOINED }) }
  return (0, w)

/-- `pim_mroute_msg_wholepkt(fd, ifp, buf)`: an encapsulated packet to Register. -/
def pim_mroute_msg_wholepkt (w : World) (_fd : Int) (_ifp : Option interface) (buf : List Nat) :
    Except Fault (Int × World) := do
  let sg : prefix_sg := { src := ← ip_src buf, grp := ← ip_dst buf }
  let some up := pim_upstream_find w sg | return (0, w)
  let u ← deref w.upstreams up
  let some rpf_ifp := u.rpf.source_nexthop.interface | throw Fault.null_deref
  let pim_ifp := rpf_ifp.info
  let rpg := RP w sg.grp
  if rpg.rpf_addr = INADDR_NONE then
    return (0, w)
  let some pim_ifp := pim_ifp | return (0, w)
  if ¬ PIM_I_am_DR pim_ifp then
    return (0, w)
  if pim_ifp.itype = PIM_INTERFACE_SSM then
    return (0, w)
  -- no Register while a register-suppression timer runs
  if ¬ u.t_rs_timer then
    let len ← ip_len buf
    return (0, emit w
      (Event.pim_register_send (buf.drop sizeof_ip) len pim_ifp.primary_address rpg 0))
  return (0, w)

/-- `pim_mroute_msg_wrongvif(fd, ifp, msg)`: the Assert trigger. -/
def pim_mroute_msg_wrongvif (w : World) (_fd : Int) (ifp : Option interface) (msg : List Nat) :
    Except Fault (Int × World) := do
  let sg : prefix_sg := { src := ← im_src msg, grp := ← im_dst msg }
  let some ifp0 := ifp | return (-1, w)
  let some _pim_ifp := ifp0.info | return (-2, w)
  let some ch ← pim_ifchannel_find w ifp sg | return (-3, w)
  let c ← deref w.ifchannels ch
  if c.ifassert_state ≠ pim_ifassert_state.PIM_IFASSERT_NOINFO then
    return (-4, w)
  if ¬ PIM_IF_FLAG_TEST_COULD_ASSERT c.flags then
    return (-5, w)
  let (r, w) ← assert_action_a1 w ch
  if r ≠ 0 then
    return (-6, w)
  return (0, w)

/-- The call `pim_mroute_add(p)` through a pointer `p` into the cache table. -/
def pim_mroute_add_at (w : World) (p : Nat) : Except Fault (Int × World) := do
  let c ← deref w.oils p
  let (r, c, w) ← pim_mroute_add w c
  return (r, { w with oils := w.oils.set p c })

/-- `pim_mroute_msg_wrvifwhole(fd, ifp, buf)`: the combined RP/FHR bootstrap. -/
def pim_mroute_msg_wrvifwhole (w : World) (fd : Int) (ifp : Option interface) (buf : List Nat) :
    Except Fault (Int × World) := do
  let sg : prefix_sg := { src := ← ip_src buf, grp := ← ip_dst buf }
  if w.debug_mroute then
    -- the debug line reads ifp->name
    let some _ := ifp | throw Fault.null_deref
  let ch ← pim_ifchannel_find w ifp sg
  if ch.isSome then
    return (-1, w)
  match pim_upstream_find w sg with
  | some up =>
    let u ← deref w.upstreams up
    if u.fhr = 0 then
      let rpf := RP w sg.grp
      let some rpf_ifp := rpf.source_nexthop.interface | throw Fault.null_deref
      let pim_ifp := rpf_ifp.info
      -- no if channel, but upstream: we are at the RP
      let (source, w) := pim_nexthop_lookup w u.upstream_register
      let some source := source | throw Fault.uninitialised
      let some pim_ifp := pim_ifp | throw Fault.null_deref
      let w := emit w (Event.pim_register_stop_send source.interface sg
        pim_ifp.primary_address u.upstream_register)
      let (oil, w) ←
        match u.channel_oil with
        | some oil => pure (some oil, w)
        | none =>
          let (oil, w) := pim_channel_oil_add w sg pim_ifp.mroute_vif_index
          -- up->channel_oil = pim_channel_oil_add (...)
          let ups := upd w.upstreams up (fun u => { u with channel_oil := oil })
          pure (oil, { w with upstreams := ups })
      let some oil := oil | throw Fault.null_deref
      let c ← deref w.oils oil
      let w ←
        if c.installed = 0 then do
          let (_, w) ← pim_mroute_add_at w oil
          pure w
        else pure w
      -- send the S bit down the join
      let w := { w with upstreams := upd w.upstreams up (fun u =>
        { u with sptbit := pim_upstream_sptbit.PIM_UPSTREAM_SPTBIT_TRUE }) }
      return (0, w)
    return (0, w)
  | none =>
    let some ifp0 := ifp | throw Fault.null_deref
    let some pim_ifp := ifp0.info | throw Fault.null_deref
    let (oil, w) := pim_channel_oil_add w sg pim_ifp.mroute_vif_index
    let some oil := oil | throw Fault.null_deref
    let c ← deref w.oils oil
    let w ←
      if c.installed = 0 then do
        let (_, w) ← pim_mroute_add_at w oil
        pure w
      else pure w
    if (← pim_if_connected_to_source ifp sg.src) then
      let (up, w) := pim_upstream_add w sg ifp
      let some up := up | return (-2, w)
      -- up->fhr = 1
      let w := { w with upstreams := upd w.upstreams up (fun u => { u with fhr := 1 }) }
      let w ← pim_upstream_keep_alive_timer_start w up w.qpim_keep_alive_time
      -- up->channel_oil = oil
      let w := { w with upstreams := upd w.upstreams up (fun u =>
        { u with channel_oil := some oil }) }
      -- up->channel_oil->cc.pktcnt++
      let w := { w with oils := upd w.oils oil (fun c =>
        { c with cc := { c.cc with pktcnt := (c.cc.pktcnt + 1) % 2 ^ 64 } }) }
      let w ← pim_channel_add_oif w oil w.pim_regiface PIM_OIF_FLAG_PROTO_PIM
      -- up->join_state = PIM_UPSTREAM_JOINED
      let w := { w with upstreams := upd w.upstreams up (fun u =>
        { u with join_state := pim_upstream_state.PIM_UPSTREAM_JOINED }) }
      let w := emit w (Event.pim_upstream_inherited_olist sg)
      -- send the packet to the RP
      let (_, w) ← pim_mroute_msg_wholepkt w fd ifp buf
      return (0, w)
    return (0, w)

/-! ## Upcall classifier -/

/-- `pim_mroute_msg(fd, buf, buf_size)`: classify one datagram and dispatch it. -/
def pim_mroute_msg (w : World) (fd : Int) (buf : List Nat) (_buf_size : Int) :
    Except Fault (Int × World) := do
  -- a kernel upcall must have protocol 0
  if (← ip_p buf) ≠ 0 then
    if w.debug_mroute_detail then
      -- the debug line dumps ip_src and ip_dst
      let _ ← ip_src buf
      let _ ← ip_dst buf
    return (0, w)
  let ifp := pim_if_find_by_vif_index w (← im_vif buf)
  if w.debug_mroute then
    -- the debug line reads igmpmsgtype2str[msg->im_msgtype] and ifp->name
    let _ ← im_src buf
    let _ ← im_dst buf
    let t ← im_msgtype buf
    let some _ := igmpmsgtype2str[t]? | throw Fault.out_of_bounds
    let some _ := ifp | throw Fault.null_deref
  let t ← im_msgtype buf
  if t = IGMPMSG_WRONGVIF then
    pim_mroute_msg_wrongvif w fd ifp buf
  else if t = IGMPMSG_NOCACHE then
    pim_mroute_msg_nocache w fd ifp buf
  else if t = IGMPMSG_WHOLEPKT then
    pim_mroute_msg_wholepkt w fd ifp buf
  else if t = IGMPMSG_WRVIFWHOLE then
    pim_mroute_msg_wrvifwhole w fd ifp buf
  else
    return (0, w)

/-- The size of the receive buffer of `mroute_read_msg`. -/
def MROUTE_BUF_SIZE : Nat := 2000

/-- The system call `read(fd, buf, sizeof(buf))` on the control socket: the
result and the contents of the buffer afterwards.  With nothing scripted the
read fails. -/
def read (w : World) (fd : Int) : Int × List Nat × World :=
  match w.inbox with
  | (rd, data) :: rest =>
    (rd, (data ++ List.replicate MROUTE_BUF_SIZE 0).take MROUTE_BUF_SIZE,
      { emit w (Event.read fd rd) with inbox := rest })
  | [] => (-1, List.replicate MROUTE_BUF_SIZE 0, emit w (Event.read fd (-1)))

/-- `mroute_read_msg(fd)`: one read, then classification. -/
def mroute_read_msg (w : World) (fd : Int) : Except Fault (Int × World) :=
  let (rd, buf, w) := read w fd
  if rd < 0 then .ok (-1, w)
  else pim_mroute_msg w fd buf rd

/-- A scheduler task, `struct thread`: its argument pointer and descriptor. -/
structure thread where
  arg : Option Nat
  fd : Int
deriving DecidableEq, Repr

/-- `mroute_read(t)`: the read task of the control socket. -/
def mroute_read (w : World) (t : Option thread) : Except Fault (Int × World) := do
  let some t := t | throw Fault.assert_failed
  if t.arg.isSome then
    throw Fault.assert_failed
  let fd := t.fd
  if fd ≠ w.qpim_mroute_socket_fd then
    throw Fault.assert_failed
  let (result, w) ← mroute_read_msg w fd
  -- keep reading
  let w := { w with qpim_mroute_socket_reader := none }
  let w ← mroute_read_on w
  return (result, w)

/-- The world after the bookkeeping at the head of `pim_mroute_add`. -/
def add_tick (w : World) : World :=
  { w with qpim_mroute_add_last := w.clock,
           qpim_mroute_add_events := w.qpim_mroute_add_events + 1 }

/-- The external actions performed between the worlds `w` and `w1`. -/
def new_events (w w1 : World) : List Event :=
  w1.trace.drop w.trace.length

/-! ## Sample data -/

/-- An idle world: forwarding enabled on descriptor 7, no tables. -/
def w0 : World :=
  { qpim_mroute_socket_fd := 7, qpim_mroute_socket_reader := some 7,
    qpim_mroute_socket_creation := 0, qpim_mroute_add_last := 0,
    qpim_mroute_add_events := 0, qpim_mroute_del_last := 0, qpim_mroute_del_events := 0,
    qpim_keep_alive_time := 210, debug_mroute := false, debug_mroute_detail := false,
    viff_use_ifindex := true, clock := 100, ifaces := [], pim_regiface := 0, rp := [], nexthops := [], oils := [],
    upstreams := [], ifchannels := [], sgcnt := [], zstats := [], inbox := [], env := [], trace := [] }

/-- An uninstalled (10.0.0.5, 224.1.1.1) entry with parent VIF 3. -/
def oil_sg : channel_oil :=
  { oil := { mfcc_origin := 0x0a000005, mfcc_mcastgrp := 0xe0010101, mfcc_parent := 3,
             mfcc_ttls := [0, 0, 1, 0, 0, 0, 0, 0] },
    installed := 0, oil_size := 1, oil_ref_count := 1, oif_flags := [0, 0, 1, 0, 0, 0, 0, 0],
    cc := { lastused := 0, pktcnt := 0, oldpktcnt := 0, bytecnt := 0, oldbytecnt := 0,
            wrong_if := 0, oldwrong_if := 0, oldlastused := 0 } }

/-- A (*, 224.1.1.1) entry with parent VIF 3, whose own output flag is off. -/
def oil_starg : channel_oil :=
  { oil_sg with oil := { oil_sg.oil with mfcc_origin := INADDR_ANY } }

/-- PIM state of `eth0`: sparse mode, VIF 1, address 10.0.0.1, itself the DR. -/
def pim_eth0 : pim_interface :=
  { itype := PIM_INTERFACE_SM, mroute_vif_index := 1, primary_address := 0x0a000001,
    pim_dr_addr := 0x0a000001 }

/-- The interface `eth0` on 10.0.0.0/24. -/
def eth0 : interface :=
  { name := "eth0", ifindex := 2, connected := [(0x0a000000, 24)], info := some pim_eth0 }

/-- The RPF record of the RP 10.0.0.99, reached over `eth0`. -/
def rp_10_0_0_99 : pim_rpf :=
  { source_nexthop := { interface := some eth0, mrib_nexthop_addr := 0x0a000063 },
    rpf_addr := 0x0a000063 }

/-- A world with `eth0` and an RP for 224.1.1.1. -/
def w_eth0 : World :=
  { w0 with ifaces := [eth0], rp := [(0xe0010101, rp_10_0_0_99)] }

/-- An ordinary IP datagram: protocol 17, from 10.0.0.5 to 224.1.1.1. -/
def udp_datagram : List Nat :=
  [69, 0, 0, 20, 0, 0, 0, 0, 1, 17, 0, 0, 10, 0, 0, 5, 224, 1, 1, 1]

/-- An upcall header of the given type and VIF for the given source and group bytes. -/
def upcall (msgtype vif : Nat) (src grp : List Nat) : List Nat :=
  List.replicate 8 0 ++ [msgtype, 0, vif, 0] ++ src ++ grp

/-- The key (10.0.0.5, 224.1.1.1). -/
def sg_5 : prefix_sg := { src := 0x0a000005, grp := 0xe0010101 }

/-- A WRONGVIF/WRVIFWHOLE/WHOLEPKT/NOCACHE header for (10.0.0.5, 224.1.1.1) on VIF 1. -/
def upcall_5 (msgtype : Nat) : List Nat :=
  upcall msgtype 1 [10, 0, 0, 5] [224, 1, 1, 1]

/-- The channel of (10.0.0.5, 224.1.1.1) on `eth0`: Assert NoInfo, could-assert set. -/
def ch_eth0 : pim_ifchannel :=
  { interface := 2, sg := sg_5, flags := 1,
    ifassert_state := pim_ifassert_state.PIM_IFASSERT_NOINFO }

/-- The world `w_eth0` with the channel `ch_eth0`. -/
def w_ch : World := { w_eth0 with ifchannels := [ch_eth0] }

/-- The installed cache entry of (10.0.0.5, 224.1.1.1) with parent VIF 1. -/
def oil_5 : channel_oil :=
  { oil_sg with oil := { oil_sg.oil with mfcc_parent := 1 }, installed := 1 }

/-- An FHR-flagged, joined upstream record of (10.0.0.5, 224.1.1.1) over `eth0`. -/
def up_fhr : pim_upstream :=
  { sg := sg_5, upstream_register := 0, fhr := 1, ref_count := 1, channel_oil := some 0,
    join_state := pim_upstream_state.PIM_UPSTREAM_JOINED,
    sptbit := pim_upstream_sptbit.PIM_UPSTREAM_SPTBIT_FALSE,
    rpf := { source_nexthop := { interface := some eth0, mrib_nexthop_addr := 0x0a000005 },
             rpf_addr := 0x0a000005 },
    t_rs_timer := false, t_ka_timer := some 210 }

/-- The world `w_eth0` with the entry `oil_5` and the FHR record `up_fhr`. -/
def w_fhr : World := { w_eth0 with oils := [oil_5], upstreams := [up_fhr] }

/-- A record of (10.0.0.5, 224.1.1.1) at the RP: not FHR, registered by
10.0.0.7, attached to the entry at index 0. -/
def up_rp : pim_upstream :=
  { up_fhr with upstream_register := 0x0a000007, fhr := 0 }

/-- The RP's world: the uninstalled entry, the record at the RP and a next hop
toward the registering router 10.0.0.7 over `eth0`. -/
def w_rp : World :=
  { w_eth0 with nexthops := [(0x0a000007, { interface := some eth0,
                                            mrib_nexthop_addr := 0x0a000007 })],
                oils := [oil_sg], upstreams := [up_rp] }

/-- A world where the source 10.0.0.5 is resolved over `eth0`. -/
def w_src : World :=
  { w_eth0 with nexthops := [(0x0a000005, { interface := some eth0,
                                            mrib_nexthop_addr := 0x0a000005 })] }

/-- A fresh, uninstalled (10.0.0.5, 224.1.1.1) entry with parent VIF 1. -/
def oil_new : channel_oil :=
  { oil := { mfcc_origin := 0x0a000005, mfcc_mcastgrp := 0xe0010101, mfcc_parent := 1,
             mfcc_ttls := List.replicate MAXVIFS 0 },
    installed := 0, oil_size := 0, oil_ref_count := 1, oif_flags := List.replicate MAXVIFS 0,
    cc := { lastused := 0, pktcnt := 0, oldpktcnt := 0, bytecnt := 0, oldbytecnt := 0,
            wrong_if := 0, oldwrong_if := 0, oldlastused := 0 } }

/-- The world `w_src` after the allocation of `oil_new`. -/
def w_src_oil : World :=
  { w_src with oils := [oil_new], trace := [Event.alloc 0] }

/-- An idle world with forwarding disabled: no socket, no read registration. -/
def w_off : World :=
  { w0 with qpim_mroute_socket_fd := -1, qpim_mroute_socket_reader := none }

/-- The disabled world with a cooperative kernel: `socket` returns descriptor 5,
every other call succeeds. -/
def w_off_ok : World := { w_off with env := [0, 5, 0, 0, 0] }

/-- A world where the kernel counts (10, 1000, 2) for (10.0.0.5, 224.1.1.1) and
the statistics collaborator answers (50, 7, 700, 1). -/
def w_cnt : World :=
  { w0 with sgcnt := [(sg_5, 10, 1000, 2)], zstats := [(sg_5, 50, 7, 700, 1)] }

/-- The world `w_cnt` in which the next external call (the kernel query) fails. -/
def w_cnt_fail : World := { w_cnt with env := [-1] }

/-- A WHOLEPKT upcall header for (10.0.0.5, 224.1.1.1) on VIF 1 whose embedded
IP length field says 1500, in a buffer of 20 bytes. -/
def wholepkt_1500 : List Nat :=
  [0, 0, 5, 220, 0, 0, 0, 0, 3, 0, 1, 0, 10, 0, 0, 5, 224, 1, 1, 1]

/-- The RP's world `w_rp` with no RP resolved for any group. -/
def w_rp_no_rp : World := { w_rp with rp := [] }

/-- The RP's world `w_rp` with no next hop toward the registering router. -/
def w_rp_no_nexthop : World := { w_rp with nexthops := [] }

/-- The RP's world with the record not yet attached to an entry, an empty cache
table, and the next external call (the allocation of the entry) failing. -/
def w_rp_no_alloc : World :=
  { w_rp with oils := [], upstreams := [{ up_rp with channel_oil := none }], env := [-1] }

/-- The world `w_src` in which the next external call (the allocation of the
entry) fails. -/
def w_src_no_alloc : World := { w_src with env := [-1] }

/-! ## Kernel programming of one entry: `pim_mroute_add` -/

/-- Writing back the value read from a slot leaves the array as it was. -/
theorem list_set_getElem_self (l : List Nat) (i : Nat) (h : i < l.length) :
    l.set i (l.get ⟨i, h⟩) = l := by
  apply List.ext_getElem
  · simp
  · intro n h1 h2
    by_cases hn : i = n
    · subst hn; simp
    · simp [List.getElem_set, hn]

/-- Forwarding enabled means the descriptor is not negative. -/
theorem enabled_iff (w : World) :
    PIM_MROUTE_IS_ENABLED w = true ↔ 0 ≤ w.qpim_mroute_socket_fd := by
  simp [PIM_MROUTE_IS_ENABLED]

/-- With forwarding disabled `pim_mroute_add` only does its bookkeeping. -/
theorem pim_mroute_add_disabled (w : World) (c : channel_oil)
    (h : w.qpim_mroute_socket_fd < 0) :
    pim_mroute_add w c = .ok (-1, c, add_tick w) := by
  simp [pim_mroute_add, PIM_MROUTE_IS_DISABLED, h, add_tick, bind, Except.bind, pure,
    Except.pure]

/-- A wildcard-source entry: one call, with the parent's own output flag set. -/
theorem pim_mroute_add_wildcard (w : World) (c : channel_oil)
    (hen : 0 ≤ w.qpim_mroute_socket_fd) (hsrc : c.oil.mfcc_origin = INADDR_ANY)
    (hp : c.oil.mfcc_parent < c.oil.mfcc_ttls.length) :
    pim_mroute_add w c =
      .ok (if w.env.headD 0 = 0 then 0 else -2,
           if w.env.headD 0 = 0 then { c with installed := 1 } else c,
           (setsockopt (add_tick w) w.qpim_mroute_socket_fd
             (SockOpt.MRT_ADD_MFC
               { c.oil with mfcc_ttls := c.oil.mfcc_ttls.set c.oil.mfcc_parent 1 })).2) := by
  have hnd : ¬ w.qpim_mroute_socket_fd < 0 := not_lt.mpr hen
  have hs := list_set_getElem_self c.oil.mfcc_ttls c.oil.mfcc_parent hp
  simp only [List.get_eq_getElem] at hs
  obtain ⟨⟨o, g, p, t⟩, inst, sz, rc, fl, cc⟩ := c
  simp only at hsrc hp hs
  simp [pim_mroute_add, PIM_MROUTE_IS_DISABLED, hnd, add_tick, bind, Except.bind, pure,
    Except.pure, hsrc, arr_get, arr_set, hp, setsockopt, extcall]
  split <;> simp_all

/-- A concrete-source entry that is installed or has parent VIF 0: one call. -/
theorem pim_mroute_add_single (w : World) (c : channel_oil)
    (hen : 0 ≤ w.qpim_mroute_socket_fd) (hsrc : c.oil.mfcc_origin ≠ INADDR_ANY)
    (h1 : c.installed ≠ 0 ∨ c.oil.mfcc_parent = 0) :
    pim_mroute_add w c =
      .ok (if w.env.headD 0 = 0 then 0 else -2,
           if w.env.headD 0 = 0 then { c with installed := 1 } else c,
           (setsockopt (add_tick w) w.qpim_mroute_socket_fd (SockOpt.MRT_ADD_MFC c.oil)).2) := by
  have hnd : ¬ w.qpim_mroute_socket_fd < 0 := not_lt.mpr hen
  rcases h1 with h1 | h1 <;>
  · simp [pim_mroute_add, PIM_MROUTE_IS_DISABLED, hnd, add_tick, bind, Except.bind, pure,
      Except.pure, hsrc, h1, setsockopt, extcall]
    split <;> simp_all

/-- An uninstalled concrete-source entry with a non-zero parent VIF: the first
call carries parent 0, the second, made only after a success, the real parent. -/
theorem pim_mroute_add_two_phase (w : World) (c : channel_oil)
    (hen : 0 ≤ w.qpim_mroute_socket_fd) (hsrc : c.oil.mfcc_origin ≠ INADDR_ANY)
    (hinst : c.installed = 0) (hpar : c.oil.mfcc_parent ≠ 0) :
    pim_mroute_add w c =
      if w.env.headD 0 ≠ 0 then
        .ok (-2, { c with oil := { c.oil with mfcc_parent := 0 } },
          (setsockopt (add_tick w) w.qpim_mroute_socket_fd
            (SockOpt.MRT_ADD_MFC { c.oil with mfcc_parent := 0 })).2)
      else
        .ok (if w.env.tail.headD 0 = 0 then 0 else -2,
          if w.env.tail.headD 0 = 0 then { c with installed := 1 } else c,
          (setsockopt (setsockopt (add_tick w) w.qpim_mroute_socket_fd
            (SockOpt.MRT_ADD_MFC { c.oil with mfcc_parent := 0 })).2
            w.qpim_mroute_socket_fd (SockOpt.MRT_ADD_MFC c.oil)).2) := by
  have hnd : ¬ w.qpim_mroute_socket_fd < 0 := not_lt.mpr hen
  obtain ⟨⟨o, g, p, t⟩, inst, sz, rc, fl, cc⟩ := c
  simp only at hsrc hinst hpar
  simp [pim_mroute_add, PIM_MROUTE_IS_DISABLED, hnd, add_tick, bind, Except.bind, pure,
      Except.pure, hsrc, hinst, hpar, setsockopt, extcall]
  split <;> simp_all
  all_goals (try (split <;> simp_all))

/-- The parent VIF after `pim_mroute_add` with forwarding enabled: it is the
value before the call on every path but one, the failure of the first of the
two calls, which leaves it at 0. -/
theorem pim_mroute_add_parent (w : World) (c : channel_oil)
    (hen : PIM_MROUTE_IS_ENABLED w = true)
    (hwf : c.oil.mfcc_origin = INADDR_ANY → c.oil.mfcc_parent < c.oil.mfcc_ttls.length) :
    ∃ r c1 w1,
      pim_mroute_add w c = .ok (r, c1, w1) ∧
      c1.oil.mfcc_parent =
        if c.installed = 0 ∧ c.oil.mfcc_origin ≠ INADDR_ANY ∧ c.oil.mfcc_parent ≠ 0 ∧
            w.env.headD 0 ≠ 0 then 0
        else c.oil.mfcc_parent := by
  rw [enabled_iff] at hen
  by_cases hc : c.installed = 0 ∧ c.oil.mfcc_origin ≠ INADDR_ANY ∧ c.oil.mfcc_parent ≠ 0 ∧
      w.env.headD 0 ≠ 0
  · rw [pim_mroute_add_two_phase w c hen hc.2.1 hc.1 hc.2.2.1, if_pos hc.2.2.2, if_pos hc]
    exact ⟨_, _, _, rfl, rfl⟩
  · rw [if_neg hc]
    by_cases hsrc : c.oil.mfcc_origin = INADDR_ANY
    · rw [pim_mroute_add_wildcard w c hen hsrc (hwf hsrc)]
      refine ⟨_, _, _, rfl, ?_⟩
      split <;> rfl
    · by_cases h2 : c.installed = 0 ∧ c.oil.mfcc_parent ≠ 0
      · have he : ¬ w.env.headD 0 ≠ 0 := fun he => hc ⟨h2.1, hsrc, h2.2, he⟩
        rw [pim_mroute_add_two_phase w c hen hsrc h2.1 h2.2, if_neg he]
        refine ⟨_, _, _, rfl, ?_⟩
        split <;> rfl
      · have h1 : c.installed ≠ 0 ∨ c.oil.mfcc_parent = 0 := by
          by_cases hi : c.installed = 0
          · right; by_contra hp; exact h2 ⟨hi, hp⟩
          · left; exact hi
        rw [pim_mroute_add_single w c hen hsrc h1]
        refine ⟨_, _, _, rfl, ?_⟩
        split <;> rfl

/-- C1 (code defect): on an uninstalled (10.0.0.5, 224.1.1.1) entry with parent
VIF 3, when the first `MRT_ADD_MFC` call fails, `pim_mroute_add` returns `-2`
and leaves the entry's parent VIF at 0, not at its value 3 before the call. -/
theorem pim_mroute_add_failed_first_call_leaves_parent_zero :
    oil_sg.oil.mfcc_parent = 3 ∧
    ∃ c w, pim_mroute_add { w0 with env := [-1] } oil_sg = .ok (-2, c, w) ∧
      c.oil.mfcc_parent = 0 :=
  ⟨rfl, _, _, rfl, rfl⟩

/-- C2: for a wildcard-source entry whose parent VIF indexes the output array,
with forwarding enabled and whatever the kernel answers, `pim_mroute_add`
issues one `MRT_ADD_MFC` call whose block has the parent VIF's own output flag
at 1, and returns with the output array equal to its value before the call. -/
theorem pim_mroute_add_wildcard_output_flag (w : World) (c : channel_oil)
    (hen : PIM_MROUTE_IS_ENABLED w = true)
    (hsrc : c.oil.mfcc_origin = INADDR_ANY)
    (hp : c.oil.mfcc_parent < c.oil.mfcc_ttls.length) :
    ∃ r c1 w1 oil,
      pim_mroute_add w c = .ok (r, c1, w1) ∧
      w1.trace = w.trace ++
        [Event.setsockopt w.qpim_mroute_socket_fd (SockOpt.MRT_ADD_MFC oil) (w.env.headD 0)] ∧
      oil.mfcc_parent = c.oil.mfcc_parent ∧
      oil.mfcc_ttls[oil.mfcc_parent]? = some 1 ∧
      (r = 0 ↔ w.env.headD 0 = 0) ∧
      c1.oil.mfcc_ttls = c.oil.mfcc_ttls := by
  rw [enabled_iff] at hen
  rw [pim_mroute_add_wildcard w c hen hsrc hp]
  refine ⟨_, _, _, { c.oil with mfcc_ttls := c.oil.mfcc_ttls.set c.oil.mfcc_parent 1 },
    rfl, ?_, rfl, ?_, ?_, ?_⟩
  · simp [setsockopt, extcall, add_tick]
  · simp [hp]
  · split <;> simp_all
  · split <;> rfl

/-- Witness for C2: the (*, 224.1.1.1) entry with parent VIF 3, the call failing. -/
theorem pim_mroute_add_wildcard_output_flag_witness :
    PIM_MROUTE_IS_ENABLED { w0 with env := [-1] } = true ∧
    oil_starg.oil.mfcc_origin = INADDR_ANY ∧
    oil_starg.oil.mfcc_parent < oil_starg.oil.mfcc_ttls.length ∧
    ∃ r c1 w1 oil,
      pim_mroute_add { w0 with env := [-1] } oil_starg = .ok (r, c1, w1) ∧
      w1.trace = w0.trace ++ [Event.setsockopt 7 (SockOpt.MRT_ADD_MFC oil) (-1)] ∧
      oil.mfcc_parent = oil_starg.oil.mfcc_parent ∧
      oil.mfcc_ttls[oil.mfcc_parent]? = some 1 ∧
      (r = 0 ↔ (-1 : Int) = 0) ∧
      c1.oil.mfcc_ttls = oil_starg.oil.mfcc_ttls :=
  ⟨by decide, rfl, by decide,
    pim_mroute_add_wildcard_output_flag { w0 with env := [-1] } oil_starg (by decide) rfl
      (by decide)⟩

/-- C3: with forwarding enabled, for an uninstalled entry with a concrete source
and a non-zero parent VIF `p`, `pim_mroute_add` first issues one `MRT_ADD_MFC`
call with parent VIF 0; if that call fails it issues no further call, and if it
succeeds it issues exactly one further `MRT_ADD_MFC` call with parent VIF `p`.
For every other entry (a wildcard entry's parent VIF indexing the output array)
it issues exactly one `MRT_ADD_MFC` call. -/
theorem pim_mroute_add_kernel_calls (w : World) (c : channel_oil)
    (hen : PIM_MROUTE_IS_ENABLED w = true)
    (hwf : c.oil.mfcc_origin = INADDR_ANY → c.oil.mfcc_parent < c.oil.mfcc_ttls.length) :
    ∃ r c1 w1,
      pim_mroute_add w c = .ok (r, c1, w1) ∧
      (c.installed = 0 ∧ c.oil.mfcc_origin ≠ INADDR_ANY ∧ c.oil.mfcc_parent ≠ 0 →
        (w.env.headD 0 ≠ 0 →
          new_events w w1 =
            [Event.setsockopt w.qpim_mroute_socket_fd
              (SockOpt.MRT_ADD_MFC { c.oil with mfcc_parent := 0 }) (w.env.headD 0)]) ∧
        (w.env.headD 0 = 0 →
          new_events w w1 =
            [Event.setsockopt w.qpim_mroute_socket_fd
              (SockOpt.MRT_ADD_MFC { c.oil with mfcc_parent := 0 }) 0,
             Event.setsockopt w.qpim_mroute_socket_fd
              (SockOpt.MRT_ADD_MFC c.oil) (w.env.tail.headD 0)])) ∧
      (¬ (c.installed = 0 ∧ c.oil.mfcc_origin ≠ INADDR_ANY ∧ c.oil.mfcc_parent ≠ 0) →
        ∃ oil, oil.mfcc_parent = c.oil.mfcc_parent ∧
          new_events w w1 =
            [Event.setsockopt w.qpim_mroute_socket_fd (SockOpt.MRT_ADD_MFC oil)
              (w.env.headD 0)]) := by
  rw [enabled_iff] at hen
  by_cases hsrc : c.oil.mfcc_origin = INADDR_ANY
  · rw [pim_mroute_add_wildcard w c hen hsrc (hwf hsrc)]
    refine ⟨_, _, _, rfl, ?_, ?_⟩
    · intro h; exact absurd hsrc h.2.1
    · intro _
      exact ⟨{ c.oil with mfcc_ttls := c.oil.mfcc_ttls.set c.oil.mfcc_parent 1 }, rfl,
        by simp [new_events, setsockopt, extcall, add_tick]⟩
  · by_cases h2 : c.installed = 0 ∧ c.oil.mfcc_parent ≠ 0
    · rw [pim_mroute_add_two_phase w c hen hsrc h2.1 h2.2]
      by_cases he : w.env.headD 0 = 0
      · rw [if_neg (not_not.mpr he)]
        refine ⟨_, _, _, rfl, ?_, ?_⟩
        · intro _
          refine ⟨fun h => absurd he h, fun _ => ?_⟩
          simp [new_events, setsockopt, extcall, add_tick] at he ⊢
          simp [he]
        · intro h; exact absurd ⟨h2.1, hsrc, h2.2⟩ h
      · rw [if_pos he]
        refine ⟨_, _, _, rfl, ?_, ?_⟩
        · intro _
          refine ⟨fun _ => ?_, fun h => absurd h he⟩
          simp [new_events, setsockopt, extcall, add_tick]
        · intro h; exact absurd ⟨h2.1, hsrc, h2.2⟩ h
    · have h1 : c.installed ≠ 0 ∨ c.oil.mfcc_parent = 0 := by
        by_cases hi : c.installed = 0
        · right; by_contra hp; exact h2 ⟨hi, hp⟩
        · left; exact hi
      rw [pim_mroute_add_single w c hen hsrc h1]
      refine ⟨_, _, _, rfl, ?_, ?_⟩
      · intro h; exact absurd ⟨h.1, h.2.2⟩ h2
      · intro _
        exact ⟨c.oil, rfl, by simp [new_events, setsockopt, extcall, add_tick]⟩

/-- Witness for C3: the uninstalled (10.0.0.5, 224.1.1.1) entry with parent VIF
3, the first call succeeding and the second failing. -/
theorem pim_mroute_add_kernel_calls_witness :
    PIM_MROUTE_IS_ENABLED { w0 with env := [0, -1] } = true ∧
    (oil_sg.oil.mfcc_origin = INADDR_ANY →
      oil_sg.oil.mfcc_parent < oil_sg.oil.mfcc_ttls.length) ∧
    ∃ r c1 w1,
      pim_mroute_add { w0 with env := [0, -1] } oil_sg = .ok (r, c1, w1) ∧
      (oil_sg.installed = 0 ∧ oil_sg.oil.mfcc_origin ≠ INADDR_ANY ∧
          oil_sg.oil.mfcc_parent ≠ 0 →
        ((0 : Int) ≠ 0 →
          new_events { w0 with env := [0, -1] } w1 =
            [Event.setsockopt 7
              (SockOpt.MRT_ADD_MFC { oil_sg.oil with mfcc_parent := 0 }) 0]) ∧
        ((0 : Int) = 0 →
          new_events { w0 with env := [0, -1] } w1 =
            [Event.setsockopt 7 (SockOpt.MRT_ADD_MFC { oil_sg.oil with mfcc_parent := 0 }) 0,
             Event.setsockopt 7 (SockOpt.MRT_ADD_MFC oil_sg.oil) (-1)])) ∧
      (¬ (oil_sg.installed = 0 ∧ oil_sg.oil.mfcc_origin ≠ INADDR_ANY ∧
          oil_sg.oil.mfcc_parent ≠ 0) →
        ∃ oil, oil.mfcc_parent = oil_sg.oil.mfcc_parent ∧
          new_events { w0 with env := [0, -1] } w1 =
            [Event.setsockopt 7 (SockOpt.MRT_ADD_MFC oil) 0]) :=
  ⟨by decide, by decide,
    pim_mroute_add_kernel_calls { w0 with env := [0, -1] } oil_sg (by decide) (by decide)⟩

/-- C4: whatever the kernel answers, `pim_mroute_add` returns 0 exactly when
forwarding is enabled and the last kernel programming call it issued succeeded;
when it returns 0 the installed flag is 1, and when it returns a failure the
installed flag is as before the call (a wildcard entry's parent VIF indexing
the output array). -/
theorem pim_mroute_add_result (w : World) (c : channel_oil)
    (hwf : c.oil.mfcc_origin = INADDR_ANY → c.oil.mfcc_parent < c.oil.mfcc_ttls.length) :
    ∃ r c1 w1,
      pim_mroute_add w c = .ok (r, c1, w1) ∧
      (r = 0 ↔ PIM_MROUTE_IS_ENABLED w = true ∧
        ∃ fd oil, (new_events w w1).getLast? =
          some (Event.setsockopt fd (SockOpt.MRT_ADD_MFC oil) 0)) ∧
      (r = 0 → c1.installed = 1) ∧
      (r ≠ 0 → c1.installed = c.installed) := by
  by_cases hen : 0 ≤ w.qpim_mroute_socket_fd
  · have hE : PIM_MROUTE_IS_ENABLED w = true := (enabled_iff w).mpr hen
    by_cases hsrc : c.oil.mfcc_origin = INADDR_ANY
    · rw [pim_mroute_add_wildcard w c hen hsrc (hwf hsrc)]
      refine ⟨_, _, _, rfl, ?_, ?_, ?_⟩
      · by_cases he : w.env.headD 0 = 0 <;>
          simp [new_events, setsockopt, extcall, add_tick, hE, he]
      · intro h; split at h <;> simp_all
      · intro h; split at h <;> simp_all
    · by_cases h2 : c.installed = 0 ∧ c.oil.mfcc_parent ≠ 0
      · rw [pim_mroute_add_two_phase w c hen hsrc h2.1 h2.2]
        by_cases he : w.env.headD 0 = 0
        · rw [if_neg (not_not.mpr he)]
          refine ⟨_, _, _, rfl, ?_, ?_, ?_⟩
          · by_cases he2 : w.env.tail.headD 0 = 0 <;>
              simp [new_events, setsockopt, extcall, add_tick, hE, he2]
          · intro h; split at h <;> simp_all
          · intro h; split at h <;> simp_all
        · rw [if_pos he]
          refine ⟨_, _, _, rfl, ?_, ?_, ?_⟩
          · simp only [List.headD_eq_head?_getD] at he
            simp [new_events, setsockopt, extcall, add_tick, hE, he]
          · intro h; simp at h
          · intro _; rfl
      · have h1 : c.installed ≠ 0 ∨ c.oil.mfcc_parent = 0 := by
          by_cases hi : c.installed = 0
          · right; by_contra hp; exact h2 ⟨hi, hp⟩
          · left; exact hi
        rw [pim_mroute_add_single w c hen hsrc h1]
        refine ⟨_, _, _, rfl, ?_, ?_, ?_⟩
        · by_cases he : w.env.headD 0 = 0 <;>
            simp [new_events, setsockopt, extcall, add_tick, hE, he]
        · intro h; split at h <;> simp_all
        · intro h; split at h <;> simp_all
  · have hd : w.qpim_mroute_socket_fd < 0 := not_le.mp hen
    rw [pim_mroute_add_disabled w c hd]
    refine ⟨_, _, _, rfl, ?_, ?_, ?_⟩
    · simp [PIM_MROUTE_IS_ENABLED, hen]
    · intro h; simp at h
    · intro _; rfl

/-- Witness for C4: the uninstalled (10.0.0.5, 224.1.1.1) entry, both calls
succeeding. -/
theorem pim_mroute_add_result_witness :
    (oil_sg.oil.mfcc_origin = INADDR_ANY →
      oil_sg.oil.mfcc_parent < oil_sg.oil.mfcc_ttls.length) ∧
    ∃ r c1 w1,
      pim_mroute_add w0 oil_sg = .ok (r, c1, w1) ∧
      (r = 0 ↔ PIM_MROUTE_IS_ENABLED w0 = true ∧
        ∃ fd oil, (new_events w0 w1).getLast? =
          some (Event.setsockopt fd (SockOpt.MRT_ADD_MFC oil) 0)) ∧
      (r = 0 → c1.installed = 1) ∧
      (r ≠ 0 → c1.installed = oil_sg.installed) :=
  ⟨by decide, pim_mroute_add_result w0 oil_sg (by decide)⟩

/-! ## Removal of one entry: `pim_mroute_del` -/

/-- C5: with forwarding enabled, `pim_mroute_del` issues one `MRT_DEL_MFC`
call; if it succeeds the function returns 0 and the installed flag is 0, if it
fails the function returns `-2` and the installed flag is as before; in both
cases every other field of the entry is unchanged. -/
theorem pim_mroute_del_result (w : World) (c : channel_oil)
    (hen : PIM_MROUTE_IS_ENABLED w = true) :
    new_events w (pim_mroute_del w c).2.2 =
      [Event.setsockopt w.qpim_mroute_socket_fd (SockOpt.MRT_DEL_MFC c.oil) (w.env.headD 0)] ∧
    (w.env.headD 0 = 0 →
      (pim_mroute_del w c).1 = 0 ∧ (pim_mroute_del w c).2.1 = { c with installed := 0 }) ∧
    (w.env.headD 0 ≠ 0 →
      (pim_mroute_del w c).1 = -2 ∧ (pim_mroute_del w c).2.1 = c) := by
  rw [enabled_iff] at hen
  have hnd : ¬ w.qpim_mroute_socket_fd < 0 := not_lt.mpr hen
  by_cases he : w.env.headD 0 = 0 <;>
  · simp only [List.headD_eq_head?_getD] at he
    simp [pim_mroute_del, PIM_MROUTE_IS_DISABLED, hnd, new_events, setsockopt, extcall, he]

/-- Witness for C5: an installed entry, the kernel call failing. -/
theorem pim_mroute_del_result_witness :
    PIM_MROUTE_IS_ENABLED { w0 with env := [-1] } = true ∧
    new_events { w0 with env := [-1] }
        (pim_mroute_del { w0 with env := [-1] } { oil_sg with installed := 1 }).2.2 =
      [Event.setsockopt 7 (SockOpt.MRT_DEL_MFC oil_sg.oil) (-1)] ∧
    ((-1 : Int) = 0 →
      (pim_mroute_del { w0 with env := [-1] } { oil_sg with installed := 1 }).1 = 0 ∧
      (pim_mroute_del { w0 with env := [-1] } { oil_sg with installed := 1 }).2.1 =
        { oil_sg with installed := 0 }) ∧
    ((-1 : Int) ≠ 0 →
      (pim_mroute_del { w0 with env := [-1] } { oil_sg with installed := 1 }).1 = -2 ∧
      (pim_mroute_del { w0 with env := [-1] } { oil_sg with installed := 1 }).2.1 =
        { oil_sg with installed := 1 }) :=
  ⟨by decide,
    pim_mroute_del_result { w0 with env := [-1] } { oil_sg with installed := 1 } (by decide)⟩

/-! ## Disabling forwarding: `pim_mroute_socket_disable` -/

/-- C6 (counterexample): with forwarding enabled on descriptor 7, when the
stop-forwarding call fails `pim_mroute_socket_disable` returns `-2`, and when
closing fails it returns `-3`; both times the descriptor is still 7, not `-1`,
and forwarding still reads as enabled. -/
theorem pim_mroute_socket_disable_failure_keeps_descriptor :
    PIM_MROUTE_IS_ENABLED w0 = true ∧
    (pim_mroute_socket_disable { w0 with env := [-1] }).1 = -2 ∧
    (pim_mroute_socket_disable { w0 with env := [-1] }).2.qpim_mroute_socket_fd = 7 ∧
    PIM_MROUTE_IS_ENABLED (pim_mroute_socket_disable { w0 with env := [-1] }).2 = true ∧
    (pim_mroute_socket_disable { w0 with env := [0, -1] }).1 = -3 ∧
    (pim_mroute_socket_disable { w0 with env := [0, -1] }).2.qpim_mroute_socket_fd = 7 ∧
    PIM_MROUTE_IS_ENABLED (pim_mroute_socket_disable { w0 with env := [0, -1] }).2 = true := by
  decide

/-- C6 (amended): with forwarding enabled, `pim_mroute_socket_disable`
invalidates the descriptor (sets it to `-1`) and cancels the read registration
only when the stop-forwarding call and the close both succeed, returning 0.
When the stop-forwarding call fails it returns `-2`, when the close fails it
returns `-3`, and in both failure cases the descriptor and the read
registration are as before the call. -/
theorem pim_mroute_socket_disable_result (w : World)
    (hen : PIM_MROUTE_IS_ENABLED w = true) :
    (w.env.headD 0 ≠ 0 →
      (pim_mroute_socket_disable w).1 = -2 ∧
      (pim_mroute_socket_disable w).2.qpim_mroute_socket_fd = w.qpim_mroute_socket_fd ∧
      (pim_mroute_socket_disable w).2.qpim_mroute_socket_reader = w.qpim_mroute_socket_reader ∧
      new_events w (pim_mroute_socket_disable w).2 =
        [Event.setsockopt w.qpim_mroute_socket_fd SockOpt.MRT_DONE (w.env.headD 0)]) ∧
    (w.env.headD 0 = 0 → w.env.tail.headD 0 ≠ 0 →
      (pim_mroute_socket_disable w).1 = -3 ∧
      (pim_mroute_socket_disable w).2.qpim_mroute_socket_fd = w.qpim_mroute_socket_fd ∧
      (pim_mroute_socket_disable w).2.qpim_mroute_socket_reader = w.qpim_mroute_socket_reader ∧
      new_events w (pim_mroute_socket_disable w).2 =
        [Event.setsockopt w.qpim_mroute_socket_fd SockOpt.MRT_DONE 0,
         Event.close w.qpim_mroute_socket_fd (w.env.tail.headD 0)]) ∧
    (w.env.headD 0 = 0 → w.env.tail.headD 0 = 0 →
      (pim_mroute_socket_disable w).1 = 0 ∧
      (pim_mroute_socket_disable w).2.qpim_mroute_socket_fd = -1 ∧
      (pim_mroute_socket_disable w).2.qpim_mroute_socket_reader = none ∧
      PIM_MROUTE_IS_DISABLED (pim_mroute_socket_disable w).2 = true) := by
  rw [enabled_iff] at hen
  have hnd : ¬ w.qpim_mroute_socket_fd < 0 := not_lt.mpr hen
  refine ⟨?_, ?_, ?_⟩
  · intro he
    simp only [List.headD_eq_head?_getD] at he
    simp [pim_mroute_socket_disable, PIM_MROUTE_IS_DISABLED, hnd, pim_mroute_set, setsockopt,
      extcall, he, new_events]
  · intro he he2
    simp only [List.headD_eq_head?_getD] at he
    have he3 : ¬ w.env[1]?.getD 0 = 0 := by simpa using he2
    simp [pim_mroute_socket_disable, PIM_MROUTE_IS_DISABLED, hnd, pim_mroute_set, setsockopt,
      extcall, he, he3, new_events, close]
  · intro he he2
    simp only [List.headD_eq_head?_getD] at he
    have he3 : w.env[1]?.getD 0 = 0 := by simpa using he2
    simp [pim_mroute_socket_disable, PIM_MROUTE_IS_DISABLED, hnd, pim_mroute_set, setsockopt,
      extcall, he, he3, close, mroute_read_off]
    cases w.qpim_mroute_socket_reader <;> simp [emit]

/-- Witness for C6 (amended): forwarding enabled on descriptor 7, the close failing. -/
theorem pim_mroute_socket_disable_result_witness :
    PIM_MROUTE_IS_ENABLED { w0 with env := [0, -1] } = true ∧
    (pim_mroute_socket_disable { w0 with env := [0, -1] }).1 = -3 ∧
    (pim_mroute_socket_disable { w0 with env := [0, -1] }).2.qpim_mroute_socket_fd = 7 ∧
    (pim_mroute_socket_disable { w0 with env := [0, -1] }).2.qpim_mroute_socket_reader =
      some 7 ∧
    new_events { w0 with env := [0, -1] }
        (pim_mroute_socket_disable { w0 with env := [0, -1] }).2 =
      [Event.setsockopt 7 SockOpt.MRT_DONE 0, Event.close 7 (-1)] :=
  ⟨by decide,
    (pim_mroute_socket_disable_result { w0 with env := [0, -1] } (by decide)).2.1
      (by decide) (by decide)⟩

/-! ## The read task: `mroute_read` -/

/-- C7 (counterexample): the read on the control socket fails, and after
`mroute_read` has returned `-1` the read registration is armed again. -/
theorem mroute_read_failure_rearms :
    (read { w0 with inbox := [(-1, [])] } 7).1 < 0 ∧
    ∃ w1, mroute_read { w0 with inbox := [(-1, [])] } (some { arg := none, fd := 7 }) =
        .ok (-1, w1) ∧
      w1.qpim_mroute_socket_reader = some 7 ∧
      new_events { w0 with inbox := [(-1, [])] } w1 =
        [Event.read 7 (-1), Event.thread_add_read 7] :=
  ⟨by decide, _, rfl, rfl, rfl⟩

/-- C7 (amended): when the read on the control socket fails, `mroute_read`
returns the failure status `-1` and re-registers the read event all the same:
the re-arming is unconditional, so after it returns the read registration for
the control socket is armed. -/
theorem mroute_read_failure_result (w : World) (t : thread)
    (harg : t.arg = none) (hfd : t.fd = w.qpim_mroute_socket_fd)
    (hen : PIM_MROUTE_IS_ENABLED w = true)
    (hrd : (read w t.fd).1 < 0) :
    ∃ w1, mroute_read w (some t) = .ok (-1, w1) ∧
      w1.qpim_mroute_socket_reader = some w.qpim_mroute_socket_fd ∧
      new_events w w1 =
        [Event.read w.qpim_mroute_socket_fd (read w t.fd).1,
         Event.thread_add_read w.qpim_mroute_socket_fd] := by
  have hen1 := hen
  rw [enabled_iff] at hen
  rw [hfd] at hrd ⊢
  unfold read at hrd ⊢
  cases hin : w.inbox with
  | nil =>
    simp [mroute_read, harg, hfd, mroute_read_msg, read, hin, mroute_read_on, emit,
      PIM_MROUTE_IS_ENABLED, hen, new_events, bind, Except.bind, pure, Except.pure]
  | cons d rest =>
    obtain ⟨rd, data⟩ := d
    rw [hin] at hrd
    simp only at hrd
    simp [mroute_read, harg, hfd, mroute_read_msg, read, hin, mroute_read_on, emit,
      PIM_MROUTE_IS_ENABLED, hen, new_events, bind, Except.bind, pure, Except.pure, hrd]

/-- Witness for C7 (amended): a failing read on descriptor 7. -/
theorem mroute_read_failure_result_witness :
    ∃ w1, mroute_read { w0 with inbox := [(-1, [])] } (some { arg := none, fd := 7 }) =
        .ok (-1, w1) ∧
      w1.qpim_mroute_socket_reader = some 7 ∧
      new_events { w0 with inbox := [(-1, [])] } w1 =
        [Event.read 7 (-1), Event.thread_add_read 7] :=
  mroute_read_failure_result { w0 with inbox := [(-1, [])] } { arg := none, fd := 7 }
    rfl rfl (by decide) (by decide)

/-! ## The upcall classifier: `pim_mroute_msg` -/

/-- A byte inside the buffer is read without fault. -/
theorem rd_u8_ok (buf : List Nat) (off : Nat) (h : off < buf.length) :
    rd_u8 buf off = .ok (buf.get ⟨off, h⟩ % 256) := by
  simp [rd_u8, List.getElem?_eq_getElem h]

/-- An address inside the buffer is read without fault. -/
theorem rd_addr_ok (buf : List Nat) (off : Nat) (h : off + 3 < buf.length) :
    ∃ a, rd_addr buf off = .ok a := by
  have h0 : off < buf.length := by omega
  have h1 : off + 1 < buf.length := by omega
  have h2 : off + 2 < buf.length := by omega
  simp [rd_addr, rd_u8_ok buf off h0, rd_u8_ok buf (off + 1) h1, rd_u8_ok buf (off + 2) h2,
    rd_u8_ok buf (off + 3) h, bind, Except.bind, pure, Except.pure]

/-- C8: for every datagram holding an IP header whose protocol field is not 0,
`pim_mroute_msg` returns 0 and leaves the whole world as it was: no table
changes, no timer is started, and the trace gains no kernel call, Register or
Register-Stop. -/
theorem pim_mroute_msg_not_upcall (w : World) (fd : Int) (buf : List Nat) (buf_size : Int)
    (p : Nat) (hlen : sizeof_ip ≤ buf.length) (hp : ip_p buf = .ok p) (hnz : p ≠ 0) :
    pim_mroute_msg w fd buf buf_size = .ok (0, w) := by
  obtain ⟨s, hs⟩ := rd_addr_ok buf 12 (by simp only [sizeof_ip] at hlen; omega)
  obtain ⟨d, hd⟩ := rd_addr_ok buf 16 (by simp only [sizeof_ip] at hlen; omega)
  cases hdbg : w.debug_mroute_detail <;>
    simp [pim_mroute_msg, hp, hnz, hdbg, ip_src, ip_dst, hs, hd, bind, Except.bind, pure,
      Except.pure]

/-- Witness for C8: a UDP datagram (protocol 17) from 10.0.0.5 to 224.1.1.1. -/
theorem pim_mroute_msg_not_upcall_witness :
    sizeof_ip ≤ udp_datagram.length ∧
    ip_p udp_datagram = .ok 17 ∧
    pim_mroute_msg w_eth0 7 udp_datagram 20 = .ok (0, w_eth0) :=
  ⟨by decide, rfl, pim_mroute_msg_not_upcall w_eth0 7 udp_datagram 20 17 (by decide) rfl
    (by decide)⟩

/-- With debug logging off, an upcall is handed to the handler its message type
selects, with the interface resolved from its VIF index; any other message type
returns 0 and leaves the world as it was. -/
theorem pim_mroute_msg_dispatch_debug_off (w : World) (fd : Int) (buf : List Nat)
    (buf_size : Int) (t vif : Nat) (hdbg : w.debug_mroute = false)
    (hp : ip_p buf = .ok 0) (hv : im_vif buf = .ok vif) (ht : im_msgtype buf = .ok t) :
    pim_mroute_msg w fd buf buf_size =
      if t = IGMPMSG_WRONGVIF then
        pim_mroute_msg_wrongvif w fd (pim_if_find_by_vif_index w vif) buf
      else if t = IGMPMSG_NOCACHE then
        pim_mroute_msg_nocache w fd (pim_if_find_by_vif_index w vif) buf
      else if t = IGMPMSG_WHOLEPKT then
        pim_mroute_msg_wholepkt w fd (pim_if_find_by_vif_index w vif) buf
      else if t = IGMPMSG_WRVIFWHOLE then
        pim_mroute_msg_wrvifwhole w fd (pim_if_find_by_vif_index w vif) buf
      else .ok (0, w) := by
  simp [pim_mroute_msg, hp, hv, ht, hdbg, bind, Except.bind, pure, Except.pure]

/-- C9 (code defect): an upcall of message type 5 arriving on VIF 1.  With
debug logging off `pim_mroute_msg` returns 0 and changes nothing; with debug
logging on, building the debug line indexes the five-entry table
`igmpmsgtype2str` at 5, outside the table. -/
theorem pim_mroute_msg_unknown_type_debug_out_of_bounds :
    ip_p (upcall 5 1 [10, 0, 0, 5] [224, 1, 1, 1]) = .ok 0 ∧
    im_msgtype (upcall 5 1 [10, 0, 0, 5] [224, 1, 1, 1]) = .ok 5 ∧
    igmpmsgtype2str.length = 5 ∧
    pim_if_find_by_vif_index w_eth0 1 = some eth0 ∧
    pim_mroute_msg w_eth0 7 (upcall 5 1 [10, 0, 0, 5] [224, 1, 1, 1]) 20 = .ok (0, w_eth0) ∧
    pim_mroute_msg { w_eth0 with debug_mroute := true } 7
      (upcall 5 1 [10, 0, 0, 5] [224, 1, 1, 1]) 20 = .error Fault.out_of_bounds := by
  refine ⟨rfl, rfl, rfl, rfl, rfl, rfl⟩

/-! ## The NOCACHE handler: `pim_mroute_msg_nocache` -/

/-- C10: a NOCACHE upcall on a resolved interface for which a precondition fails
(the RP of the group is unresolved, or the interface has no PIM state, or this
router is not the DR on it, or the interface is SSM-only, or the source is not
connected to it) makes `pim_mroute_msg_nocache` return 0 with the whole world
as it was: no cache entry, no upstream record, no keepalive timer. -/
theorem pim_mroute_msg_nocache_precondition_fails (w : World) (fd : Int) (ifp : interface)
    (msg : List Nat) (src dst : Nat)
    (hsrc : im_src msg = .ok src) (hdst : im_dst msg = .ok dst)
    (hfail : (RP w dst).rpf_addr = INADDR_NONE ∨
      ifp.info = none ∨
      (∃ pim_ifp, ifp.info = some pim_ifp ∧
        (PIM_I_am_DR pim_ifp = false ∨ pim_ifp.itype = PIM_INTERFACE_SSM)) ∨
      pim_if_connected_to_source (some ifp) src = .ok false) :
    pim_mroute_msg_nocache w fd (some ifp) msg = .ok (0, w) := by
  unfold pim_mroute_msg_nocache
  simp only [hsrc, hdst, bind, Except.bind, pure, Except.pure]
  by_cases h1 : (RP w dst).rpf_addr = INADDR_NONE
  · simp [h1]
  · cases hinfo : ifp.info with
    | none => simp [h1]
    | some pim_ifp =>
      by_cases h2 : PIM_I_am_DR pim_ifp = true
      · by_cases h3 : pim_ifp.itype = PIM_INTERFACE_SSM
        · simp [h1, h2, h3]
        · rcases hfail with h | h | ⟨q, hq, h⟩ | h
          · exact absurd h h1
          · rw [hinfo] at h; cases h
          · rw [hinfo] at hq; cases hq
            rcases h with h | h
            · rw [h2] at h; cases h
            · exact absurd h h3
          · simp [h1, h2, h3, h]
      · simp [h1, h2]

/-- Witness for C10: a NOCACHE upcall on `eth0` from 10.9.9.9, a source that is
not on the 10.0.0.0/24 subnet of `eth0`. -/
theorem pim_mroute_msg_nocache_precondition_fails_witness :
    im_src (upcall 1 1 [10, 9, 9, 9] [224, 1, 1, 1]) = .ok 0x0a090909 ∧
    im_dst (upcall 1 1 [10, 9, 9, 9] [224, 1, 1, 1]) = .ok 0xe0010101 ∧
    pim_if_connected_to_source (some eth0) 0x0a090909 = .ok false ∧
    pim_mroute_msg_nocache w_eth0 7 (some eth0) (upcall 1 1 [10, 9, 9, 9] [224, 1, 1, 1]) =
      .ok (0, w_eth0) :=
  ⟨rfl, rfl, rfl,
    pim_mroute_msg_nocache_precondition_fails w_eth0 7 eth0
      (upcall 1 1 [10, 9, 9, 9] [224, 1, 1, 1]) 0x0a090909 0xe0010101 rfl rfl
      (Or.inr (Or.inr (Or.inr rfl)))⟩

/-! ## Counter refresh: `pim_mroute_update_counters` -/

/-- C20: whatever the statistics collaborator and the kernel query answer, after
`pim_mroute_update_counters` the previous-snapshot fields of the entry hold the
values its current fields had right before the call. -/
theorem pim_mroute_update_counters_snapshot (w : World) (c : channel_oil) :
    (pim_mroute_update_counters w c).1.cc.oldpktcnt = c.cc.pktcnt ∧
    (pim_mroute_update_counters w c).1.cc.oldbytecnt = c.cc.bytecnt ∧
    (pim_mroute_update_counters w c).1.cc.oldwrong_if = c.cc.wrong_if ∧
    (pim_mroute_update_counters w c).1.cc.oldlastused = c.cc.lastused := by
  unfold pim_mroute_update_counters pim_zlookup_sg_statistics
  simp only [emit, extcall]
  cases hz : w.zstats.lookup
      { src := c.oil.mfcc_origin, grp := c.oil.mfcc_mcastgrp } with
  | none =>
    by_cases he : w.env.head?.getD 0 = 0 <;> simp [he]
  | some z =>
    obtain ⟨a, b, d, e⟩ := z
    by_cases he : w.env.head?.getD 0 = 0 <;> simp [he]

/-! ## The WRVIFWHOLE handler: `pim_mroute_msg_wrvifwhole` -/

/-- C16: a WRVIFWHOLE upcall whose (S,G) already has a per-interface channel on
the arrival interface makes `pim_mroute_msg_wrvifwhole` return `-1` with the
whole world as it was: no upstream record or cache entry is created or changed,
and the trace gains no kernel call, Register or Register-Stop. -/
theorem pim_mroute_msg_wrvifwhole_has_channel (w : World) (fd : Int) (ifp : interface)
    (buf : List Nat) (src dst ch : Nat)
    (hsrc : ip_src buf = .ok src) (hdst : ip_dst buf = .ok dst)
    (hch : pim_ifchannel_find w (some ifp) { src := src, grp := dst } = .ok (some ch)) :
    pim_mroute_msg_wrvifwhole w fd (some ifp) buf = .ok (-1, w) := by
  unfold pim_mroute_msg_wrvifwhole
  cases hdbg : w.debug_mroute <;>
    simp [hsrc, hdst, hch, hdbg, bind, Except.bind, pure, Except.pure]

/-- Witness for C16: (10.0.0.5, 224.1.1.1) arriving on `eth0`, which holds its channel. -/
theorem pim_mroute_msg_wrvifwhole_has_channel_witness :
    ip_src (upcall_5 4) = .ok 0x0a000005 ∧ ip_dst (upcall_5 4) = .ok 0xe0010101 ∧
    pim_ifchannel_find w_ch (some eth0) { src := 0x0a000005, grp := 0xe0010101 } =
      .ok (some 0) ∧
    pim_mroute_msg_wrvifwhole w_ch 7 (some eth0) (upcall_5 4) = .ok (-1, w_ch) :=
  ⟨rfl, rfl, rfl,
    pim_mroute_msg_wrvifwhole_has_channel w_ch 7 eth0 (upcall_5 4) 0x0a000005 0xe0010101 0
      rfl rfl rfl⟩

/-- C17: a WRVIFWHOLE upcall whose (S,G) has no per-interface channel on the
arrival interface and has an upstream record flagged FHR makes
`pim_mroute_msg_wrvifwhole` return 0 with the whole world as it was: no
Register-Stop, no change to the record, its cache entry or the kernel table. -/
theorem pim_mroute_msg_wrvifwhole_fhr (w : World) (fd : Int) (ifp : interface)
    (buf : List Nat) (src dst up : Nat) (u : pim_upstream)
    (hsrc : ip_src buf = .ok src) (hdst : ip_dst buf = .ok dst)
    (hch : pim_ifchannel_find w (some ifp) { src := src, grp := dst } = .ok none)
    (hup : pim_upstream_find w { src := src, grp := dst } = some up)
    (hu : w.upstreams[up]? = some u) (hfhr : u.fhr ≠ 0) :
    pim_mroute_msg_wrvifwhole w fd (some ifp) buf = .ok (0, w) := by
  unfold pim_mroute_msg_wrvifwhole
  cases hdbg : w.debug_mroute <;>
    simp [hsrc, hdst, hch, hup, hu, hfhr, hdbg, deref, bind, Except.bind, pure, Except.pure]

/-- Witness for C17: (10.0.0.5, 224.1.1.1) arriving on `eth0` with the FHR record. -/
theorem pim_mroute_msg_wrvifwhole_fhr_witness :
    ip_src (upcall_5 4) = .ok 0x0a000005 ∧ ip_dst (upcall_5 4) = .ok 0xe0010101 ∧
    pim_ifchannel_find w_fhr (some eth0) { src := 0x0a000005, grp := 0xe0010101 } =
      .ok none ∧
    pim_upstream_find w_fhr { src := 0x0a000005, grp := 0xe0010101 } = some 0 ∧
    w_fhr.upstreams[0]? = some up_fhr ∧ up_fhr.fhr ≠ 0 ∧
    pim_mroute_msg_wrvifwhole w_fhr 7 (some eth0) (upcall_5 4) = .ok (0, w_fhr) :=
  ⟨rfl, rfl, rfl, rfl, rfl, by decide,
    pim_mroute_msg_wrvifwhole_fhr w_fhr 7 eth0 (upcall_5 4) 0x0a000005 0xe0010101 0 up_fhr
      rfl rfl rfl rfl rfl (by decide)⟩

/-! ## The WRONGVIF handler: `pim_mroute_msg_wrongvif` -/

/-- A table lookup that finds index `i` finds there an element with the key. -/
theorem findIdx?_some_get {α : Type} (p : α → Bool) (l : List α) (i : Nat)
    (h : l.findIdx? p = some i) : ∃ a, l[i]? = some a ∧ p a = true := by
  have h1 := List.findIdx?_of_eq_some h
  cases hl : l[i]? with
  | none => rw [hl] at h1; cases h1
  | some a => rw [hl] at h1; exact ⟨a, rfl, h1⟩

/-- No external action lies between a world and itself. -/
theorem new_events_self (w : World) : new_events w w = [] := by
  simp [new_events]

/-- C14: on a WRONGVIF upcall the Assert action A1 is invoked exactly when the
interface is resolved, has PIM state, holds a channel for (S,G), the channel's
Assert state is NoInfo and its could-assert flag is set; it is then invoked
once, on that channel.  In every other case, an Assert state other than NoInfo
among them, the handler leaves the whole world as it was. -/
theorem pim_mroute_msg_wrongvif_assert (w : World) (fd : Int) (ifp : Option interface)
    (msg : List Nat) (src dst : Nat)
    (hsrc : im_src msg = .ok src) (hdst : im_dst msg = .ok dst) :
    ∃ r w1, pim_mroute_msg_wrongvif w fd ifp msg = .ok (r, w1) ∧
      (∀ ifp0 pim_ifp ch c, ifp = some ifp0 → ifp0.info = some pim_ifp →
        pim_ifchannel_find w ifp { src := src, grp := dst } = .ok (some ch) →
        w.ifchannels[ch]? = some c →
        c.ifassert_state = pim_ifassert_state.PIM_IFASSERT_NOINFO →
        PIM_IF_FLAG_TEST_COULD_ASSERT c.flags = true →
        new_events w w1 = [Event.assert_action_a1 c.interface c.sg (w.env.headD 0)] ∧
        c.interface = ifp0.ifindex ∧ c.sg = { src := src, grp := dst }) ∧
      ((¬ ∃ ifp0 pim_ifp ch c, ifp = some ifp0 ∧ ifp0.info = some pim_ifp ∧
          pim_ifchannel_find w ifp { src := src, grp := dst } = .ok (some ch) ∧
          w.ifchannels[ch]? = some c ∧
          c.ifassert_state = pim_ifassert_state.PIM_IFASSERT_NOINFO ∧
          PIM_IF_FLAG_TEST_COULD_ASSERT c.flags = true) →
        w1 = w ∧ new_events w w1 = []) := by
  cases ifp with
  | none =>
    refine ⟨-1, w, ?_, ?_, fun _ => ⟨rfl, new_events_self w⟩⟩
    · simp [pim_mroute_msg_wrongvif, hsrc, hdst, bind, Except.bind, pure, Except.pure]
    · intro i0 p0 ch0 c0 h1
      cases h1
  | some ifp0 =>
    cases hinfo : ifp0.info with
    | none =>
      refine ⟨-2, w, ?_, ?_, fun _ => ⟨rfl, new_events_self w⟩⟩
      · simp [pim_mroute_msg_wrongvif, hsrc, hdst, hinfo, bind, Except.bind, pure, Except.pure]
      · intro i0 p0 ch0 c0 h1 h2
        cases h1
        rw [hinfo] at h2
        cases h2
    | some pim_ifp =>
      cases hf : w.ifchannels.findIdx?
          (fun ch => decide (ch.interface = ifp0.ifindex ∧ ch.sg = { src := src, grp := dst })) with
      | none =>
        have hfind : pim_ifchannel_find w (some ifp0) { src := src, grp := dst } = .ok none := by
          simp only [pim_ifchannel_find, hf]
        refine ⟨-3, w, ?_, ?_, fun _ => ⟨rfl, new_events_self w⟩⟩
        · simp [pim_mroute_msg_wrongvif, hsrc, hdst, hinfo, hfind, bind, Except.bind, pure,
            Except.pure]
        · intro i0 p0 ch0 c0 _ _ h3
          rw [hfind] at h3
          cases h3
      | some ch =>
        obtain ⟨c, hc, hpc⟩ := findIdx?_some_get _ _ _ hf
        simp only [decide_eq_true_eq] at hpc
        have hfind : pim_ifchannel_find w (some ifp0) { src := src, grp := dst } =
            .ok (some ch) := by
          simp only [pim_ifchannel_find, hf]
        by_cases hst : c.ifassert_state = pim_ifassert_state.PIM_IFASSERT_NOINFO
        · by_cases hca : PIM_IF_FLAG_TEST_COULD_ASSERT c.flags = true
          · by_cases he : w.env.head?.getD 0 = 0
            · refine ⟨0, { (extcall w (Event.assert_action_a1 c.interface c.sg)).2 with
                ifchannels := upd w.ifchannels ch (fun c =>
                  { c with ifassert_state := pim_ifassert_state.PIM_IFASSERT_I_AM_WINNER }) },
                ?_, ?_, ?_⟩
              · simp [pim_mroute_msg_wrongvif, hsrc, hdst, hinfo, hfind, deref, hc, hst, hca,
                  assert_action_a1, extcall, he, bind, Except.bind, pure, Except.pure]
              · intro i0 p0 ch0 c0 h1 _ h3 h4 _ _
                cases h1
                rw [hfind] at h3; cases h3
                rw [hc] at h4; cases h4
                exact ⟨by simp [new_events, extcall, he], hpc.1, hpc.2⟩
              · intro hn
                exact absurd ⟨ifp0, pim_ifp, ch, c, rfl, hinfo, hfind, hc, hst, hca⟩ hn
            · refine ⟨-6, (extcall w (Event.assert_action_a1 c.interface c.sg)).2, ?_, ?_, ?_⟩
              · simp [pim_mroute_msg_wrongvif, hsrc, hdst, hinfo, hfind, deref, hc, hst, hca,
                  assert_action_a1, extcall, he, bind, Except.bind, pure, Except.pure]
              · intro i0 p0 ch0 c0 h1 _ h3 h4 _ _
                cases h1
                rw [hfind] at h3; cases h3
                rw [hc] at h4; cases h4
                exact ⟨by simp [new_events, extcall], hpc.1, hpc.2⟩
              · intro hn
                exact absurd ⟨ifp0, pim_ifp, ch, c, rfl, hinfo, hfind, hc, hst, hca⟩ hn
          · refine ⟨-5, w, ?_, ?_, fun _ => ⟨rfl, new_events_self w⟩⟩
            · simp [pim_mroute_msg_wrongvif, hsrc, hdst, hinfo, hfind, deref, hc, hst, hca,
                bind, Except.bind, pure, Except.pure]
            · intro i0 p0 ch0 c0 _ _ h3 h4 _ h6
              rw [hfind] at h3; cases h3
              rw [hc] at h4; cases h4
              exact absurd h6 hca
        · refine ⟨-4, w, ?_, ?_, fun _ => ⟨rfl, new_events_self w⟩⟩
          · simp [pim_mroute_msg_wrongvif, hsrc, hdst, hinfo, hfind, deref, hc, hst,
              bind, Except.bind, pure, Except.pure]
          · intro i0 p0 ch0 c0 _ _ h3 h4 h5 _
            rw [hfind] at h3; cases h3
            rw [hc] at h4; cases h4
            exact absurd h5 hst

/-- Witness for C14: a WRONGVIF upcall for (10.0.0.5, 224.1.1.1) on `eth0`,
whose channel is in Assert NoInfo with could-assert set: one A1 on that channel. -/
theorem pim_mroute_msg_wrongvif_assert_witness :
    im_src (upcall_5 2) = .ok 0x0a000005 ∧ im_dst (upcall_5 2) = .ok 0xe0010101 ∧
    ∃ r w1, pim_mroute_msg_wrongvif w_ch 7 (some eth0) (upcall_5 2) = .ok (r, w1) ∧
      new_events w_ch w1 = [Event.assert_action_a1 2 sg_5 0] := by
  refine ⟨rfl, rfl, ?_⟩
  obtain ⟨r, w1, h, hA, _⟩ :=
    pim_mroute_msg_wrongvif_assert w_ch 7 (some eth0) (upcall_5 2) 0x0a000005 0xe0010101 rfl rfl
  exact ⟨r, w1, h, (hA eth0 pim_eth0 0 ch_eth0 rfl rfl rfl rfl rfl rfl).1⟩

/-- C15: `pim_mroute_msg_wrongvif` returns the code of the first failing
precondition: `-1` for an unresolved interface, `-2` for an interface without
PIM state, `-3` when no channel exists for (S,G) (and no Assert action is
invoked), `-4` when the channel's Assert state is not NoInfo, `-5` when
could-assert is not set; it returns 0 exactly when every precondition holds and
the Assert action reports success. -/
theorem pim_mroute_msg_wrongvif_code (w : World) (fd : Int) (ifp : Option interface)
    (msg : List Nat) (src dst : Nat)
    (hsrc : im_src msg = .ok src) (hdst : im_dst msg = .ok dst) :
    ∃ r w1, pim_mroute_msg_wrongvif w fd ifp msg = .ok (r, w1) ∧
      (ifp = none → r = -1) ∧
      (∀ ifp0, ifp = some ifp0 → ifp0.info = none → r = -2) ∧
      (∀ ifp0 pim_ifp, ifp = some ifp0 → ifp0.info = some pim_ifp →
        pim_ifchannel_find w ifp { src := src, grp := dst } = .ok none →
        r = -3 ∧ new_events w w1 = []) ∧
      (∀ ifp0 pim_ifp ch c, ifp = some ifp0 → ifp0.info = some pim_ifp →
        pim_ifchannel_find w ifp { src := src, grp := dst } = .ok (some ch) →
        w.ifchannels[ch]? = some c →
        c.ifassert_state ≠ pim_ifassert_state.PIM_IFASSERT_NOINFO → r = -4) ∧
      (∀ ifp0 pim_ifp ch c, ifp = some ifp0 → ifp0.info = some pim_ifp →
        pim_ifchannel_find w ifp { src := src, grp := dst } = .ok (some ch) →
        w.ifchannels[ch]? = some c →
        c.ifassert_state = pim_ifassert_state.PIM_IFASSERT_NOINFO →
        PIM_IF_FLAG_TEST_COULD_ASSERT c.flags = false → r = -5) ∧
      (r = 0 ↔ ∃ ifp0 pim_ifp ch c, ifp = some ifp0 ∧ ifp0.info = some pim_ifp ∧
        pim_ifchannel_find w ifp { src := src, grp := dst } = .ok (some ch) ∧
        w.ifchannels[ch]? = some c ∧
        c.ifassert_state = pim_ifassert_state.PIM_IFASSERT_NOINFO ∧
        PIM_IF_FLAG_TEST_COULD_ASSERT c.flags = true ∧ w.env.headD 0 = 0) ∧
      (r = 0 ∨ r = -1 ∨ r = -2 ∨ r = -3 ∨ r = -4 ∨ r = -5 ∨ r = -6) := by
  cases ifp with
  | none =>
    refine ⟨-1, w, ?_, fun _ => rfl, ?_, ?_, ?_, ?_, ?_, by decide⟩
    · simp [pim_mroute_msg_wrongvif, hsrc, hdst, bind, Except.bind, pure, Except.pure]
    · intro _ h; cases h
    · intro _ _ h; cases h
    · intro _ _ _ _ h; cases h
    · intro _ _ _ _ h; cases h
    · constructor
      · intro h; exact absurd h (by decide)
      · rintro ⟨_, _, _, _, h, _⟩; cases h
  | some ifp0 =>
    cases hinfo : ifp0.info with
    | none =>
      refine ⟨-2, w, ?_, ?_, fun _ _ _ => rfl, ?_, ?_, ?_, ?_, by decide⟩
      · simp [pim_mroute_msg_wrongvif, hsrc, hdst, hinfo, bind, Except.bind, pure, Except.pure]
      · intro h; cases h
      · intro _ _ h1 h2; cases h1; rw [hinfo] at h2; cases h2
      · intro _ _ _ _ h1 h2; cases h1; rw [hinfo] at h2; cases h2
      · intro _ _ _ _ h1 h2; cases h1; rw [hinfo] at h2; cases h2
      · constructor
        · intro h; exact absurd h (by decide)
        · rintro ⟨_, _, _, _, h1, h2, _⟩; cases h1; rw [hinfo] at h2; cases h2
    | some pim_ifp =>
      cases hf : w.ifchannels.findIdx?
          (fun ch => decide (ch.interface = ifp0.ifindex ∧ ch.sg = { src := src, grp := dst })) with
      | none =>
        have hfind : pim_ifchannel_find w (some ifp0) { src := src, grp := dst } = .ok none := by
          simp only [pim_ifchannel_find, hf]
        refine ⟨-3, w, ?_, ?_, ?_, fun _ _ _ _ _ => ⟨rfl, new_events_self w⟩, ?_, ?_, ?_,
          by decide⟩
        · simp [pim_mroute_msg_wrongvif, hsrc, hdst, hinfo, hfind, bind, Except.bind, pure,
            Except.pure]
        · intro h; cases h
        · intro _ h1 h2; cases h1; rw [hinfo] at h2; cases h2
        · intro _ _ _ _ _ _ h3; rw [hfind] at h3; cases h3
        · intro _ _ _ _ _ _ h3; rw [hfind] at h3; cases h3
        · constructor
          · intro h; exact absurd h (by decide)
          · rintro ⟨_, _, _, _, _, _, h3, _⟩; rw [hfind] at h3; cases h3
      | some ch =>
        obtain ⟨c, hc, _⟩ := findIdx?_some_get _ _ _ hf
        have hfind : pim_ifchannel_find w (some ifp0) { src := src, grp := dst } =
            .ok (some ch) := by
          simp only [pim_ifchannel_find, hf]
        by_cases hst : c.ifassert_state = pim_ifassert_state.PIM_IFASSERT_NOINFO
        · by_cases hca : PIM_IF_FLAG_TEST_COULD_ASSERT c.flags = true
          · by_cases he : w.env.head?.getD 0 = 0
            · refine ⟨0, { (extcall w (Event.assert_action_a1 c.interface c.sg)).2 with
                ifchannels := upd w.ifchannels ch (fun c =>
                  { c with ifassert_state := pim_ifassert_state.PIM_IFASSERT_I_AM_WINNER }) },
                ?_, ?_, ?_, ?_, ?_, ?_, ?_, by decide⟩
              · simp [pim_mroute_msg_wrongvif, hsrc, hdst, hinfo, hfind, deref, hc, hst, hca,
                  assert_action_a1, extcall, he, bind, Except.bind, pure, Except.pure]
              · intro h; cases h
              · intro _ h1 h2; cases h1; rw [hinfo] at h2; cases h2
              · intro _ _ _ _ h3; rw [hfind] at h3; cases h3
              · intro _ _ _ c0 _ _ h3 h4 h5
                rw [hfind] at h3; cases h3
                rw [hc] at h4; cases h4
                exact absurd hst h5
              · intro _ _ _ c0 _ _ h3 h4 _ h6
                rw [hfind] at h3; cases h3
                rw [hc] at h4; cases h4
                rw [hca] at h6; cases h6
              · constructor
                · intro _
                  exact ⟨ifp0, pim_ifp, ch, c, rfl, hinfo, hfind, hc, hst, hca, by simpa using he⟩
                · intro _; rfl
            · refine ⟨-6, (extcall w (Event.assert_action_a1 c.interface c.sg)).2,
                ?_, ?_, ?_, ?_, ?_, ?_, ?_, by decide⟩
              · simp [pim_mroute_msg_wrongvif, hsrc, hdst, hinfo, hfind, deref, hc, hst, hca,
                  assert_action_a1, extcall, he, bind, Except.bind, pure, Except.pure]
              · intro h; cases h
              · intro _ h1 h2; cases h1; rw [hinfo] at h2; cases h2
              · intro _ _ _ _ h3; rw [hfind] at h3; cases h3
              · intro _ _ _ c0 _ _ h3 h4 h5
                rw [hfind] at h3; cases h3
                rw [hc] at h4; cases h4
                exact absurd hst h5
              · intro _ _ _ c0 _ _ h3 h4 _ h6
                rw [hfind] at h3; cases h3
                rw [hc] at h4; cases h4
                rw [hca] at h6; cases h6
              · constructor
                · intro h; exact absurd h (by decide)
                · rintro ⟨_, _, _, _, _, _, _, _, _, _, h7⟩
                  exact absurd (by simpa using h7) he
          · have hca2 : PIM_IF_FLAG_TEST_COULD_ASSERT c.flags = false := by
              simpa using hca
            refine ⟨-5, w, ?_, ?_, ?_, ?_, ?_, fun _ _ _ _ _ _ _ _ _ _ => rfl, ?_, by decide⟩
            · simp [pim_mroute_msg_wrongvif, hsrc, hdst, hinfo, hfind, deref, hc, hst, hca2,
                bind, Except.bind, pure, Except.pure]
            · intro h; cases h
            · intro _ h1 h2; cases h1; rw [hinfo] at h2; cases h2
            · intro _ _ _ _ h3; rw [hfind] at h3; cases h3
            · intro _ _ _ c0 _ _ h3 h4 h5
              rw [hfind] at h3; cases h3
              rw [hc] at h4; cases h4
              exact absurd hst h5
            · constructor
              · intro h; exact absurd h (by decide)
              · rintro ⟨_, _, _, c0, _, _, h3, h4, _, h6, _⟩
                rw [hfind] at h3; cases h3
                rw [hc] at h4; cases h4
                exact absurd h6 hca
        · refine ⟨-4, w, ?_, ?_, ?_, ?_, fun _ _ _ _ _ _ _ _ _ => rfl, ?_, ?_, by decide⟩
          · simp [pim_mroute_msg_wrongvif, hsrc, hdst, hinfo, hfind, deref, hc, hst,
              bind, Except.bind, pure, Except.pure]
          · intro h; cases h
          · intro _ h1 h2; cases h1; rw [hinfo] at h2; cases h2
          · intro _ _ _ _ h3; rw [hfind] at h3; cases h3
          · intro _ _ _ c0 _ _ h3 h4 h5
            rw [hfind] at h3; cases h3
            rw [hc] at h4; cases h4
            exact absurd h5 hst
          · constructor
            · intro h; exact absurd h (by decide)
            · rintro ⟨_, _, _, c0, _, _, h3, h4, h5, _⟩
              rw [hfind] at h3; cases h3
              rw [hc] at h4; cases h4
              exact absurd h5 hst

/-- Witness for C15: a WRONGVIF upcall for (10.0.0.5, 224.1.1.1) on `eth0`,
which is PIM-enabled and holds no channel: code `-3`, no Assert action. -/
theorem pim_mroute_msg_wrongvif_code_witness :
    im_src (upcall_5 2) = .ok 0x0a000005 ∧ im_dst (upcall_5 2) = .ok 0xe0010101 ∧
    ∃ w1, pim_mroute_msg_wrongvif w_eth0 7 (some eth0) (upcall_5 2) = .ok (-3, w1) ∧
      new_events w_eth0 w1 = [] := by
  refine ⟨rfl, rfl, ?_⟩
  obtain ⟨r, w1, h, _, _, h3, _⟩ :=
    pim_mroute_msg_wrongvif_code w_eth0 7 (some eth0) (upcall_5 2) 0x0a000005 0xe0010101
      rfl rfl
  obtain ⟨hr, hev⟩ := h3 eth0 pim_eth0 rfl rfl rfl
  subst hr
  exact ⟨w1, h, hev⟩

/-! ## The WHOLEPKT handler: `pim_mroute_msg_wholepkt` -/

/-- C13: `pim_mroute_msg_wholepkt` returns 0 and changes nothing but the trace.
It emits a Register exactly when an upstream record exists for the (S,G) of the
embedded header, the RP of the group is resolved, the record's RPF interface
has PIM state, this router is the DR on it, the interface is not SSM-only and
no register-suppression timer runs; it then emits one Register, addressed to
that RP, with flag 0.  (The RPF interface pointer of an existing record is
taken to be set: the code dereferences it unchecked.) -/
theorem pim_mroute_msg_wholepkt_register (w : World) (fd : Int) (ifp : Option interface)
    (buf : List Nat) (src dst len : Nat)
    (hsrc : ip_src buf = .ok src) (hdst : ip_dst buf = .ok dst) (hlen : ip_len buf = .ok len)
    (hwf : ∀ up u, pim_upstream_find w { src := src, grp := dst } = some up →
      w.upstreams[up]? = some u → u.rpf.source_nexthop.interface ≠ none) :
    ∃ w1, pim_mroute_msg_wholepkt w fd ifp buf = .ok (0, w1) ∧
      w1 = { w with trace := w1.trace } ∧
      w1.upstreams = w.upstreams ∧ w1.oils = w.oils ∧
      (∀ up u rpf_ifp pim_ifp, pim_upstream_find w { src := src, grp := dst } = some up →
        w.upstreams[up]? = some u → u.rpf.source_nexthop.interface = some rpf_ifp →
        rpf_ifp.info = some pim_ifp → (RP w dst).rpf_addr ≠ INADDR_NONE →
        PIM_I_am_DR pim_ifp = true → pim_ifp.itype ≠ PIM_INTERFACE_SSM →
        u.t_rs_timer = false →
        new_events w w1 =
          [Event.pim_register_send (buf.drop sizeof_ip) len pim_ifp.primary_address
            (RP w dst) 0]) ∧
      ((¬ ∃ up u rpf_ifp pim_ifp, pim_upstream_find w { src := src, grp := dst } = some up ∧
          w.upstreams[up]? = some u ∧ u.rpf.source_nexthop.interface = some rpf_ifp ∧
          rpf_ifp.info = some pim_ifp ∧ (RP w dst).rpf_addr ≠ INADDR_NONE ∧
          PIM_I_am_DR pim_ifp = true ∧ pim_ifp.itype ≠ PIM_INTERFACE_SSM ∧
          u.t_rs_timer = false) →
        w1 = w ∧ new_events w w1 = []) := by
  cases hf : pim_upstream_find w { src := src, grp := dst } with
  | none =>
    refine ⟨w, ?_, rfl, rfl, rfl, ?_, fun _ => ⟨rfl, new_events_self w⟩⟩
    · simp [pim_mroute_msg_wholepkt, hsrc, hdst, hf, bind, Except.bind, pure, Except.pure]
    · intro _ _ _ _ h; cases h
  | some up =>
    obtain ⟨u, hu, _⟩ := findIdx?_some_get _ _ _ hf
    cases hri : u.rpf.source_nexthop.interface with
    | none => exact absurd hri (hwf up u hf hu)
    | some rpf_ifp =>
      have hno : ∀ (P : Prop), ¬ P →
          pim_mroute_msg_wholepkt w fd ifp buf = .ok (0, w) →
          (∀ up0 u0 r0 p0, pim_upstream_find w { src := src, grp := dst } = some up0 →
            w.upstreams[up0]? = some u0 → u0.rpf.source_nexthop.interface = some r0 →
            r0.info = some p0 → (RP w dst).rpf_addr ≠ INADDR_NONE →
            PIM_I_am_DR p0 = true → p0.itype ≠ PIM_INTERFACE_SSM →
            u0.t_rs_timer = false → P) →
          ∃ w1, pim_mroute_msg_wholepkt w fd ifp buf = .ok (0, w1) ∧
            w1 = { w with trace := w1.trace } ∧
            w1.upstreams = w.upstreams ∧ w1.oils = w.oils ∧
            (∀ up u rpf_ifp pim_ifp,
              pim_upstream_find w { src := src, grp := dst } = some up →
              w.upstreams[up]? = some u → u.rpf.source_nexthop.interface = some rpf_ifp →
              rpf_ifp.info = some pim_ifp → (RP w dst).rpf_addr ≠ INADDR_NONE →
              PIM_I_am_DR pim_ifp = true → pim_ifp.itype ≠ PIM_INTERFACE_SSM →
              u.t_rs_timer = false →
              new_events w w1 =
                [Event.pim_register_send (buf.drop sizeof_ip) len pim_ifp.primary_address
                  (RP w dst) 0]) ∧
            ((¬ ∃ up u rpf_ifp pim_ifp,
                pim_upstream_find w { src := src, grp := dst } = some up ∧
                w.upstreams[up]? = some u ∧ u.rpf.source_nexthop.interface = some rpf_ifp ∧
                rpf_ifp.info = some pim_ifp ∧ (RP w dst).rpf_addr ≠ INADDR_NONE ∧
                PIM_I_am_DR pim_ifp = true ∧ pim_ifp.itype ≠ PIM_INTERFACE_SSM ∧
                u.t_rs_timer = false) →
              w1 = w ∧ new_events w w1 = []) := by
        intro P hP hres hall
        refine ⟨w, hres, rfl, rfl, rfl, ?_, fun _ => ⟨rfl, new_events_self w⟩⟩
        intro a b c d h1 h2 h3 h4 h5 h6 h7 h8
        exact absurd (hall a b c d h1 h2 h3 h4 h5 h6 h7 h8) hP
      rw [hf] at hno
      by_cases hrp : (RP w dst).rpf_addr = INADDR_NONE
      · refine hno _ (fun h => h hrp) ?_ (fun _ _ _ _ _ _ _ _ h5 _ _ _ => h5)
        simp [pim_mroute_msg_wholepkt, hsrc, hdst, hf, deref, hu, hri, hrp, bind, Except.bind,
          pure, Except.pure]
      · cases hinfo : rpf_ifp.info with
        | none =>
          refine hno False (fun h => h) ?_ ?_
          · simp [pim_mroute_msg_wholepkt, hsrc, hdst, hf, deref, hu, hri, hrp, hinfo, bind,
              Except.bind, pure, Except.pure]
          · intro up0 u0 r0 p0 h1 h2 h3 h4 _ _ _ _
            cases h1
            rw [hu] at h2; cases h2
            rw [hri] at h3; cases h3
            rw [hinfo] at h4; cases h4
        | some pim_ifp =>
          by_cases hdr : PIM_I_am_DR pim_ifp = true
          · by_cases hss : pim_ifp.itype = PIM_INTERFACE_SSM
            · refine hno False (fun h => h) ?_ ?_
              · simp [pim_mroute_msg_wholepkt, hsrc, hdst, hf, deref, hu, hri, hrp, hinfo, hdr,
                  hss, bind, Except.bind, pure, Except.pure]
              · intro up0 u0 r0 p0 h1 h2 h3 h4 _ _ h7 _
                cases h1
                rw [hu] at h2; cases h2
                rw [hri] at h3; cases h3
                rw [hinfo] at h4; cases h4
                exact h7 hss
            · cases hrs : u.t_rs_timer with
              | true =>
                refine hno False (fun h => h) ?_ ?_
                · simp [pim_mroute_msg_wholepkt, hsrc, hdst, hf, deref, hu, hri, hrp, hinfo,
                    hdr, hss, hrs, bind, Except.bind, pure, Except.pure]
                · intro up0 u0 r0 p0 h1 h2 _ _ _ _ _ h8
                  cases h1
                  rw [hu] at h2; cases h2
                  rw [hrs] at h8; cases h8
              | false =>
                refine ⟨emit w (Event.pim_register_send (buf.drop sizeof_ip) len
                  pim_ifp.primary_address (RP w dst) 0), ?_, rfl, rfl, rfl, ?_, ?_⟩
                · simp [pim_mroute_msg_wholepkt, hsrc, hdst, hlen, hf, deref, hu, hri, hrp,
                    hinfo, hdr, hss, hrs, bind, Except.bind, pure, Except.pure]
                · intro up0 u0 r0 p0 h1 h2 h3 h4 _ _ _ _
                  cases h1
                  rw [hu] at h2; cases h2
                  rw [hri] at h3; cases h3
                  rw [hinfo] at h4; cases h4
                  simp [new_events, emit]
                · intro hn
                  exact absurd ⟨up, u, rpf_ifp, pim_ifp, rfl, hu, hri, hinfo, hrp, hdr, hss,
                    hrs⟩ hn
          · refine hno False (fun h => h) ?_ ?_
            · simp [pim_mroute_msg_wholepkt, hsrc, hdst, hf, deref, hu, hri, hrp, hinfo, hdr,
                bind, Except.bind, pure, Except.pure]
            · intro up0 u0 r0 p0 h1 h2 h3 h4 _ h6 _ _
              cases h1
              rw [hu] at h2; cases h2
              rw [hri] at h3; cases h3
              rw [hinfo] at h4; cases h4
              exact hdr h6

/-- Witness for C13: a WHOLEPKT upcall for (10.0.0.5, 224.1.1.1) whose record
has `eth0` as RPF interface and no register-suppression timer: one Register,
from 10.0.0.1 to the RP 10.0.0.99. -/
theorem pim_mroute_msg_wholepkt_register_witness :
    ip_src (upcall_5 3) = .ok 0x0a000005 ∧ ip_dst (upcall_5 3) = .ok 0xe0010101 ∧
    ip_len (upcall_5 3) = .ok 0 ∧
    ∃ w1, pim_mroute_msg_wholepkt w_fhr 7 (some eth0) (upcall_5 3) = .ok (0, w1) ∧
      new_events w_fhr w1 = [Event.pim_register_send [] 0 0x0a000001 rp_10_0_0_99 0] := by
  refine ⟨rfl, rfl, rfl, ?_⟩
  have hfind : pim_upstream_find w_fhr { src := 0x0a000005, grp := 0xe0010101 } = some 0 := rfl
  have hget : w_fhr.upstreams[0]? = some up_fhr := rfl
  obtain ⟨w1, h, _, _, _, hA, _⟩ :=
    pim_mroute_msg_wholepkt_register w_fhr 7 (some eth0) (upcall_5 3) 0x0a000005 0xe0010101 0
      rfl rfl rfl (by
        intro up u h1 h2
        rw [hfind] at h1; cases h1
        rw [hget] at h2; cases h2
        decide)
  exact ⟨w1, h, hA 0 up_fhr eth0 pim_eth0 hfind hget rfl rfl (by decide) rfl (by decide) rfl⟩

/-! ## The NOCACHE handler on a new source -/

/-- Writing through a pointer to the element just appended. -/
theorem upd_append_length {α : Type} (l : List α) (x : α) (f : α → α) :
    upd (l ++ [x]) l.length f = l ++ [f x] := by
  simp [upd]

/-- Reading through a pointer to the element just appended. -/
theorem deref_append_length {α : Type} (l : List α) (x : α) :
    deref (l ++ [x]) l.length = .ok x := by
  simp [deref]

/-- `pim_channel_oil_add` on a key without entry, the allocation succeeding:
a fresh, uninstalled entry with the given parent VIF is appended. -/
theorem pim_channel_oil_add_new (w : World) (sg : prefix_sg) (vif : Nat)
    (hno : ∀ c ∈ w.oils, c.sg ≠ sg) (he : w.env.headD 0 = 0) :
    ∃ c wa, pim_channel_oil_add w sg vif = (some w.oils.length, wa) ∧
      wa = { w with env := w.env.tail, trace := w.trace ++ [Event.alloc 0],
                    oils := w.oils ++ [c] } ∧
      c.sg = sg ∧ c.oil.mfcc_parent = vif ∧ c.installed = 0 ∧ c.cc.pktcnt = 0 ∧
      c.oil.mfcc_ttls.length = MAXVIFS ∧ c.oif_flags.length = MAXVIFS := by
  have hfo : w.oils.findIdx? (fun c => decide (c.sg = sg)) = none := by
    rw [List.findIdx?_eq_none_iff]
    intro c hc
    simpa using hno c hc
  have he1 : w.env.head?.getD 0 = 0 := by simpa using he
  refine ⟨{ oil := { mfcc_origin := sg.src, mfcc_mcastgrp := sg.grp, mfcc_parent := vif,
                     mfcc_ttls := List.replicate MAXVIFS 0 },
            installed := 0, oil_size := 0, oil_ref_count := 1,
            oif_flags := List.replicate MAXVIFS 0,
            cc := { lastused := 0, pktcnt := 0, oldpktcnt := 0, bytecnt := 0, oldbytecnt := 0,
                    wrong_if := 0, oldwrong_if := 0, oldlastused := 0 } },
    _, ?_, rfl, ?_, rfl, rfl, rfl, ?_, ?_⟩
  · simp only [pim_channel_oil_add, hfo, extcall, List.headD_eq_head?_getD, he1]
    simp
  · simp [channel_oil.sg]
  · simp
  · simp

/-- `pim_channel_oil_add` on a key with an entry: the entry gains a reference. -/
theorem pim_channel_oil_add_found (w : World) (sg : prefix_sg) (vif i : Nat)
    (hf : w.oils.findIdx? (fun c => decide (c.sg = sg)) = some i) :
    pim_channel_oil_add w sg vif =
      (some i, { w with oils := upd w.oils i (fun c =>
        { c with oil_ref_count := c.oil_ref_count + 1 }) }) := by
  simp only [pim_channel_oil_add, hf]

/-- `pim_upstream_add` on a key without record, the allocation succeeding: a
fresh record is appended. -/
theorem pim_upstream_add_new (w : World) (sg : prefix_sg) (ifp : Option interface)
    (hno : ∀ u ∈ w.upstreams, u.sg ≠ sg) (he : w.env.headD 0 = 0) :
    ∃ u wb, pim_upstream_add w sg ifp = (some w.upstreams.length, wb) ∧
      wb = { w with env := w.env.tail, trace := w.trace ++ [Event.alloc 0],
                    upstreams := w.upstreams ++ [u] } ∧
      u.sg = sg ∧ u.channel_oil = none ∧ u.t_rs_timer = false ∧
      u.rpf.source_nexthop =
        (w.nexthops.lookup sg.src).getD { interface := none, mrib_nexthop_addr := 0 } := by
  have hfo : w.upstreams.findIdx? (fun u => decide (u.sg = sg)) = none := by
    rw [List.findIdx?_eq_none_iff]
    intro u hu
    simpa using hno u hu
  have he1 : w.env.head?.getD 0 = 0 := by simpa using he
  refine ⟨{ sg := sg, upstream_register := 0, fhr := 0, ref_count := 1, channel_oil := none,
            join_state := pim_upstream_state.PIM_UPSTREAM_NOTJOINED,
            sptbit := pim_upstream_sptbit.PIM_UPSTREAM_SPTBIT_FALSE,
            rpf := { source_nexthop :=
                       (w.nexthops.lookup sg.src).getD
                         { interface := none, mrib_nexthop_addr := 0 },
                     rpf_addr :=
                       ((w.nexthops.lookup sg.src).getD
                         { interface := none, mrib_nexthop_addr := 0 }).mrib_nexthop_addr },
            t_rs_timer := false, t_ka_timer := none },
    _, ?_, rfl, rfl, rfl, rfl, rfl⟩
  simp only [pim_upstream_add, pim_upstream_find, hfo, extcall, List.headD_eq_head?_getD, he1]
  simp

/-- `pim_upstream_add` on a key with a record: the record gains a reference. -/
theorem pim_upstream_add_found (w : World) (sg : prefix_sg) (ifp : Option interface) (i : Nat)
    (hf : pim_upstream_find w sg = some i) :
    pim_upstream_add w sg ifp =
      (some i, { w with upstreams := upd w.upstreams i (fun u =>
        { u with ref_count := u.ref_count + 1 }) }) := by
  simp only [pim_upstream_add, hf]

/-- The keepalive timer start on a valid record pointer. -/
theorem pim_upstream_keep_alive_timer_start_ok (w : World) (up time : Nat) (u : pim_upstream)
    (hu : w.upstreams[up]? = some u) :
    pim_upstream_keep_alive_timer_start w up time =
      .ok { w with
        trace := w.trace ++ [Event.pim_upstream_keep_alive_timer_start u.sg time],
        upstreams := upd w.upstreams up (fun u => { u with t_ka_timer := some time }) } := by
  simp [pim_upstream_keep_alive_timer_start, deref, hu, emit, bind, Except.bind, pure,
    Except.pure]

/-- Adding an outgoing interface through a valid entry pointer, the VIF index
inside the arrays. -/
theorem pim_channel_add_oif_ok (w : World) (oil oif mask : Nat) (c : channel_oil)
    (hc : w.oils[oil]? = some c) (h1 : oif < c.oil.mfcc_ttls.length)
    (h2 : oif < c.oif_flags.length) :
    pim_channel_add_oif w oil oif mask =
      .ok { w with
        trace := w.trace ++ [Event.pim_channel_add_oif c.sg oif mask],
        oils := upd w.oils oil (fun c =>
          { c with oil := { c.oil with mfcc_ttls := c.oil.mfcc_ttls.set oif PIM_MROUTE_MIN_TTL },
                   oif_flags := upd c.oif_flags oif (fun f => f ||| mask) }) } := by
  simp [pim_channel_add_oif, deref, hc, emit, h1, h2, bind, Except.bind, pure, Except.pure]

/-- The slot written by `upd`. -/
theorem upd_getElem?_self {α : Type} (l : List α) (i : Nat) (f : α → α) (a : α)
    (h : l[i]? = some a) : (upd l i f)[i]? = some (f a) := by
  have hi : i < l.length := by
    by_contra hn
    rw [List.getElem?_eq_none (not_lt.mp hn)] at h
    cases h
  simp [upd, h, List.getElem?_set, hi]

/-- The other slots are left alone by `upd`. -/
theorem upd_getElem?_ne {α : Type} (l : List α) (i j : Nat) (f : α → α) (h : i ≠ j) :
    (upd l i f)[j]? = l[j]? := by
  unfold upd
  cases hl : l[i]? with
  | none => rfl
  | some a => simp [List.getElem?_set, h]

/-- The table keeps its length under `upd`. -/
theorem upd_length {α : Type} (l : List α) (i : Nat) (f : α → α) :
    (upd l i f).length = l.length := by
  unfold upd
  cases l[i]? <;> simp

/-- A key-preserving `upd` leaves the list of keys as it was. -/
theorem upd_map_key {α β : Type} (l : List α) (i : Nat) (f : α → α) (key : α → β)
    (hk : ∀ a, key (f a) = key a) : (upd l i f).map key = l.map key := by
  unfold upd
  cases hl : l[i]? with
  | none => rfl
  | some a =>
    apply List.ext_getElem?
    intro n
    by_cases hn : i = n
    · subst hn
      have hi : i < l.length := by
        by_contra hc
        rw [List.getElem?_eq_none (not_lt.mp hc)] at hl
        cases hl
      obtain ⟨_, hget⟩ := List.getElem?_eq_some.mp hl
      simp [List.getElem?_map, List.getElem?_set, hi, hl, hk, hget]
    · simp [List.getElem?_map, List.getElem?_set, hn]

/-- The NOCACHE handler on a new source, all preconditions holding and both
allocations succeeding: the tables and the trace afterwards. -/
theorem pim_mroute_msg_nocache_new (w : World) (fd : Int) (ifp : interface)
    (pim_ifp : pim_interface) (msg : List Nat) (src dst : Nat)
    (hsrc : im_src msg = .ok src) (hdst : im_dst msg = .ok dst)
    (hinfo : ifp.info = some pim_ifp)
    (hrp : (RP w dst).rpf_addr ≠ INADDR_NONE)
    (hdr : PIM_I_am_DR pim_ifp = true) (hsm : pim_ifp.itype ≠ PIM_INTERFACE_SSM)
    (hconn : pim_if_connected_to_source (some ifp) src = .ok true)
    (hnooil : ∀ c ∈ w.oils, c.sg ≠ { src := src, grp := dst })
    (hnoup : ∀ u ∈ w.upstreams, u.sg ≠ { src := src, grp := dst })
    (halloc1 : w.env.headD 0 = 0) (halloc2 : w.env.tail.headD 0 = 0)
    (hreg : w.pim_regiface < MAXVIFS) :
    ∃ (c0 : channel_oil) (u0 : pim_upstream) (w1 : World),
      pim_mroute_msg_nocache w fd (some ifp) msg = .ok (0, w1) ∧
      c0.sg = { src := src, grp := dst } ∧ c0.oil.mfcc_parent = pim_ifp.mroute_vif_index ∧
      c0.installed = 0 ∧ c0.cc.pktcnt = 0 ∧
      c0.oil.mfcc_ttls.length = MAXVIFS ∧ c0.oif_flags.length = MAXVIFS ∧
      u0.sg = { src := src, grp := dst } ∧
      w1.oils = w.oils ++
        [{ c0 with
            oil := { c0.oil with
              mfcc_ttls := c0.oil.mfcc_ttls.set w.pim_regiface PIM_MROUTE_MIN_TTL },
            oif_flags := upd c0.oif_flags w.pim_regiface (fun f => f ||| PIM_OIF_FLAG_PROTO_PIM),
            cc := { c0.cc with pktcnt := (c0.cc.pktcnt + 1) % 2 ^ 64 } }] ∧
      w1.upstreams = w.upstreams ++
        [{ u0 with fhr := 1, channel_oil := some w.oils.length,
                   join_state := pim_upstream_state.PIM_UPSTREAM_JOINED,
                   t_ka_timer := some w.qpim_keep_alive_time }] ∧
      w1.trace = w.trace ++
        [Event.alloc 0, Event.alloc 0,
         Event.pim_upstream_keep_alive_timer_start { src := src, grp := dst }
           w.qpim_keep_alive_time,
         Event.pim_channel_add_oif { src := src, grp := dst } w.pim_regiface
           PIM_OIF_FLAG_PROTO_PIM] := by
  obtain ⟨c0, wa, hadd, hwa, hc1, hc2, hc3, hc4, hc5, hc6⟩ :=
    pim_channel_oil_add_new w { src := src, grp := dst } pim_ifp.mroute_vif_index hnooil halloc1
  have hwa_up : wa.upstreams = w.upstreams := by rw [hwa]
  have hwa_env : wa.env = w.env.tail := by rw [hwa]
  obtain ⟨u0, wb, hupadd, hwb, hu1, hu2, hu3, hu4⟩ :=
    pim_upstream_add_new wa { src := src, grp := dst } (some ifp)
      (by rw [hwa_up]; exact hnoup) (by rw [hwa_env]; exact halloc2)
  have hwb_up : wb.upstreams = w.upstreams ++ [u0] := by rw [hwb, hwa_up]
  have hwb_oils : wb.oils = w.oils ++ [c0] := by rw [hwb, hwa]
  have hwb_reg : wb.pim_regiface = w.pim_regiface := by rw [hwb, hwa]
  have hwb_ka : wb.qpim_keep_alive_time = w.qpim_keep_alive_time := by rw [hwb, hwa]
  have hwb_tr : wb.trace = w.trace ++ [Event.alloc 0, Event.alloc 0] := by
    rw [hwb, hwa]; simp
  have hka := pim_upstream_keep_alive_timer_start_ok wb w.upstreams.length
    w.qpim_keep_alive_time u0 (by rw [hwb_up]; simp)
  have hr1 : w.pim_regiface < c0.oil.mfcc_ttls.length := by rw [hc5]; exact hreg
  have hr2 : w.pim_regiface < c0.oif_flags.length := by rw [hc6]; exact hreg
  have hc1b := hc1
  simp only [channel_oil.sg, prefix_sg.mk.injEq] at hc1b
  refine ⟨c0, u0, ?_⟩
  simp [pim_mroute_msg_nocache, hsrc, hdst, hinfo, hrp, hdr, hsm, hconn, hadd, hupadd,
    hwa_up, hwb_ka, hka, hwb_up, hwb_oils, hwb_reg, hwb_tr, upd_append_length,
    pim_channel_add_oif, deref_append_length, emit, hr1, hr2, hreg, channel_oil.sg, hc1b,
    hc2, hc3, hc4, hc5, hc6, hu1, bind, Except.bind, pure, Except.pure]

/-- Setting a flag bit and testing it. -/
theorem lor_land_self (x m : Nat) : (x ||| m) &&& m = m := by
  apply Nat.eq_of_testBit_eq
  intro i
  rw [Nat.testBit_and, Nat.testBit_or]
  cases x.testBit i <;> cases m.testBit i <;> rfl

/-- C11: for an (S,G) with no cache entry and no upstream record, a NOCACHE
upcall that satisfies every precondition, both lookup-or-create collaborators
succeeding, leaves exactly one cache entry and exactly one upstream record
keyed by (S,G): the entry's parent VIF is the interface's VIF index, the
record points to that entry, is Joined and FHR, its keepalive timer was started
with the configured keep-alive time, the entry's packet counter is 1 (one more
than at creation), and the PIM-register VIF is in the entry's outgoing set with
the added-by-PIM flag. -/
theorem pim_mroute_msg_nocache_creates (w : World) (fd : Int) (ifp : interface)
    (pim_ifp : pim_interface) (msg : List Nat) (src dst : Nat)
    (hsrc : im_src msg = .ok src) (hdst : im_dst msg = .ok dst)
    (hinfo : ifp.info = some pim_ifp)
    (hrp : (RP w dst).rpf_addr ≠ INADDR_NONE)
    (hdr : PIM_I_am_DR pim_ifp = true) (hsm : pim_ifp.itype ≠ PIM_INTERFACE_SSM)
    (hconn : pim_if_connected_to_source (some ifp) src = .ok true)
    (hnooil : ∀ c ∈ w.oils, c.sg ≠ { src := src, grp := dst })
    (hnoup : ∀ u ∈ w.upstreams, u.sg ≠ { src := src, grp := dst })
    (halloc1 : w.env.headD 0 = 0) (halloc2 : w.env.tail.headD 0 = 0)
    (hreg : w.pim_regiface < MAXVIFS) :
    ∃ (c : channel_oil) (u : pim_upstream) (w1 : World),
      pim_mroute_msg_nocache w fd (some ifp) msg = .ok (0, w1) ∧
      w1.oils = w.oils ++ [c] ∧ w1.upstreams = w.upstreams ++ [u] ∧
      w1.oils.filter (fun x => decide (x.sg = { src := src, grp := dst })) = [c] ∧
      w1.upstreams.filter (fun x => decide (x.sg = { src := src, grp := dst })) = [u] ∧
      c.oil.mfcc_parent = pim_ifp.mroute_vif_index ∧
      u.channel_oil = some w.oils.length ∧ w1.oils[w.oils.length]? = some c ∧
      u.join_state = pim_upstream_state.PIM_UPSTREAM_JOINED ∧ u.fhr = 1 ∧
      u.t_ka_timer = some w.qpim_keep_alive_time ∧
      Event.pim_upstream_keep_alive_timer_start { src := src, grp := dst }
        w.qpim_keep_alive_time ∈ new_events w w1 ∧
      c.cc.pktcnt = 1 ∧
      c.oil.mfcc_ttls[w.pim_regiface]? = some PIM_MROUTE_MIN_TTL ∧
      ∃ f, c.oif_flags[w.pim_regiface]? = some f ∧
        f &&& PIM_OIF_FLAG_PROTO_PIM = PIM_OIF_FLAG_PROTO_PIM := by
  obtain ⟨c0, u0, w1, hres, hc1, hc2, _, hc4, hc5, hc6, hu1, hoils, hups, htr⟩ :=
    pim_mroute_msg_nocache_new w fd ifp pim_ifp msg src dst hsrc hdst hinfo hrp hdr hsm hconn
      hnooil hnoup halloc1 halloc2 hreg
  have hr1 : w.pim_regiface < c0.oil.mfcc_ttls.length := by rw [hc5]; exact hreg
  have hr2 : w.pim_regiface < c0.oif_flags.length := by rw [hc6]; exact hreg
  have hfo : w.oils.filter (fun x => decide (x.sg = { src := src, grp := dst })) = [] := by
    rw [List.filter_eq_nil_iff]
    intro c hc
    simpa using hnooil c hc
  have hfu : w.upstreams.filter (fun x => decide (x.sg = { src := src, grp := dst })) = [] := by
    rw [List.filter_eq_nil_iff]
    intro u hu
    simpa using hnoup u hu
  refine ⟨_, _, w1, hres, hoils, hups, ?_, ?_, hc2, rfl, ?_, rfl, rfl, rfl, ?_, ?_, ?_, ?_⟩
  · rw [hoils, List.filter_append, hfo]
    simp [List.filter_cons]
    exact hc1
  · rw [hups, List.filter_append, hfu]
    simp [List.filter_cons, hu1]
  · rw [hoils]
    simp
  · simp [new_events, htr]
  · simp [hc4]
  · simp [List.getElem?_set, hr1]
  · have hx : c0.oif_flags[w.pim_regiface]? = some (c0.oif_flags.get ⟨w.pim_regiface, hr2⟩) := by
      simp [List.getElem?_eq_getElem hr2]
    exact ⟨_, upd_getElem?_self _ _ _ _ hx, lor_land_self _ _⟩

/-- Witness for C11: NOCACHE for (10.0.0.5, 224.1.1.1) on `eth0`, which is DR,
sparse-mode and on the source's subnet, the RP resolved, no prior state. -/
theorem pim_mroute_msg_nocache_creates_witness :
    im_src (upcall_5 1) = .ok 0x0a000005 ∧ im_dst (upcall_5 1) = .ok 0xe0010101 ∧
    (RP w_eth0 0xe0010101).rpf_addr ≠ INADDR_NONE ∧ PIM_I_am_DR pim_eth0 = true ∧
    pim_eth0.itype ≠ PIM_INTERFACE_SSM ∧
    pim_if_connected_to_source (some eth0) 0x0a000005 = .ok true ∧
    ∃ (c : channel_oil) (u : pim_upstream) (w1 : World),
      pim_mroute_msg_nocache w_eth0 7 (some eth0) (upcall_5 1) = .ok (0, w1) ∧
      w1.oils = [c] ∧ w1.upstreams = [u] ∧ c.sg = sg_5 ∧ u.sg = sg_5 ∧
      c.oil.mfcc_parent = 1 ∧ u.channel_oil = some 0 ∧
      u.join_state = pim_upstream_state.PIM_UPSTREAM_JOINED ∧ u.fhr = 1 ∧
      u.t_ka_timer = some 210 ∧ c.cc.pktcnt = 1 ∧ c.oil.mfcc_ttls[0]? = some 1 := by
  refine ⟨rfl, rfl, by decide, rfl, by decide, rfl, ?_⟩
  obtain ⟨c, u, w1, h, ho, hu, hfo, hfu, h1, h2, _, h4, h5, h6, _, h8, h9, _⟩ :=
    pim_mroute_msg_nocache_creates w_eth0 7 eth0 pim_eth0 (upcall_5 1) 0x0a000005 0xe0010101
      rfl rfl rfl (by decide) rfl (by decide) rfl (by simp [w_eth0, w0]) (by simp [w_eth0, w0])
      rfl rfl (by decide)
  have hcs : c.sg = sg_5 := by
    have hm : c ∈ List.filter (fun x => decide (x.sg = { src := 0x0a000005, grp := 0xe0010101 }))
        w1.oils := by rw [hfo]; simp
    simpa [sg_5] using (List.mem_filter.mp hm).2
  have hus : u.sg = sg_5 := by
    have hm : u ∈ List.filter (fun x => decide (x.sg = { src := 0x0a000005, grp := 0xe0010101 }))
        w1.upstreams := by rw [hfu]; simp
    simpa [sg_5] using (List.mem_filter.mp hm).2
  exact ⟨c, u, w1, h, ho, hu, hcs, hus, h1, h2, h4, h5, h6, h8, h9⟩

/-- Reading the slot written by `upd`. -/
theorem getElem?_upd_self {α : Type} (l : List α) (i : Nat) (f : α → α) :
    (upd l i f)[i]? = l[i]?.map f := by
  unfold upd
  cases hl : l[i]? with
  | none => simp [hl]
  | some a =>
    have hi : i < l.length := by
      by_contra hn
      rw [List.getElem?_eq_none (not_lt.mp hn)] at hl
      cases hl
    simp [List.getElem?_set, hi]

/-- C12: for an (S,G) that already has a cache entry and an upstream record,
a further NOCACHE upcall satisfying every precondition creates no second entry
and no second record: the key lists of the cache table and of the upstream
table (so the key sets, and the number of elements keyed by (S,G)) are after
the delivery what they were before it. -/
theorem pim_mroute_msg_nocache_idempotent (w : World) (fd : Int) (ifp : interface)
    (pim_ifp : pim_interface) (msg : List Nat) (src dst i j : Nat)
    (hsrc : im_src msg = .ok src) (hdst : im_dst msg = .ok dst)
    (hinfo : ifp.info = some pim_ifp)
    (hrp : (RP w dst).rpf_addr ≠ INADDR_NONE)
    (hdr : PIM_I_am_DR pim_ifp = true) (hsm : pim_ifp.itype ≠ PIM_INTERFACE_SSM)
    (hconn : pim_if_connected_to_source (some ifp) src = .ok true)
    (hoil : w.oils.findIdx? (fun c => decide (c.sg = { src := src, grp := dst })) = some i)
    (hup : pim_upstream_find w { src := src, grp := dst } = some j) :
    ∃ w1, pim_mroute_msg_nocache w fd (some ifp) msg = .ok (0, w1) ∧
      w1.oils.map channel_oil.sg = w.oils.map channel_oil.sg ∧
      w1.upstreams.map pim_upstream.sg = w.upstreams.map pim_upstream.sg ∧
      (w1.oils.map channel_oil.sg).count { src := src, grp := dst } =
        (w.oils.map channel_oil.sg).count { src := src, grp := dst } ∧
      (w1.upstreams.map pim_upstream.sg).count { src := src, grp := dst } =
        (w.upstreams.map pim_upstream.sg).count { src := src, grp := dst } := by
  obtain ⟨c, hc, _⟩ := findIdx?_some_get _ _ _ hoil
  obtain ⟨u, hu, _⟩ := findIdx?_some_get _ _ _ hup
  have hadd := pim_channel_oil_add_found w { src := src, grp := dst } pim_ifp.mroute_vif_index
    i hoil
  have hupadd := pim_upstream_add_found
    { w with oils := upd w.oils i (fun c => { c with oil_ref_count := c.oil_ref_count + 1 }) }
    { src := src, grp := dst } (some ifp) j hup
  have hka := pim_upstream_keep_alive_timer_start_ok
    { w with
      oils := upd w.oils i (fun c => { c with oil_ref_count := c.oil_ref_count + 1 }),
      upstreams := upd w.upstreams j (fun u => { u with ref_count := u.ref_count + 1 }) }
    j w.qpim_keep_alive_time _ (upd_getElem?_self _ _ _ _ hu)
  have hmain : ∃ w1, pim_mroute_msg_nocache w fd (some ifp) msg = .ok (0, w1) ∧
      w1.oils.map channel_oil.sg = w.oils.map channel_oil.sg ∧
      w1.upstreams.map pim_upstream.sg = w.upstreams.map pim_upstream.sg := by
    by_cases hb : w.pim_regiface < c.oil.mfcc_ttls.length ∧ w.pim_regiface < c.oif_flags.length
    · simp [pim_mroute_msg_nocache, hsrc, hdst, hinfo, hrp, hdr, hsm, hconn, hadd, hupadd,
        hka, pim_channel_add_oif, deref, getElem?_upd_self, hc, hu, emit, hb,
        bind, Except.bind, pure, Except.pure]
      constructor
      · rw [upd_map_key, upd_map_key, upd_map_key] <;> intro a <;> rfl
      · rw [upd_map_key, upd_map_key, upd_map_key, upd_map_key, upd_map_key] <;> intro a <;> rfl
    · simp [pim_mroute_msg_nocache, hsrc, hdst, hinfo, hrp, hdr, hsm, hconn, hadd, hupadd,
        hka, pim_channel_add_oif, deref, getElem?_upd_self, hc, hu, emit, hb,
        bind, Except.bind, pure, Except.pure]
      constructor
      · rw [upd_map_key, upd_map_key] <;> intro a <;> rfl
      · rw [upd_map_key, upd_map_key, upd_map_key, upd_map_key, upd_map_key] <;> intro a <;> rfl
  obtain ⟨w1, h, ho, hp⟩ := hmain
  exact ⟨w1, h, ho, hp, by rw [ho], by rw [hp]⟩

/-- Witness for C12: NOCACHE for (10.0.0.5, 224.1.1.1) on `eth0` delivered to a
world that already holds the entry and the record of that (S,G). -/
theorem pim_mroute_msg_nocache_idempotent_witness :
    im_src (upcall_5 1) = .ok 0x0a000005 ∧ im_dst (upcall_5 1) = .ok 0xe0010101 ∧
    w_fhr.oils.findIdx? (fun c => decide (c.sg = { src := 0x0a000005, grp := 0xe0010101 })) =
      some 0 ∧
    pim_upstream_find w_fhr { src := 0x0a000005, grp := 0xe0010101 } = some 0 ∧
    ∃ w1, pim_mroute_msg_nocache w_fhr 7 (some eth0) (upcall_5 1) = .ok (0, w1) ∧
      w1.oils.map channel_oil.sg = [sg_5] ∧ w1.upstreams.map pim_upstream.sg = [sg_5] := by
  refine ⟨rfl, rfl, rfl, rfl, ?_⟩
  obtain ⟨w1, h, ho, hu, _⟩ :=
    pim_mroute_msg_nocache_idempotent w_fhr 7 eth0 pim_eth0 (upcall_5 1) 0x0a000005 0xe0010101
      0 0 rfl rfl rfl (by decide) rfl (by decide) rfl rfl rfl
  exact ⟨w1, h, ho, hu⟩

/-! ## The WRVIFWHOLE handler past its guards -/

/-- The frame of `pim_mroute_add`: besides the entry, only the bookkeeping
globals, the scripted results and the trace change; the trace gains
`MRT_ADD_MFC` calls only; the entry keeps its key, counters and output set. -/
theorem pim_mroute_add_frame (w : World) (c : channel_oil)
    (hwf : c.oil.mfcc_origin = INADDR_ANY → c.oil.mfcc_parent < c.oil.mfcc_ttls.length) :
    ∃ (r : Int) (c1 : channel_oil) (w1 : World) (evs : List Event),
      pim_mroute_add w c = .ok (r, c1, w1) ∧
      w1 = { w with qpim_mroute_add_last := w.clock,
                    qpim_mroute_add_events := w.qpim_mroute_add_events + 1,
                    env := w1.env, trace := w.trace ++ evs } ∧
      c1.sg = c.sg ∧ c1.cc = c.cc ∧ c1.oif_flags = c.oif_flags ∧
      c1.oil.mfcc_ttls = c.oil.mfcc_ttls ∧
      ∀ e ∈ evs, ∃ fd oil ret, e = Event.setsockopt fd (SockOpt.MRT_ADD_MFC oil) ret := by
  by_cases hen : 0 ≤ w.qpim_mroute_socket_fd
  · by_cases hsrc : c.oil.mfcc_origin = INADDR_ANY
    · refine ⟨_, _, _, [Event.setsockopt w.qpim_mroute_socket_fd (SockOpt.MRT_ADD_MFC
          { c.oil with mfcc_ttls := c.oil.mfcc_ttls.set c.oil.mfcc_parent 1 }) (w.env.headD 0)],
        pim_mroute_add_wildcard w c hen hsrc (hwf hsrc), ?_, ?_, ?_, ?_, ?_, ?_⟩
      · simp [setsockopt, extcall, add_tick]
      · split <;> rfl
      · split <;> rfl
      · split <;> rfl
      · split <;> rfl
      · intro e he
        simp only [List.mem_singleton] at he
        exact ⟨_, _, _, he⟩
    · by_cases h2 : c.installed = 0 ∧ c.oil.mfcc_parent ≠ 0
      · by_cases he : w.env.headD 0 = 0
        · refine ⟨_, _, _,
            [Event.setsockopt w.qpim_mroute_socket_fd
              (SockOpt.MRT_ADD_MFC { c.oil with mfcc_parent := 0 }) (w.env.headD 0),
             Event.setsockopt w.qpim_mroute_socket_fd
              (SockOpt.MRT_ADD_MFC c.oil) (w.env.tail.headD 0)],
            by rw [pim_mroute_add_two_phase w c hen hsrc h2.1 h2.2, if_neg (not_not.mpr he)],
            ?_, ?_, ?_, ?_, ?_, ?_⟩
          · simp [setsockopt, extcall, add_tick]
          · split <;> rfl
          · split <;> rfl
          · split <;> rfl
          · split <;> rfl
          · intro e hm
            simp only [List.mem_cons, List.mem_singleton, List.not_mem_nil, or_false] at hm
            rcases hm with hm | hm <;> exact ⟨_, _, _, hm⟩
        · refine ⟨-2, { c with oil := { c.oil with mfcc_parent := 0 } }, _,
            [Event.setsockopt w.qpim_mroute_socket_fd
              (SockOpt.MRT_ADD_MFC { c.oil with mfcc_parent := 0 }) (w.env.headD 0)],
            by rw [pim_mroute_add_two_phase w c hen hsrc h2.1 h2.2, if_pos he],
            ?_, rfl, rfl, rfl, rfl, ?_⟩
          · simp [setsockopt, extcall, add_tick]
          · intro e hm
            simp only [List.mem_singleton] at hm
            exact ⟨_, _, _, hm⟩
      · have h1 : c.installed ≠ 0 ∨ c.oil.mfcc_parent = 0 := by
          by_cases hi : c.installed = 0
          · right; by_contra hp; exact h2 ⟨hi, hp⟩
          · left; exact hi
        refine ⟨_, _, _, [Event.setsockopt w.qpim_mroute_socket_fd
            (SockOpt.MRT_ADD_MFC c.oil) (w.env.headD 0)],
          pim_mroute_add_single w c hen hsrc h1, ?_, ?_, ?_, ?_, ?_, ?_⟩
        · simp [setsockopt, extcall, add_tick]
        · split <;> rfl
        · split <;> rfl
        · split <;> rfl
        · split <;> rfl
        · intro e he
          simp only [List.mem_singleton] at he
          exact ⟨_, _, _, he⟩
  · refine ⟨_, _, _, [], pim_mroute_add_disabled w c (not_le.mp hen), ?_, rfl, rfl, rfl, rfl,
      ?_⟩
    · simp [add_tick]
    · intro e he
      cases he

/-- The frame of `pim_mroute_add` called through a pointer into the cache table. -/
theorem pim_mroute_add_at_frame (w : World) (o : Nat) (c : channel_oil)
    (hc : w.oils[o]? = some c)
    (hwf : c.oil.mfcc_origin = INADDR_ANY → c.oil.mfcc_parent < c.oil.mfcc_ttls.length) :
    ∃ (r : Int) (c1 : channel_oil) (wr : World) (evs : List Event),
      pim_mroute_add_at w o = .ok (r, wr) ∧
      wr = { w with qpim_mroute_add_last := w.clock,
                    qpim_mroute_add_events := w.qpim_mroute_add_events + 1,
                    env := wr.env, trace := w.trace ++ evs, oils := w.oils.set o c1 } ∧
      c1.sg = c.sg ∧ c1.cc = c.cc ∧ c1.oif_flags = c.oif_flags ∧
      c1.oil.mfcc_ttls = c.oil.mfcc_ttls ∧
      ∀ e ∈ evs, ∃ fd oil ret, e = Event.setsockopt fd (SockOpt.MRT_ADD_MFC oil) ret := by
  obtain ⟨r, c1, w1, evs, h, hw1, h1, h2, h3, h4, h5⟩ := pim_mroute_add_frame w c hwf
  refine ⟨r, c1, { w1 with oils := w1.oils.set o c1 }, evs, ?_, ?_, h1, h2, h3, h4, h5⟩
  · simp [pim_mroute_add_at, deref, hc, h, bind, Except.bind, pure, Except.pure]
  · rw [hw1]

/-- The frame of `pim_channel_oil_add`: only the cache table, the scripted
results and the trace change, and the trace gains at most an allocation. -/
theorem pim_channel_oil_add_frame (w : World) (sg : prefix_sg) (vif : Nat) :
    ∃ evs, (pim_channel_oil_add w sg vif).2 =
        { w with env := (pim_channel_oil_add w sg vif).2.env, trace := w.trace ++ evs,
                 oils := (pim_channel_oil_add w sg vif).2.oils } ∧
      (∀ e ∈ evs, ∃ ret, e = Event.alloc ret) ∧
      ((∀ x ∈ w.oils, x.sg ≠ sg) → ∀ o, (pim_channel_oil_add w sg vif).1 = some o →
        (pim_channel_oil_add w sg vif).2.oils.length = w.oils.length + 1) ∧
      ((∃ x ∈ w.oils, x.sg = sg) →
        (pim_channel_oil_add w sg vif).2.oils.length = w.oils.length) := by
  cases hf : w.oils.findIdx? (fun c => decide (c.sg = sg)) with
  | some i =>
    refine ⟨[], ?_, ?_, ?_, ?_⟩
    · simp [pim_channel_oil_add, hf]
    · intro e he; cases he
    · intro hno
      obtain ⟨a, ha, hpa⟩ := findIdx?_some_get _ _ _ hf
      have hmem : a ∈ w.oils := List.getElem?_mem ha
      exact absurd (by simpa using hpa) (hno a hmem)
    · intro _
      simp [pim_channel_oil_add, hf, upd_length]
  | none =>
    have hno : ∀ x ∈ w.oils, x.sg ≠ sg := by
      intro x hx
      have := (List.findIdx?_eq_none_iff.mp hf) x hx
      simpa using this
    by_cases he : w.env.head?.getD 0 = 0
    · refine ⟨[Event.alloc 0], ?_, ?_, ?_, ?_⟩
      · simp [pim_channel_oil_add, hf, extcall, he]
      · intro e hm
        simp only [List.mem_singleton] at hm
        exact ⟨_, hm⟩
      · intro _ o _
        simp [pim_channel_oil_add, hf, extcall, he]
      · rintro ⟨x, hx, hxs⟩
        exact absurd hxs (hno x hx)
    · refine ⟨[Event.alloc (w.env.head?.getD 0)], ?_, ?_, ?_, ?_⟩
      · simp [pim_channel_oil_add, hf, extcall, he]
      · intro e hm
        simp only [List.mem_singleton] at hm
        exact ⟨_, hm⟩
      · intro _ o ho
        simp [pim_channel_oil_add, hf, extcall, he] at ho
      · rintro ⟨x, hx, hxs⟩
        exact absurd hxs (hno x hx)

/-- C18 (code defect): WRVIFWHOLE for (10.0.0.5, 224.1.1.1) on `eth0`, with no
per-interface channel and the non-FHR record `up_rp`.  With the RP of the group
unresolved (`w_rp_no_rp`) the handler dereferences the null RPF interface of
the RP instead of returning 0, although NOCACHE in the same world tests the RP
and returns 0 with no change.  With the next hop toward the registering router
unresolved (`w_rp_no_nexthop`) it hands the uninitialised `source` to the
Register-Stop sender; with the allocation of the entry failing
(`w_rp_no_alloc`) it dereferences the null entry.  No Register-Stop is sent
and no status is returned in any of the three. -/
theorem pim_mroute_msg_wrvifwhole_rp_faults :
    pim_ifchannel_find w_rp_no_rp (some eth0) sg_5 = .ok none ∧
    pim_upstream_find w_rp_no_rp sg_5 = some 0 ∧
    w_rp_no_rp.upstreams[0]? = some up_rp ∧ up_rp.fhr = 0 ∧
    (RP w_rp_no_rp 0xe0010101).rpf_addr = INADDR_NONE ∧
    (RP w_rp_no_rp 0xe0010101).source_nexthop.interface = none ∧
    pim_mroute_msg_wrvifwhole w_rp_no_rp 7 (some eth0) (upcall_5 IGMPMSG_WRVIFWHOLE) =
      .error Fault.null_deref ∧
    pim_mroute_msg w_rp_no_rp 7 (upcall_5 IGMPMSG_WRVIFWHOLE) 20 = .error Fault.null_deref ∧
    pim_mroute_msg_nocache w_rp_no_rp 7 (some eth0) (upcall_5 IGMPMSG_NOCACHE) =
      .ok (0, w_rp_no_rp) ∧
    (pim_nexthop_lookup w_rp_no_nexthop up_rp.upstream_register).1 = none ∧
    pim_mroute_msg_wrvifwhole w_rp_no_nexthop 7 (some eth0) (upcall_5 IGMPMSG_WRVIFWHOLE) =
      .error Fault.uninitialised ∧
    (pim_channel_oil_add w_rp_no_alloc sg_5 pim_eth0.mroute_vif_index).1 = none ∧
    pim_mroute_msg_wrvifwhole w_rp_no_alloc 7 (some eth0) (upcall_5 IGMPMSG_WRVIFWHOLE) =
      .error Fault.null_deref :=
  ⟨rfl, rfl, rfl, rfl, rfl, rfl, rfl, rfl, rfl, rfl, rfl, rfl, rfl⟩

/-- The second branch of `pim_mroute_msg_wrvifwhole` on the path where every
lookup succeeds: no per-interface channel on the arrival interface, an upstream
record that is not FHR, the RP's RPF interface resolved with PIM state, the
next hop toward the registering source resolved, entries well-formed.  The
handler returns 0, looks up the next hop toward the record's registering source
and sends one Register-Stop for (S,G) out of that next hop's interface,
addressed to the registering source; sets the record's SPT bit; calls
`pim_mroute_add` on the record's entry exactly when the entry is not
installed.  When the record has an entry no entry is created and the pointer
is kept; when it has none the record gets the entry that `pim_channel_oil_add`
returns, a new one when (S,G) had none. -/
theorem pim_mroute_msg_wrvifwhole_rp (w : World) (fd : Int) (ifp : interface)
    (buf : List Nat) (src dst up : Nat) (u : pim_upstream) (rpf_ifp : interface)
    (pim_ifp : pim_interface) (source : pim_nexthop)
    (hsrc : ip_src buf = .ok src) (hdst : ip_dst buf = .ok dst)
    (hch : pim_ifchannel_find w (some ifp) { src := src, grp := dst } = .ok none)
    (hup : pim_upstream_find w { src := src, grp := dst } = some up)
    (hu : w.upstreams[up]? = some u) (hfhr : u.fhr = 0)
    (hrpi : (RP w dst).source_nexthop.interface = some rpf_ifp)
    (hinfo : rpf_ifp.info = some pim_ifp)
    (hnh : w.nexthops.lookup u.upstream_register = some source) :
    (∀ o c, u.channel_oil = some o → w.oils[o]? = some c →
      (c.oil.mfcc_origin = INADDR_ANY → c.oil.mfcc_parent < c.oil.mfcc_ttls.length) →
      ∃ (w1 : World) (evs : List Event) (u1 : pim_upstream),
        pim_mroute_msg_wrvifwhole w fd (some ifp) buf = .ok (0, w1) ∧
        new_events w w1 =
          [Event.pim_nexthop_lookup u.upstream_register 0,
           Event.pim_register_stop_send source.interface { src := src, grp := dst }
             pim_ifp.primary_address u.upstream_register] ++ evs ∧
        (∀ e ∈ evs, ∃ fd oil ret, e = Event.setsockopt fd (SockOpt.MRT_ADD_MFC oil) ret) ∧
        w1.upstreams[up]? = some u1 ∧
        u1.sptbit = pim_upstream_sptbit.PIM_UPSTREAM_SPTBIT_TRUE ∧
        u1.channel_oil = some o ∧ w1.oils.length = w.oils.length ∧
        (c.installed ≠ 0 →
          w1.qpim_mroute_add_events = w.qpim_mroute_add_events ∧ evs = [] ∧
          w1.oils = w.oils) ∧
        (c.installed = 0 →
          w1.qpim_mroute_add_events = w.qpim_mroute_add_events + 1)) ∧
    (u.channel_oil = none → ∀ o wa c,
      pim_channel_oil_add
        { w with trace := w.trace ++
          [Event.pim_nexthop_lookup u.upstream_register 0,
           Event.pim_register_stop_send source.interface { src := src, grp := dst }
             pim_ifp.primary_address u.upstream_register] }
        { src := src, grp := dst } pim_ifp.mroute_vif_index = (some o, wa) →
      wa.oils[o]? = some c →
      (c.oil.mfcc_origin = INADDR_ANY → c.oil.mfcc_parent < c.oil.mfcc_ttls.length) →
      ∃ (w1 : World) (evs : List Event) (u1 : pim_upstream),
        pim_mroute_msg_wrvifwhole w fd (some ifp) buf = .ok (0, w1) ∧
        new_events w w1 =
          [Event.pim_nexthop_lookup u.upstream_register 0,
           Event.pim_register_stop_send source.interface { src := src, grp := dst }
             pim_ifp.primary_address u.upstream_register] ++ evs ∧
        (∀ e ∈ evs, (∃ ret, e = Event.alloc ret) ∨
          ∃ fd oil ret, e = Event.setsockopt fd (SockOpt.MRT_ADD_MFC oil) ret) ∧
        w1.upstreams[up]? = some u1 ∧
        u1.sptbit = pim_upstream_sptbit.PIM_UPSTREAM_SPTBIT_TRUE ∧
        u1.channel_oil = some o ∧ w1.oils.length = wa.oils.length ∧
        ((∀ x ∈ w.oils, x.sg ≠ { src := src, grp := dst }) →
          w1.oils.length = w.oils.length + 1) ∧
        (c.installed ≠ 0 → w1.qpim_mroute_add_events = w.qpim_mroute_add_events) ∧
        (c.installed = 0 →
          w1.qpim_mroute_add_events = w.qpim_mroute_add_events + 1)) := by
  constructor
  · intro o c hco hc hwf
    by_cases hi : c.installed = 0
    · obtain ⟨r, c1, wr, evs, hadd, hwr, _, _, _, _, hevs⟩ :=
        pim_mroute_add_at_frame
          { w with trace := w.trace ++
            [Event.pim_nexthop_lookup u.upstream_register 0,
             Event.pim_register_stop_send source.interface { src := src, grp := dst }
               pim_ifp.primary_address u.upstream_register] } o c hc hwf
      have hwr_up : wr.upstreams = w.upstreams := by rw [hwr]
      have hwr_oils : wr.oils = w.oils.set o c1 := by rw [hwr]
      have hwr_tr : wr.trace = w.trace ++
            [Event.pim_nexthop_lookup u.upstream_register 0,
             Event.pim_register_stop_send source.interface { src := src, grp := dst }
               pim_ifp.primary_address u.upstream_register] ++ evs := by rw [hwr]
      have hwr_ev : wr.qpim_mroute_add_events = w.qpim_mroute_add_events + 1 := by rw [hwr]
      refine ⟨{ wr with upstreams := upd wr.upstreams up (fun u =>
          { u with sptbit := pim_upstream_sptbit.PIM_UPSTREAM_SPTBIT_TRUE }) }, evs,
          { u with sptbit := pim_upstream_sptbit.PIM_UPSTREAM_SPTBIT_TRUE }, ?_, ?_, hevs, ?_,
          rfl, hco, ?_, fun h => absurd hi h, fun _ => hwr_ev⟩
      · simp [pim_mroute_msg_wrvifwhole, hsrc, hdst, hch, hup, deref, hu, hfhr, hrpi, hinfo,
          pim_nexthop_lookup, hnh, emit, hco, hc, hi, hadd, bind, Except.bind, pure,
          Except.pure]
      · simp [new_events, hwr_tr]
      · simp [hwr_up, getElem?_upd_self, hu]
      · simp [hwr_oils]
    · refine ⟨{ w with
          trace := w.trace ++
            [Event.pim_nexthop_lookup u.upstream_register 0,
             Event.pim_register_stop_send source.interface { src := src, grp := dst }
               pim_ifp.primary_address u.upstream_register],
          upstreams := upd w.upstreams up (fun u =>
            { u with sptbit := pim_upstream_sptbit.PIM_UPSTREAM_SPTBIT_TRUE }) }, [],
          { u with sptbit := pim_upstream_sptbit.PIM_UPSTREAM_SPTBIT_TRUE }, ?_, ?_, ?_, ?_,
          rfl, hco, rfl, fun _ => ⟨rfl, rfl, rfl⟩, fun h => absurd h hi⟩
      · simp [pim_mroute_msg_wrvifwhole, hsrc, hdst, hch, hup, deref, hu, hfhr, hrpi, hinfo,
          pim_nexthop_lookup, hnh, emit, hco, hc, hi, bind, Except.bind, pure, Except.pure]
      · simp [new_events]
      · intro e he; cases he
      · simp [getElem?_upd_self, hu]
  · intro hco o wa c hadd0 hc hwf
    obtain ⟨aevs, hfr, hal, hnew, _⟩ := pim_channel_oil_add_frame
      { w with trace := w.trace ++
        [Event.pim_nexthop_lookup u.upstream_register 0,
         Event.pim_register_stop_send source.interface { src := src, grp := dst }
           pim_ifp.primary_address u.upstream_register] }
      { src := src, grp := dst } pim_ifp.mroute_vif_index
    rw [hadd0] at hfr hnew
    simp only at hfr hnew
    have hwa_up : wa.upstreams = w.upstreams := by rw [hfr]
    have hwa_ev : wa.qpim_mroute_add_events = w.qpim_mroute_add_events := by rw [hfr]
    have hwa_tr : wa.trace = w.trace ++
        [Event.pim_nexthop_lookup u.upstream_register 0,
         Event.pim_register_stop_send source.interface { src := src, grp := dst }
           pim_ifp.primary_address u.upstream_register] ++ aevs := by rw [hfr]
    by_cases hi : c.installed = 0
    · obtain ⟨r, c1, wr, evs, hadd, hwr, _, _, _, _, hevs⟩ :=
        pim_mroute_add_at_frame
          { wa with upstreams := upd wa.upstreams up (fun u => { u with channel_oil := some o }) }
          o c hc hwf
      have hwr_up : wr.upstreams =
          upd w.upstreams up (fun u => { u with channel_oil := some o }) := by
        rw [hwr, ← hwa_up]
      have hwr_oils : wr.oils = wa.oils.set o c1 := by rw [hwr]
      have hwr_tr : wr.trace = wa.trace ++ evs := by rw [hwr]
      have hwr_ev : wr.qpim_mroute_add_events = wa.qpim_mroute_add_events + 1 := by rw [hwr]
      refine ⟨{ wr with upstreams := upd wr.upstreams up (fun u =>
          { u with sptbit := pim_upstream_sptbit.PIM_UPSTREAM_SPTBIT_TRUE }) }, aevs ++ evs,
          { u with channel_oil := some o,
                   sptbit := pim_upstream_sptbit.PIM_UPSTREAM_SPTBIT_TRUE }, ?_, ?_, ?_, ?_,
          rfl, rfl, ?_, ?_, fun h => absurd hi h, fun _ => by rw [← hwa_ev]; exact hwr_ev⟩
      · simp [pim_mroute_msg_wrvifwhole, hsrc, hdst, hch, hup, deref, hu, hfhr, hrpi, hinfo,
          pim_nexthop_lookup, hnh, emit, hco, hadd0, hc, hi, hadd, bind, Except.bind, pure,
          Except.pure]
      · simp [new_events, hwr_tr, hwa_tr]
      · intro e he
        rcases List.mem_append.mp he with h | h
        · exact Or.inl (hal e h)
        · exact Or.inr (hevs e h)
      · simp [hwr_up, getElem?_upd_self, hu]
      · simp [hwr_oils]
      · intro hno
        simp only [hwr_oils, List.length_set]
        exact hnew hno o rfl
    · refine ⟨{ wa with upstreams := upd (upd wa.upstreams up (fun u =>
          { u with channel_oil := some o })) up (fun u =>
          { u with sptbit := pim_upstream_sptbit.PIM_UPSTREAM_SPTBIT_TRUE }) }, aevs,
          { u with channel_oil := some o,
                   sptbit := pim_upstream_sptbit.PIM_UPSTREAM_SPTBIT_TRUE }, ?_, ?_, ?_, ?_,
          rfl, rfl, rfl, ?_, fun _ => hwa_ev, fun h => absurd h hi⟩
      · simp [pim_mroute_msg_wrvifwhole, hsrc, hdst, hch, hup, deref, hu, hfhr, hrpi, hinfo,
          pim_nexthop_lookup, hnh, emit, hco, hadd0, hc, hi, bind, Except.bind, pure,
          Except.pure]
      · simp [new_events, hwa_tr]
      · intro e he
        exact Or.inl (hal e he)
      · simp [hwa_up, getElem?_upd_self, hu]
      · intro hno
        exact hnew hno o rfl

/-- An instance of `pim_mroute_msg_wrvifwhole_rp`: the record at the RP of `w_rp`,
whose entry is uninstalled. -/
theorem pim_mroute_msg_wrvifwhole_rp_witness :
    ip_src (upcall_5 4) = .ok 0x0a000005 ∧ ip_dst (upcall_5 4) = .ok 0xe0010101 ∧
    pim_ifchannel_find w_rp (some eth0) { src := 0x0a000005, grp := 0xe0010101 } =
      .ok none ∧
    pim_upstream_find w_rp { src := 0x0a000005, grp := 0xe0010101 } = some 0 ∧
    w_rp.upstreams[0]? = some up_rp ∧ up_rp.fhr = 0 ∧
    (RP w_rp 0xe0010101).source_nexthop.interface = some eth0 ∧
    eth0.info = some pim_eth0 ∧
    w_rp.nexthops.lookup up_rp.upstream_register =
      some { interface := some eth0, mrib_nexthop_addr := 0x0a000007 } ∧
    up_rp.channel_oil = some 0 ∧ w_rp.oils[0]? = some oil_sg ∧ oil_sg.installed = 0 ∧
    ∃ (w1 : World) (evs : List Event) (u1 : pim_upstream),
      pim_mroute_msg_wrvifwhole w_rp 7 (some eth0) (upcall_5 4) = .ok (0, w1) ∧
      new_events w_rp w1 =
        [Event.pim_nexthop_lookup 0x0a000007 0,
         Event.pim_register_stop_send (some eth0) { src := 0x0a000005, grp := 0xe0010101 }
           0x0a000001 0x0a000007] ++ evs ∧
      (∀ e ∈ evs, ∃ fd oil ret, e = Event.setsockopt fd (SockOpt.MRT_ADD_MFC oil) ret) ∧
      w1.upstreams[0]? = some u1 ∧
      u1.sptbit = pim_upstream_sptbit.PIM_UPSTREAM_SPTBIT_TRUE ∧
      u1.channel_oil = some 0 ∧ w1.oils.length = w_rp.oils.length ∧
      (oil_sg.installed ≠ 0 →
        w1.qpim_mroute_add_events = w_rp.qpim_mroute_add_events ∧ evs = [] ∧
        w1.oils = w_rp.oils) ∧
      (oil_sg.installed = 0 →
        w1.qpim_mroute_add_events = w_rp.qpim_mroute_add_events + 1) :=
  ⟨rfl, rfl, rfl, rfl, rfl, rfl, rfl, rfl, rfl, rfl, rfl, rfl,
    (pim_mroute_msg_wrvifwhole_rp w_rp 7 eth0 (upcall_5 4) 0x0a000005 0xe0010101 0 up_rp eth0
      pim_eth0 { interface := some eth0, mrib_nexthop_addr := 0x0a000007 }
      rfl rfl rfl rfl rfl rfl rfl rfl rfl).1 0 oil_sg rfl rfl (fun h => by cases h)⟩

/-- The entry `pim_channel_oil_add` returns is keyed by the (S,G) asked for;
when (S,G) had no entry it is a new, uninstalled one with the given parent VIF. -/
theorem pim_channel_oil_add_entry (w : World) (sg : prefix_sg) (vif o : Nat) (wa : World)
    (c : channel_oil) (hadd : pim_channel_oil_add w sg vif = (some o, wa))
    (hc : wa.oils[o]? = some c) :
    c.sg = sg ∧
    ((∀ x ∈ w.oils, x.sg ≠ sg) →
      o = w.oils.length ∧ c.oil.mfcc_parent = vif ∧ c.installed = 0 ∧
      wa.oils = w.oils ++ [c]) := by
  cases hf : w.oils.findIdx? (fun c => decide (c.sg = sg)) with
  | some i =>
    obtain ⟨a, ha, hpa⟩ := findIdx?_some_get _ _ _ hf
    have hsg : a.sg = sg := by simpa using hpa
    rw [pim_channel_oil_add_found w sg vif i hf] at hadd
    simp only [Prod.mk.injEq, Option.some.injEq] at hadd
    obtain ⟨hio, hwa⟩ := hadd
    subst hio
    rw [← hwa] at hc
    simp only [getElem?_upd_self, ha, Option.map_some', Option.some.injEq] at hc
    refine ⟨by rw [← hc]; exact hsg, fun hno => absurd hsg (hno a (List.getElem?_mem ha))⟩
  | none =>
    have hno : ∀ x ∈ w.oils, x.sg ≠ sg := by
      intro x hx
      have := (List.findIdx?_eq_none_iff.mp hf) x hx
      simpa using this
    by_cases he : w.env.headD 0 = 0
    · obtain ⟨c0, wa0, h0, hwa0, h1, h2, h3, _, _, _⟩ := pim_channel_oil_add_new w sg vif hno he
      rw [h0] at hadd
      simp only [Prod.mk.injEq, Option.some.injEq] at hadd
      obtain ⟨hio, hwa⟩ := hadd
      subst hio
      rw [← hwa, hwa0] at hc
      simp at hc
      subst hc
      refine ⟨h1, fun _ => ⟨rfl, h2, h3, by rw [← hwa, hwa0]⟩⟩
    · have he1 : ¬ w.env.head?.getD 0 = 0 := by simpa using he
      simp [pim_channel_oil_add, hf, extcall, he1] at hadd

/-- `pim_mroute_msg_wholepkt` returns 0 and changes nothing but the trace, the
RPF interface pointer of the record it finds being set. -/
theorem pim_mroute_msg_wholepkt_total (w : World) (fd : Int) (ifp : Option interface)
    (buf : List Nat) (src dst len : Nat)
    (hsrc : ip_src buf = .ok src) (hdst : ip_dst buf = .ok dst) (hlen : ip_len buf = .ok len)
    (hwf : ∀ up u, pim_upstream_find w { src := src, grp := dst } = some up →
      w.upstreams[up]? = some u → u.rpf.source_nexthop.interface ≠ none) :
    ∃ w1, pim_mroute_msg_wholepkt w fd ifp buf = .ok (0, w1) ∧
      w1 = { w with trace := w1.trace } := by
  cases hf : pim_upstream_find w { src := src, grp := dst } with
  | none =>
    exact ⟨w, by simp [pim_mroute_msg_wholepkt, hsrc, hdst, hf, bind, Except.bind, pure,
      Except.pure], rfl⟩
  | some up =>
    obtain ⟨u, hu, _⟩ := findIdx?_some_get _ _ _ hf
    cases hri : u.rpf.source_nexthop.interface with
    | none => exact absurd hri (hwf up u hf hu)
    | some rpf_ifp =>
      by_cases hrp : (RP w dst).rpf_addr = INADDR_NONE
      · exact ⟨w, by simp [pim_mroute_msg_wholepkt, hsrc, hdst, hf, deref, hu, hri, hrp, bind,
          Except.bind, pure, Except.pure], rfl⟩
      · cases hinfo : rpf_ifp.info with
        | none =>
          exact ⟨w, by simp [pim_mroute_msg_wholepkt, hsrc, hdst, hf, deref, hu, hri, hrp,
            hinfo, bind, Except.bind, pure, Except.pure], rfl⟩
        | some pim_ifp =>
          by_cases hdr : PIM_I_am_DR pim_ifp = true
          · by_cases hss : pim_ifp.itype = PIM_INTERFACE_SSM
            · exact ⟨w, by simp [pim_mroute_msg_wholepkt, hsrc, hdst, hf, deref, hu, hri, hrp,
                hinfo, hdr, hss, bind, Except.bind, pure, Except.pure], rfl⟩
            · cases hrs : u.t_rs_timer with
              | true =>
                exact ⟨w, by simp [pim_mroute_msg_wholepkt, hsrc, hdst, hf, deref, hu, hri,
                  hrp, hinfo, hdr, hss, hrs, bind, Except.bind, pure, Except.pure], rfl⟩
              | false =>
                exact ⟨emit w (Event.pim_register_send (buf.drop sizeof_ip) len
                  pim_ifp.primary_address (RP w dst) 0),
                  by simp [pim_mroute_msg_wholepkt, hsrc, hdst, hlen, hf, deref, hu, hri, hrp,
                    hinfo, hdr, hss, hrs, bind, Except.bind, pure, Except.pure], rfl⟩
          · exact ⟨w, by simp [pim_mroute_msg_wholepkt, hsrc, hdst, hf, deref, hu, hri, hrp,
              hinfo, hdr, bind, Except.bind, pure, Except.pure], rfl⟩

/-- The lookup-or-create and install steps of the third branch of
`pim_mroute_msg_wrvifwhole`: the world after `pim_mroute_add` was called on an
uninstalled entry, or the unchanged world for an installed one. -/
theorem pim_mroute_msg_wrvifwhole_install (w : World) (sg : prefix_sg) (vif o : Nat) (wa : World)
    (c : channel_oil)
    (hadd0 : pim_channel_oil_add w sg vif = (some o, wa))
    (hc : wa.oils[o]? = some c)
    (hwf : c.oil.mfcc_origin = INADDR_ANY → c.oil.mfcc_parent < c.oil.mfcc_ttls.length) :
    ∃ (wr : World) (evs : List Event) (c1 : channel_oil),
      wr.upstreams = w.upstreams ∧ wr.trace = w.trace ++ evs ∧
      (∀ e ∈ evs, (∃ ret, e = Event.alloc ret) ∨
        ∃ fd oil ret, e = Event.setsockopt fd (SockOpt.MRT_ADD_MFC oil) ret) ∧
      wr.oils[o]? = some c1 ∧ c1.sg = c.sg ∧ c1.cc = c.cc ∧ c1.oif_flags = c.oif_flags ∧
      c1.oil.mfcc_ttls = c.oil.mfcc_ttls ∧ wr.oils.length = wa.oils.length ∧
      wr.pim_regiface = w.pim_regiface ∧ wr.qpim_keep_alive_time = w.qpim_keep_alive_time ∧
      wr.nexthops = w.nexthops ∧
      (c.installed ≠ 0 → wr = wa ∧ wr.qpim_mroute_add_events = w.qpim_mroute_add_events) ∧
      (c.installed = 0 → wr.qpim_mroute_add_events = w.qpim_mroute_add_events + 1) ∧
      ((c.installed = 0 ∧ ∃ r, pim_mroute_add_at wa o = .ok (r, wr)) ∨
       (c.installed ≠ 0 ∧ wr = wa)) := by
  obtain ⟨aevs, hfr, hal, _, _⟩ := pim_channel_oil_add_frame w sg vif
  rw [hadd0] at hfr
  simp only at hfr
  have hwa_up : wa.upstreams = w.upstreams := by rw [hfr]
  have hwa_ev : wa.qpim_mroute_add_events = w.qpim_mroute_add_events := by rw [hfr]
  have hwa_tr : wa.trace = w.trace ++ aevs := by rw [hfr]
  have hwa_reg : wa.pim_regiface = w.pim_regiface := by rw [hfr]
  have hwa_ka : wa.qpim_keep_alive_time = w.qpim_keep_alive_time := by rw [hfr]
  have hwa_nh : wa.nexthops = w.nexthops := by rw [hfr]
  have hlt : o < wa.oils.length := (List.getElem?_eq_some.mp hc).1
  by_cases hi : c.installed = 0
  · obtain ⟨r, c1, wr, evs, hadd, hwr, h1, h2, h3, h4, hevs⟩ :=
      pim_mroute_add_at_frame wa o c hc hwf
    have hwr_oils : wr.oils = wa.oils.set o c1 := by rw [hwr]
    refine ⟨wr, aevs ++ evs, c1, by rw [hwr, hwa_up], by rw [hwr, hwa_tr, List.append_assoc],
      ?_, ?_, h1, h2, h3, h4, by rw [hwr_oils, List.length_set], by rw [hwr, hwa_reg],
      by rw [hwr, hwa_ka], by rw [hwr, hwa_nh],
      fun h => absurd hi h, fun _ => by rw [hwr, hwa_ev], Or.inl ⟨hi, r, hadd⟩⟩
    · intro e he
      rcases List.mem_append.mp he with h | h
      · exact Or.inl (hal e h)
      · exact Or.inr (hevs e h)
    · rw [hwr_oils]
      simp [hlt]
  · exact ⟨wa, aevs, c, hwa_up, hwa_tr, fun e he => Or.inl (hal e he), hc, rfl, rfl, rfl, rfl,
      rfl, hwa_reg, hwa_ka, hwa_nh, fun _ => ⟨rfl, hwa_ev⟩,
      fun h => absurd h hi, Or.inr ⟨hi, rfl⟩⟩

/-- C19 (code defect): WRVIFWHOLE for (10.0.0.5, 224.1.1.1) on `eth0` in a world
with neither a per-interface channel nor an upstream record for the pair, the
source directly connected, in which the allocation of the cache entry fails
(`w_src_no_alloc`): `pim_channel_oil_add` returns null and the handler reads
`oil->installed` through it, instead of creating or fetching the entry.
NOCACHE in the same world tests the returned entry and returns 0. -/
theorem pim_mroute_msg_wrvifwhole_new_alloc_fails :
    pim_ifchannel_find w_src_no_alloc (some eth0) sg_5 = .ok none ∧
    pim_upstream_find w_src_no_alloc sg_5 = none ∧
    eth0.info = some pim_eth0 ∧
    pim_if_connected_to_source (some eth0) 0x0a000005 = .ok true ∧
    (pim_channel_oil_add w_src_no_alloc sg_5 pim_eth0.mroute_vif_index).1 = none ∧
    pim_mroute_msg_wrvifwhole w_src_no_alloc 7 (some eth0) (upcall_5 IGMPMSG_WRVIFWHOLE) =
      .error Fault.null_deref ∧
    pim_mroute_msg w_src_no_alloc 7 (upcall_5 IGMPMSG_WRVIFWHOLE) 20 =
      .error Fault.null_deref ∧
    ∃ w1, pim_mroute_msg_nocache w_src_no_alloc 7 (some eth0) (upcall_5 IGMPMSG_NOCACHE) =
        .ok (0, w1) ∧
      new_events w_src_no_alloc w1 = [Event.alloc (-1)] ∧
      w1.oils = [] ∧ w1.upstreams = [] :=
  ⟨rfl, rfl, rfl, rfl, rfl, rfl, rfl, _, rfl, rfl, rfl, rfl⟩

/-- Two writes through the same pointer, as one assignment of the slot. -/
theorem upd_upd_eq_set {α : Type} (l : List α) (i : Nat) (f g : α → α) (a : α)
    (h : l[i]? = some a) : upd (upd l i f) i g = l.set i (g (f a)) := by
  have hlt : i < l.length := (List.getElem?_eq_some.mp h).1
  simp [upd, h, hlt]

/-- The third branch of `pim_mroute_msg_wrvifwhole` on the path where the
lookups succeed: no per-interface channel on the arrival interface, no upstream
record, the arrival interface carrying PIM state, `pim_channel_oil_add`
returning the entry `c` at `o` in the world `wa`.  The install step gives the
world `wr`: the result of `pim_mroute_add` on the entry when it is not
installed, `wa` itself otherwise.  When the source is not directly connected
the handler returns 0 in `wr`.  When it is connected and the allocation of the
record fails it returns -2 in `wr` after the failed allocation.  When it is
connected and the record is allocated, the handler's result is that of
`pim_mroute_msg_wholepkt` on the same payload in the world `wj`, which is `wr`
with the allocation consumed, the four collaborator calls appended to the
trace, the new record (FHR, keepalive timer, entry attached, Joined) appended
to the upstream table, and the entry at `o` replaced by the one with the packet
counter one higher and the PIM-register interface in its outgoing set; that
run returns 0 when the next hop toward the source is resolved. -/
theorem pim_mroute_msg_wrvifwhole_new (w : World) (fd : Int) (ifp : interface)
    (pim_ifp : pim_interface) (buf : List Nat) (src dst len o : Nat) (wa : World)
    (c : channel_oil)
    (hsrc : ip_src buf = .ok src) (hdst : ip_dst buf = .ok dst) (hlen : ip_len buf = .ok len)
    (hinfo : ifp.info = some pim_ifp)
    (hch : pim_ifchannel_find w (some ifp) { src := src, grp := dst } = .ok none)
    (hup : pim_upstream_find w { src := src, grp := dst } = none)
    (hadd0 : pim_channel_oil_add w { src := src, grp := dst } pim_ifp.mroute_vif_index =
      (some o, wa))
    (hc : wa.oils[o]? = some c)
    (hwf : c.oil.mfcc_origin = INADDR_ANY → c.oil.mfcc_parent < c.oil.mfcc_ttls.length) :
    c.sg = { src := src, grp := dst } ∧
    ((∀ x ∈ w.oils, x.sg ≠ { src := src, grp := dst }) →
      o = w.oils.length ∧ c.oil.mfcc_parent = pim_ifp.mroute_vif_index ∧ c.installed = 0 ∧
      wa.oils = w.oils ++ [c]) ∧
    ∃ (wr : World) (evs : List Event) (c1 : channel_oil),
      ((c.installed = 0 ∧ ∃ r0, pim_mroute_add_at wa o = .ok (r0, wr)) ∨
       (c.installed ≠ 0 ∧ wr = wa)) ∧
      wr.upstreams = w.upstreams ∧ wr.trace = w.trace ++ evs ∧
      (∀ e ∈ evs, (∃ ret, e = Event.alloc ret) ∨
        ∃ fd oil ret, e = Event.setsockopt fd (SockOpt.MRT_ADD_MFC oil) ret) ∧
      wr.oils[o]? = some c1 ∧ c1.sg = c.sg ∧ c1.cc = c.cc ∧ wr.oils.length = wa.oils.length ∧
      (c.installed ≠ 0 → wr.qpim_mroute_add_events = w.qpim_mroute_add_events) ∧
      (c.installed = 0 → wr.qpim_mroute_add_events = w.qpim_mroute_add_events + 1) ∧
      (pim_if_connected_to_source (some ifp) src = .ok false →
        pim_mroute_msg_wrvifwhole w fd (some ifp) buf = .ok (0, wr)) ∧
      (pim_if_connected_to_source (some ifp) src = .ok true → wr.env.headD 0 ≠ 0 →
        pim_mroute_msg_wrvifwhole w fd (some ifp) buf =
          .ok (-2, { wr with env := wr.env.tail,
                             trace := wr.trace ++ [Event.alloc (wr.env.headD 0)] })) ∧
      (pim_if_connected_to_source (some ifp) src = .ok true → wr.env.headD 0 = 0 →
        wr.pim_regiface < c.oil.mfcc_ttls.length → wr.pim_regiface < c.oif_flags.length →
        ∃ (wj : World) (u1 : pim_upstream) (c2 : channel_oil),
          pim_mroute_msg_wrvifwhole w fd (some ifp) buf =
            (do
              let (_, w2) ← pim_mroute_msg_wholepkt wj fd (some ifp) buf
              pure (0, w2)) ∧
          wj = { wr with env := wr.env.tail, trace := wj.trace, upstreams := wj.upstreams,
                         oils := wj.oils } ∧
          wj.trace = wr.trace ++
            [Event.alloc 0,
             Event.pim_upstream_keep_alive_timer_start { src := src, grp := dst }
               wr.qpim_keep_alive_time,
             Event.pim_channel_add_oif { src := src, grp := dst } wr.pim_regiface
               PIM_OIF_FLAG_PROTO_PIM,
             Event.pim_upstream_inherited_olist { src := src, grp := dst }] ∧
          wj.upstreams = w.upstreams ++ [u1] ∧ u1.sg = { src := src, grp := dst } ∧
          u1.fhr = 1 ∧ u1.t_ka_timer = some wr.qpim_keep_alive_time ∧
          u1.channel_oil = some o ∧
          u1.join_state = pim_upstream_state.PIM_UPSTREAM_JOINED ∧
          wj.oils = wr.oils.set o c2 ∧
          c2 = { c1 with
            oil := { c1.oil with
              mfcc_ttls := c1.oil.mfcc_ttls.set wr.pim_regiface PIM_MROUTE_MIN_TTL },
            oif_flags := upd c1.oif_flags wr.pim_regiface
              (fun f => f ||| PIM_OIF_FLAG_PROTO_PIM),
            cc := { c1.cc with pktcnt := (c1.cc.pktcnt + 1) % 2 ^ 64 } } ∧
          c2.cc.pktcnt = (c.cc.pktcnt + 1) % 2 ^ 64 ∧
          c2.oil.mfcc_ttls[wr.pim_regiface]? = some PIM_MROUTE_MIN_TTL ∧
          (∃ f, c2.oif_flags[wr.pim_regiface]? = some f ∧
            f &&& PIM_OIF_FLAG_PROTO_PIM = PIM_OIF_FLAG_PROTO_PIM) ∧
          (∀ nh rifp, w.nexthops.lookup src = some nh → nh.interface = some rifp →
            ∃ w1, pim_mroute_msg_wrvifwhole w fd (some ifp) buf = .ok (0, w1) ∧
              w1 = { wj with trace := w1.trace })) := by
  obtain ⟨hkey, hcreated⟩ := pim_channel_oil_add_entry w { src := src, grp := dst }
    pim_ifp.mroute_vif_index o wa c hadd0 hc
  obtain ⟨wr, evs, c1, f1, f2, f3, f4, f5, f6, f7, f8, f9, f10, f11, f12, f14, f15, hcase⟩ :=
    pim_mroute_msg_wrvifwhole_install w { src := src, grp := dst }
      pim_ifp.mroute_vif_index o wa c hadd0 hc hwf
  have hnoup : ∀ u ∈ wr.upstreams, u.sg ≠ { src := src, grp := dst } := by
    intro u hu
    rw [f1] at hu
    have := (List.findIdx?_eq_none_iff.mp hup) u hu
    simpa using this
  refine ⟨hkey, hcreated, wr, evs, c1, hcase, f1, f2, f3, f4, f5, f6, f9,
    (fun h => (f14 h).2), f15, ?_, ?_, ?_⟩
  · intro hconn
    rcases hcase with ⟨hi, r, hadd⟩ | ⟨hi, hwr⟩
    · simp [pim_mroute_msg_wrvifwhole, hsrc, hdst, hch, hup, hinfo, hadd0, deref, hc, hi, hadd,
        hconn, bind, Except.bind, pure, Except.pure]
    · subst hwr
      simp [pim_mroute_msg_wrvifwhole, hsrc, hdst, hch, hup, hinfo, hadd0, deref, hc, hi,
        hconn, bind, Except.bind, pure, Except.pure]
  · intro hconn henv
    have he1 : ¬ wr.env.head?.getD 0 = 0 := by simpa using henv
    have hfo : wr.upstreams.findIdx? (fun u => decide (u.sg = { src := src, grp := dst })) =
        none := by rw [f1]; exact hup
    have hupfail : pim_upstream_add wr { src := src, grp := dst } (some ifp) =
        (none, { wr with env := wr.env.tail,
                         trace := wr.trace ++ [Event.alloc (wr.env.headD 0)] }) := by
      simp [pim_upstream_add, pim_upstream_find, hfo, extcall, he1]
    rcases hcase with ⟨hi, r, hadd⟩ | ⟨hi, hwr⟩
    · simp [pim_mroute_msg_wrvifwhole, hsrc, hdst, hch, hup, hinfo, hadd0, deref, hc, hi, hadd,
        hconn, hupfail, bind, Except.bind, pure, Except.pure]
    · subst hwr
      simp [pim_mroute_msg_wrvifwhole, hsrc, hdst, hch, hup, hinfo, hadd0, deref, hc, hi,
        hconn, hupfail, bind, Except.bind, pure, Except.pure]
  · intro hconn henv hr1 hr2
    obtain ⟨u0, wb, hupadd, hwb, hu1, hu2, hu3, hu4⟩ :=
      pim_upstream_add_new wr { src := src, grp := dst } (some ifp) hnoup henv
    have hwb_up : wb.upstreams = w.upstreams ++ [u0] := by rw [hwb, f1]
    have hwb_oils : wb.oils = wr.oils := by rw [hwb]
    have hwb_reg : wb.pim_regiface = wr.pim_regiface := by rw [hwb]
    have hwb_ka : wb.qpim_keep_alive_time = wr.qpim_keep_alive_time := by rw [hwb]
    have hwb_tr : wb.trace = wr.trace ++ [Event.alloc 0] := by rw [hwb]
    have hwb_env : wb.env = wr.env.tail := by rw [hwb]
    have hl : wr.upstreams.length = w.upstreams.length := by rw [f1]
    have hr1b : wr.pim_regiface < c1.oil.mfcc_ttls.length := by rw [f8]; exact hr1
    have hr2b : wr.pim_regiface < c1.oif_flags.length := by rw [f7]; exact hr2
    have hmain : ∃ (wj : World),
        pim_mroute_msg_wrvifwhole w fd (some ifp) buf =
          (do
            let (_, w2) ← pim_mroute_msg_wholepkt wj fd (some ifp) buf
            pure (0, w2)) ∧
        wj.upstreams = w.upstreams ++
          [{ u0 with fhr := 1, channel_oil := some o,
                     join_state := pim_upstream_state.PIM_UPSTREAM_JOINED,
                     t_ka_timer := some wr.qpim_keep_alive_time }] ∧
        wj.oils = wr.oils.set o
          { c1 with
            oil := { c1.oil with
              mfcc_ttls := c1.oil.mfcc_ttls.set wr.pim_regiface PIM_MROUTE_MIN_TTL },
            oif_flags := upd c1.oif_flags wr.pim_regiface
              (fun f => f ||| PIM_OIF_FLAG_PROTO_PIM),
            cc := { c1.cc with pktcnt := (c1.cc.pktcnt + 1) % 2 ^ 64 } } ∧
        wj.trace = wr.trace ++
          [Event.alloc 0,
           Event.pim_upstream_keep_alive_timer_start u0.sg wr.qpim_keep_alive_time,
           Event.pim_channel_add_oif c1.sg wr.pim_regiface PIM_OIF_FLAG_PROTO_PIM,
           Event.pim_upstream_inherited_olist { src := src, grp := dst }] ∧
        wj = { wr with env := wr.env.tail, trace := wj.trace, upstreams := wj.upstreams,
                       oils := wj.oils } := by
      rcases hcase with ⟨hi, r, hadd⟩ | ⟨hi, hwr⟩
      · simp [pim_mroute_msg_wrvifwhole, hsrc, hdst, hch, hup, hinfo, hadd0, deref, hc, hi,
          hadd, hconn, hupadd, hl, hwb_up, hwb_oils, hwb_reg, hwb_ka, hwb_tr, hwb_env,
          pim_upstream_keep_alive_timer_start, pim_channel_add_oif, emit, upd_append_length,
          getElem?_upd_self, f4, hr1b, hr2b, bind, Except.bind, pure, Except.pure]
        refine ⟨_, rfl, rfl, ?_, rfl, ?_⟩
        · exact upd_upd_eq_set _ _ _ _ _ f4
        · simp [hwb]
      · subst hwr
        have hcc : c1 = c := Option.some.inj (f4.symm.trans hc)
        subst hcc
        simp [pim_mroute_msg_wrvifwhole, hsrc, hdst, hch, hup, hinfo, hadd0, deref, hc, hi,
          hconn, hupadd, hl, hwb_up, hwb_oils, hwb_reg, hwb_ka, hwb_tr, hwb_env,
          pim_upstream_keep_alive_timer_start, pim_channel_add_oif, emit, upd_append_length,
          getElem?_upd_self, f4, hr1b, hr2b, bind, Except.bind, pure, Except.pure]
        refine ⟨_, rfl, rfl, ?_, rfl, ?_⟩
        · exact upd_upd_eq_set _ _ _ _ _ f4
        · simp [hwb]
    obtain ⟨wj, heq, hj_up, hj_o, hj_tr, hj_fr⟩ := hmain
    have hx : c1.oif_flags[wr.pim_regiface]? =
        some (c1.oif_flags.get ⟨wr.pim_regiface, hr2b⟩) := by
      simp [List.getElem?_eq_getElem hr2b]
    refine ⟨wj, _, _, heq, hj_fr, ?_, hj_up, hu1, rfl, rfl, rfl, rfl, hj_o, rfl, ?_, ?_,
      ⟨_, upd_getElem?_self _ _ _ _ hx, lor_land_self _ _⟩, ?_⟩
    · rw [hj_tr, hu1, f5, hkey]
    · show (c1.cc.pktcnt + 1) % 2 ^ 64 = _
      rw [f6]
    · simp [List.getElem?_set, hr1b]
    · intro nh rifp hnh hri
      obtain ⟨w1, h1, h2⟩ := pim_mroute_msg_wholepkt_total wj fd (some ifp) buf src dst len
        hsrc hdst hlen (by
          intro up u hf hu
          obtain ⟨a, ha, hpa⟩ := findIdx?_some_get _ _ _ hf
          have hau : a = u := Option.some.inj (ha.symm.trans hu)
          subst hau
          have hsg : a.sg = { src := src, grp := dst } := by simpa using hpa
          have hmem := List.getElem?_mem hu
          rw [hj_up] at hmem
          rcases List.mem_append.mp hmem with h | h
          · exact absurd hsg (hnoup a (by rw [f1]; exact h))
          · simp only [List.mem_singleton] at h
            subst h
            show u0.rpf.source_nexthop.interface ≠ none
            rw [hu4, f12]
            simp [hnh, hri])
      refine ⟨w1, ?_, h2⟩
      rw [heq, h1]
      rfl

/-- An instance of `pim_mroute_msg_wrvifwhole_new`: WRVIFWHOLE for
(10.0.0.5, 224.1.1.1) on `eth0` in `w_src`, which has no state for the pair;
the entry `oil_new` is created. -/
theorem pim_mroute_msg_wrvifwhole_new_witness :
    ip_src (upcall_5 4) = .ok 0x0a000005 ∧ ip_dst (upcall_5 4) = .ok 0xe0010101 ∧
    ip_len (upcall_5 4) = .ok 0 ∧ eth0.info = some pim_eth0 ∧
    pim_ifchannel_find w_src (some eth0) { src := 0x0a000005, grp := 0xe0010101 } =
      .ok none ∧
    pim_upstream_find w_src { src := 0x0a000005, grp := 0xe0010101 } = none ∧
    pim_channel_oil_add w_src { src := 0x0a000005, grp := 0xe0010101 }
      pim_eth0.mroute_vif_index = (some 0, w_src_oil) ∧
    w_src_oil.oils[0]? = some oil_new ∧
    (oil_new.oil.mfcc_origin = INADDR_ANY →
      oil_new.oil.mfcc_parent < oil_new.oil.mfcc_ttls.length) ∧
    (oil_new.sg = { src := 0x0a000005, grp := 0xe0010101 } ∧
    ((∀ x ∈ w_src.oils, x.sg ≠ { src := 0x0a000005, grp := 0xe0010101 }) →
      0 = w_src.oils.length ∧ oil_new.oil.mfcc_parent = pim_eth0.mroute_vif_index ∧
      oil_new.installed = 0 ∧ w_src_oil.oils = w_src.oils ++ [oil_new]) ∧
    ∃ (wr : World) (evs : List Event) (c1 : channel_oil),
      ((oil_new.installed = 0 ∧ ∃ r0, pim_mroute_add_at w_src_oil 0 = .ok (r0, wr)) ∨
       (oil_new.installed ≠ 0 ∧ wr = w_src_oil)) ∧
      wr.upstreams = w_src.upstreams ∧ wr.trace = w_src.trace ++ evs ∧
      (∀ e ∈ evs, (∃ ret, e = Event.alloc ret) ∨
        ∃ fd oil ret, e = Event.setsockopt fd (SockOpt.MRT_ADD_MFC oil) ret) ∧
      wr.oils[0]? = some c1 ∧ c1.sg = oil_new.sg ∧ c1.cc = oil_new.cc ∧
      wr.oils.length = w_src_oil.oils.length ∧
      (oil_new.installed ≠ 0 →
        wr.qpim_mroute_add_events = w_src.qpim_mroute_add_events) ∧
      (oil_new.installed = 0 →
        wr.qpim_mroute_add_events = w_src.qpim_mroute_add_events + 1) ∧
      (pim_if_connected_to_source (some eth0) 0x0a000005 = .ok false →
        pim_mroute_msg_wrvifwhole w_src 7 (some eth0) (upcall_5 4) = .ok (0, wr)) ∧
      (pim_if_connected_to_source (some eth0) 0x0a000005 = .ok true → wr.env.headD 0 ≠ 0 →
        pim_mroute_msg_wrvifwhole w_src 7 (some eth0) (upcall_5 4) =
          .ok (-2, { wr with env := wr.env.tail,
                             trace := wr.trace ++ [Event.alloc (wr.env.headD 0)] })) ∧
      (pim_if_connected_to_source (some eth0) 0x0a000005 = .ok true → wr.env.headD 0 = 0 →
        wr.pim_regiface < oil_new.oil.mfcc_ttls.length →
        wr.pim_regiface < oil_new.oif_flags.length →
        ∃ (wj : World) (u1 : pim_upstream) (c2 : channel_oil),
          pim_mroute_msg_wrvifwhole w_src 7 (some eth0) (upcall_5 4) =
            (do
              let (_, w2) ← pim_mroute_msg_wholepkt wj 7 (some eth0) (upcall_5 4)
              pure (0, w2)) ∧
          wj = { wr with env := wr.env.tail, trace := wj.trace, upstreams := wj.upstreams,
                         oils := wj.oils } ∧
          wj.trace = wr.trace ++
            [Event.alloc 0,
             Event.pim_upstream_keep_alive_timer_start { src := 0x0a000005, grp := 0xe0010101 }
               wr.qpim_keep_alive_time,
             Event.pim_channel_add_oif { src := 0x0a000005, grp := 0xe0010101 }
               wr.pim_regiface PIM_OIF_FLAG_PROTO_PIM,
             Event.pim_upstream_inherited_olist { src := 0x0a000005, grp := 0xe0010101 }] ∧
          wj.upstreams = w_src.upstreams ++ [u1] ∧
          u1.sg = { src := 0x0a000005, grp := 0xe0010101 } ∧
          u1.fhr = 1 ∧ u1.t_ka_timer = some wr.qpim_keep_alive_time ∧
          u1.channel_oil = some 0 ∧
          u1.join_state = pim_upstream_state.PIM_UPSTREAM_JOINED ∧
          wj.oils = wr.oils.set 0 c2 ∧
          c2 = { c1 with
            oil := { c1.oil with
              mfcc_ttls := c1.oil.mfcc_ttls.set wr.pim_regiface PIM_MROUTE_MIN_TTL },
            oif_flags := upd c1.oif_flags wr.pim_regiface
              (fun f => f ||| PIM_OIF_FLAG_PROTO_PIM),
            cc := { c1.cc with pktcnt := (c1.cc.pktcnt + 1) % 2 ^ 64 } } ∧
          c2.cc.pktcnt = (oil_new.cc.pktcnt + 1) % 2 ^ 64 ∧
          c2.oil.mfcc_ttls[wr.pim_regiface]? = some PIM_MROUTE_MIN_TTL ∧
          (∃ f, c2.oif_flags[wr.pim_regiface]? = some f ∧
            f &&& PIM_OIF_FLAG_PROTO_PIM = PIM_OIF_FLAG_PROTO_PIM) ∧
          (∀ nh rifp, w_src.nexthops.lookup 0x0a000005 = some nh → nh.interface = some rifp →
            ∃ w1, pim_mroute_msg_wrvifwhole w_src 7 (some eth0) (upcall_5 4) = .ok (0, w1) ∧
              w1 = { wj with trace := w1.trace }))) :=
  ⟨rfl, rfl, rfl, rfl, rfl, rfl, rfl, rfl, fun h => absurd h (by decide),
    pim_mroute_msg_wrvifwhole_new w_src 7 eth0 pim_eth0 (upcall_5 4) 0x0a000005 0xe0010101 0 0
      w_src_oil oil_new rfl rfl rfl rfl rfl rfl rfl rfl (fun h => absurd h (by decide))⟩

/-- The run of the third branch end to end in `w_src`: the entry is created and
installed with the two kernel calls, the record is created, and the Register
for the payload is sent to the RP. -/
theorem pim_mroute_msg_wrvifwhole_new_run :
    ∃ w1, pim_mroute_msg_wrvifwhole w_src 7 (some eth0) (upcall_5 4) = .ok (0, w1) ∧
      new_events w_src w1 =
        [Event.alloc 0,
         Event.setsockopt 7 (SockOpt.MRT_ADD_MFC { oil_new.oil with mfcc_parent := 0 }) 0,
         Event.setsockopt 7 (SockOpt.MRT_ADD_MFC oil_new.oil) 0,
         Event.alloc 0,
         Event.pim_upstream_keep_alive_timer_start sg_5 210,
         Event.pim_channel_add_oif sg_5 0 PIM_OIF_FLAG_PROTO_PIM,
         Event.pim_upstream_inherited_olist sg_5,
         Event.pim_register_send [] 0 0x0a000001 rp_10_0_0_99 0] ∧
      w1.oils.map (fun c => (c.installed, c.cc.pktcnt)) = [(1, 1)] ∧
      w1.upstreams.map (fun u => (u.fhr, u.join_state, u.channel_oil)) =
        [(1, pim_upstream_state.PIM_UPSTREAM_JOINED, some 0)] ∧
      w1.qpim_mroute_add_events = w_src.qpim_mroute_add_events + 1 :=
  ⟨_, rfl, rfl, rfl, rfl, rfl⟩

/-! ## Counter refresh from the collaborator and the kernel -/

/-- C21: `pim_mroute_update_counters` issues the statistics collaborator call
and then the kernel query.  When the query succeeds the current `pktcnt`,
`bytecnt` and `wrong_if` are the kernel's values for the entry's (S,G); when
it fails they are exactly what `pim_zlookup_sg_statistics` left. -/
theorem pim_mroute_update_counters_refresh (w : World) (c : channel_oil) :
    new_events w (pim_mroute_update_counters w c).2 =
      [Event.pim_zlookup_sg_statistics
         { src := c.oil.mfcc_origin, grp := c.oil.mfcc_mcastgrp },
       Event.ioctl_SIOCGETSGCNT w.qpim_mroute_socket_fd c.oil.mfcc_origin c.oil.mfcc_mcastgrp
         (w.env.headD 0)] ∧
    (w.env.headD 0 = 0 →
      ((pim_mroute_update_counters w c).1.cc.pktcnt,
       (pim_mroute_update_counters w c).1.cc.bytecnt,
       (pim_mroute_update_counters w c).1.cc.wrong_if) =
        (w.sgcnt.lookup { src := c.oil.mfcc_origin, grp := c.oil.mfcc_mcastgrp }).getD
          (0, 0, 0)) ∧
    (w.env.headD 0 ≠ 0 →
      (pim_mroute_update_counters w c).1.cc.pktcnt =
        (pim_zlookup_sg_statistics w c).1.cc.pktcnt ∧
      (pim_mroute_update_counters w c).1.cc.bytecnt =
        (pim_zlookup_sg_statistics w c).1.cc.bytecnt ∧
      (pim_mroute_update_counters w c).1.cc.wrong_if =
        (pim_zlookup_sg_statistics w c).1.cc.wrong_if ∧
      (pim_mroute_update_counters w c).1.cc.lastused =
        (pim_zlookup_sg_statistics w c).1.cc.lastused) := by
  refine ⟨?_, ?_, ?_⟩
  · by_cases he : w.env.head?.getD 0 = 0 <;>
      cases hz : w.zstats.lookup { src := c.oil.mfcc_origin, grp := c.oil.mfcc_mcastgrp } <;>
      simp [pim_mroute_update_counters, pim_zlookup_sg_statistics, extcall, emit, new_events,
        he, hz]
  · intro he
    have he1 : w.env.head?.getD 0 = 0 := by simpa using he
    cases hz : w.zstats.lookup { src := c.oil.mfcc_origin, grp := c.oil.mfcc_mcastgrp } <;>
      simp [pim_mroute_update_counters, pim_zlookup_sg_statistics, extcall, emit, he1, hz]
  · intro he
    have he1 : ¬ w.env.head?.getD 0 = 0 := by simpa using he
    cases hz : w.zstats.lookup { src := c.oil.mfcc_origin, grp := c.oil.mfcc_mcastgrp } <;>
      simp [pim_mroute_update_counters, pim_zlookup_sg_statistics, extcall, emit, he1, hz]

/-- Witness of C21's theorem: the entry `oil_5` in `w_cnt`, where the kernel
query succeeds, and in `w_cnt_fail`, where it fails. -/
theorem pim_mroute_update_counters_refresh_witness :
    w_cnt.env.headD 0 = 0 ∧
    ((pim_mroute_update_counters w_cnt oil_5).1.cc.pktcnt,
     (pim_mroute_update_counters w_cnt oil_5).1.cc.bytecnt,
     (pim_mroute_update_counters w_cnt oil_5).1.cc.wrong_if) = (10, 1000, 2) ∧
    w_cnt_fail.env.headD 0 ≠ 0 ∧
    (pim_mroute_update_counters w_cnt_fail oil_5).1.cc.pktcnt = 7 ∧
    (pim_mroute_update_counters w_cnt_fail oil_5).1.cc.bytecnt = 700 ∧
    (pim_mroute_update_counters w_cnt_fail oil_5).1.cc.wrong_if = 1 ∧
    (pim_mroute_update_counters w_cnt_fail oil_5).1.cc.lastused = 50 :=
  ⟨rfl, (pim_mroute_update_counters_refresh w_cnt oil_5).2.1 rfl, by decide,
    (pim_mroute_update_counters_refresh w_cnt_fail oil_5).2.2 (by decide)⟩

/-! ## Enablement guards -/

/-- C22: with forwarding already enabled `pim_mroute_socket_enable` returns -1
and leaves the whole state, trace included, as it was. -/
theorem pim_mroute_socket_enable_already_enabled (w : World)
    (hen : PIM_MROUTE_IS_ENABLED w = true) :
    pim_mroute_socket_enable w = .ok (-1, w) := by
  simp [pim_mroute_socket_enable, hen, pure, Except.pure]

/-- Witness of C22's theorem: the enabled world `w0`. -/
theorem pim_mroute_socket_enable_already_enabled_witness :
    PIM_MROUTE_IS_ENABLED w0 = true ∧ pim_mroute_socket_enable w0 = .ok (-1, w0) :=
  ⟨rfl, pim_mroute_socket_enable_already_enabled w0 rfl⟩

/-- C23: with forwarding disabled, `pim_mroute_add_vif` (on an interface),
`pim_mroute_del_vif`, `pim_mroute_add` and `pim_mroute_del` each return -1,
record no external action, and hand the entry back unchanged; the two entry
functions change only their call statistics. -/
theorem pim_mroute_disabled_fails (w : World) (ifp : interface) (ifaddr flags vif_index : Nat)
    (c : channel_oil) (hdis : PIM_MROUTE_IS_DISABLED w = true) :
    pim_mroute_add_vif w (some ifp) ifaddr flags = .ok (-1, w) ∧
    pim_mroute_del_vif w vif_index = (-1, w) ∧
    pim_mroute_add w c =
      .ok (-1, c, { w with qpim_mroute_add_last := w.clock,
                           qpim_mroute_add_events := w.qpim_mroute_add_events + 1 }) ∧
    pim_mroute_del w c =
      (-1, c, { w with qpim_mroute_del_last := w.clock,
                       qpim_mroute_del_events := w.qpim_mroute_del_events + 1 }) := by
  have h : w.qpim_mroute_socket_fd < 0 := by simpa [PIM_MROUTE_IS_DISABLED] using hdis
  refine ⟨?_, ?_, ?_, ?_⟩
  · simp [pim_mroute_add_vif, hdis, pure, Except.pure, bind, Except.bind]
  · simp [pim_mroute_del_vif, hdis]
  · simp [pim_mroute_add, PIM_MROUTE_IS_DISABLED, h, bind, Except.bind, pure, Except.pure]
  · simp [pim_mroute_del, PIM_MROUTE_IS_DISABLED, h]

/-- Witness of C23's theorem: the disabled world `w_off`, `eth0` and `oil_sg`. -/
theorem pim_mroute_disabled_fails_witness :
    PIM_MROUTE_IS_DISABLED w_off = true ∧
    pim_mroute_add_vif w_off (some eth0) 0x0a000001 0 = .ok (-1, w_off) ∧
    pim_mroute_del_vif w_off 1 = (-1, w_off) ∧
    pim_mroute_add w_off oil_sg =
      .ok (-1, oil_sg, { w_off with qpim_mroute_add_last := w_off.clock,
                                    qpim_mroute_add_events := w_off.qpim_mroute_add_events + 1 }) ∧
    pim_mroute_del w_off oil_sg =
      (-1, oil_sg, { w_off with qpim_mroute_del_last := w_off.clock,
                                qpim_mroute_del_events := w_off.qpim_mroute_del_events + 1 }) :=
  ⟨rfl, pim_mroute_disabled_fails w_off eth0 0x0a000001 0 1 oil_sg rfl⟩

/-! ## Unknown incoming interface on NOCACHE -/

/-- C25 (code defect): `pim_mroute_msg_nocache` reads `ifp->info` in its first
declaration, before any check, so a null interface is dereferenced; and an
upcall of type NOCACHE whose VIF index maps to no interface (VIF 1 in `w0`,
which has no interface, debug logging off) makes `pim_mroute_msg` hand the
handler that null interface instead of returning 0. -/
theorem pim_mroute_msg_nocache_null_interface (w : World) (fd : Int) (msg : List Nat) :
    pim_mroute_msg_nocache w fd none msg = .error Fault.null_deref ∧
    ip_p (upcall_5 IGMPMSG_NOCACHE) = .ok 0 ∧
    im_msgtype (upcall_5 IGMPMSG_NOCACHE) = .ok IGMPMSG_NOCACHE ∧
    im_vif (upcall_5 IGMPMSG_NOCACHE) = .ok 1 ∧
    pim_if_find_by_vif_index w0 1 = none ∧
    w0.debug_mroute = false ∧
    pim_mroute_msg w0 7 (upcall_5 IGMPMSG_NOCACHE) 20 =
      pim_mroute_msg_nocache w0 7 none (upcall_5 IGMPMSG_NOCACHE) ∧
    pim_mroute_msg w0 7 (upcall_5 IGMPMSG_NOCACHE) 20 = .error Fault.null_deref :=
  ⟨rfl, rfl, rfl, rfl, rfl, rfl, rfl, rfl⟩

/-! ## Order of the external actions of `pim_mroute_socket_enable` -/

/-- C26 (counterexample): in `w_off_ok` the enable succeeds on descriptor 5, and
the privilege is lowered before `MRT_INIT` and `MRT_PIM` are issued. -/
theorem pim_mroute_socket_enable_lowers_before_kernel_calls :
    ∃ w1, pim_mroute_socket_enable w_off_ok = .ok (0, w1) ∧
      new_events w_off_ok w1 =
        [Event.privs_change zebra_privs_ops_t.ZPRIVS_RAISE 0,
         Event.socket 5,
         Event.privs_change zebra_privs_ops_t.ZPRIVS_LOWER 0,
         Event.setsockopt 5 SockOpt.MRT_INIT 0,
         Event.setsockopt 5 (SockOpt.MRT_PIM IGMPMSG_WRVIFWHOLE) 0,
         Event.thread_add_read 5] :=
  ⟨_, rfl, rfl⟩

/-- C26 (amended): on every successful `pim_mroute_socket_enable` the external
actions are, in this order: privilege raised, the socket created, privilege
lowered, `MRT_INIT`, `MRT_PIM` for the WRVIFWHOLE upcalls, the read registration
armed; both kernel control calls come after the privilege was lowered.  The
descriptor and the read registration are those of the new socket. -/
theorem pim_mroute_socket_enable_order (w w1 : World)
    (hok : pim_mroute_socket_enable w = .ok (0, w1)) :
    ∃ (r1 fd r2 : Int), 0 ≤ fd ∧
      new_events w w1 =
        [Event.privs_change zebra_privs_ops_t.ZPRIVS_RAISE r1,
         Event.socket fd,
         Event.privs_change zebra_privs_ops_t.ZPRIVS_LOWER r2,
         Event.setsockopt fd SockOpt.MRT_INIT 0,
         Event.setsockopt fd (SockOpt.MRT_PIM IGMPMSG_WRVIFWHOLE) 0,
         Event.thread_add_read fd] ∧
      w1.qpim_mroute_socket_fd = fd ∧ w1.qpim_mroute_socket_reader = some fd ∧
      w1.qpim_mroute_socket_creation = w.clock := by
  have hdis : ¬ 0 ≤ w.qpim_mroute_socket_fd := by
    intro h
    simp [pim_mroute_socket_enable, PIM_MROUTE_IS_ENABLED, h, pure, Except.pure] at hok
  by_cases hfd : w.env[1]?.getD 0 < 0
  · simp [pim_mroute_socket_enable, PIM_MROUTE_IS_ENABLED, hdis, extcall, hfd, bind,
      Except.bind, pure, Except.pure] at hok
  by_cases h3 : w.env[3]?.getD 0 = 0
  swap
  · simp [pim_mroute_socket_enable, PIM_MROUTE_IS_ENABLED, hdis, extcall, hfd, pim_mroute_set,
      setsockopt, close, h3, bind, Except.bind, pure, Except.pure] at hok
  by_cases h4 : w.env[4]?.getD 0 = 0
  swap
  · simp [pim_mroute_socket_enable, PIM_MROUTE_IS_ENABLED, hdis, extcall, hfd, pim_mroute_set,
      setsockopt, close, h3, h4, bind, Except.bind, pure, Except.pure] at hok
  cases hr : w.qpim_mroute_socket_reader with
  | some x =>
    simp [pim_mroute_socket_enable, PIM_MROUTE_IS_ENABLED, hdis, extcall, hfd, pim_mroute_set,
      setsockopt, close, h3, h4, mroute_read_on, hr, bind, Except.bind, pure, Except.pure] at hok
  | none =>
    simp [pim_mroute_socket_enable, PIM_MROUTE_IS_ENABLED, hdis, extcall, hfd, pim_mroute_set,
      setsockopt, close, h3, h4, mroute_read_on, hr, emit, bind, Except.bind, pure,
      Except.pure] at hok
    subst hok
    exact ⟨w.env.head?.getD 0, w.env[1]?.getD 0, w.env[2]?.getD 0, not_lt.mp hfd,
      by simp [new_events], rfl, rfl, rfl⟩

/-- Witness of C26's amended theorem: the enable in `w_off_ok`. -/
theorem pim_mroute_socket_enable_order_witness :
    ∃ w1, pim_mroute_socket_enable w_off_ok = .ok (0, w1) ∧
    ∃ (r1 fd r2 : Int), 0 ≤ fd ∧
      new_events w_off_ok w1 =
        [Event.privs_change zebra_privs_ops_t.ZPRIVS_RAISE r1,
         Event.socket fd,
         Event.privs_change zebra_privs_ops_t.ZPRIVS_LOWER r2,
         Event.setsockopt fd SockOpt.MRT_INIT 0,
         Event.setsockopt fd (SockOpt.MRT_PIM IGMPMSG_WRVIFWHOLE) 0,
         Event.thread_add_read fd] ∧
      w1.qpim_mroute_socket_fd = fd ∧ w1.qpim_mroute_socket_reader = some fd ∧
      w1.qpim_mroute_socket_creation = w_off_ok.clock :=
  ⟨_, rfl, pim_mroute_socket_enable_order w_off_ok _ rfl⟩

/-! ## The received length -/

/-- C27: the outcome of `pim_mroute_msg` does not depend on `buf_size`: two runs
on the same state and buffer with any two lengths give the same status, the
same state and the same trace of external actions (the only use of `buf_size`
in the source is the text of a debug line, which is not an external action).
In particular with `buf_size` 0 the 20-byte WHOLEPKT header `wholepkt_1500` is
decoded and acted on in `w_fhr`, where debug logging is off, and the Register
carries the length 1500 of the embedded header. -/
theorem pim_mroute_msg_buf_size_unused (w : World) (fd : Int) (buf : List Nat)
    (s1 s2 : Int) :
    pim_mroute_msg w fd buf s1 = pim_mroute_msg w fd buf s2 ∧
    ∃ w1, pim_mroute_msg w_fhr 7 wholepkt_1500 0 = .ok (0, w1) ∧
      new_events w_fhr w1 =
        [Event.pim_register_send [] 1500 0x0a000001 rp_10_0_0_99 0] :=
  ⟨rfl, _, rfl, rfl⟩

/-- A run of `pim_mroute_msg_wholepkt` that returns leaves both tables as they were. -/
theorem pim_mroute_msg_wholepkt_frame (w : World) (fd : Int) (ifp : Option interface)
    (buf : List Nat) (r : Int) (w1 : World)
    (h : pim_mroute_msg_wholepkt w fd ifp buf = .ok (r, w1)) :
    w1.upstreams = w.upstreams ∧ w1.oils = w.oils := by
  unfold pim_mroute_msg_wholepkt at h
  simp only [bind, Except.bind, pure, Except.pure, deref, emit] at h
  repeat' split at h
  all_goals (try simp at h)
  all_goals (try (obtain ⟨-, rfl⟩ := h; exact ⟨rfl, rfl⟩))

/-- A run of `assert_action_a1` that returns leaves the upstream and cache tables as they were. -/
theorem assert_action_a1_frame (w : World) (ch : Nat) (v : Int × World)
    (h : assert_action_a1 w ch = .ok v) :
    v.2.upstreams = w.upstreams ∧ v.2.oils = w.oils := by
  unfold assert_action_a1 at h
  simp only [bind, Except.bind, pure, Except.pure, deref, extcall] at h
  repeat' split at h
  all_goals (try simp at h)
  all_goals (try (subst h; exact ⟨rfl, rfl⟩))

/-- A run of `pim_mroute_msg_wrongvif` that returns leaves the upstream and cache tables as they were. -/
theorem pim_mroute_msg_wrongvif_frame (w : World) (fd : Int) (ifp : Option interface)
    (buf : List Nat) (r : Int) (w1 : World)
    (h : pim_mroute_msg_wrongvif w fd ifp buf = .ok (r, w1)) :
    w1.upstreams = w.upstreams ∧ w1.oils = w.oils := by
  unfold pim_mroute_msg_wrongvif at h
  simp only [bind, Except.bind, pure, Except.pure] at h
  repeat' split at h
  all_goals (try simp at h)
  all_goals (try (obtain ⟨-, rfl⟩ := h))
  all_goals (first | exact ⟨rfl, rfl⟩ | exact assert_action_a1_frame _ _ _ ‹_›)

/-- `pim_channel_oil_add` leaves the upstream table alone, never shrinks the cache table, and a pointer it returns is inside the table. -/
theorem pim_channel_oil_add_valid (w : World) (sg : prefix_sg) (vif : Nat) :
    (pim_channel_oil_add w sg vif).2.upstreams = w.upstreams ∧
    w.oils.length ≤ (pim_channel_oil_add w sg vif).2.oils.length ∧
    ∀ o, (pim_channel_oil_add w sg vif).1 = some o →
      o < (pim_channel_oil_add w sg vif).2.oils.length := by
  cases hf : w.oils.findIdx? (fun c => decide (c.sg = sg)) with
  | some i =>
    obtain ⟨a, ha, -⟩ := findIdx?_some_get _ _ _ hf
    have hlt : i < w.oils.length := (List.getElem?_eq_some.mp ha).1
    simp [pim_channel_oil_add, hf, upd_length, hlt]
  | none =>
    by_cases he : w.env.head?.getD 0 = 0 <;>
      simp [pim_channel_oil_add, hf, extcall, he]

/-- `pim_upstream_add` leaves the cache table alone; a failed call leaves the upstream table alone; a pointer it returns is inside the table and every other slot is as before. -/
theorem pim_upstream_add_shape (w : World) (sg : prefix_sg) (ifp : Option interface) :
    (pim_upstream_add w sg ifp).2.oils = w.oils ∧
    ((pim_upstream_add w sg ifp).1 = none →
      (pim_upstream_add w sg ifp).2.upstreams = w.upstreams) ∧
    ∀ up, (pim_upstream_add w sg ifp).1 = some up →
      (∃ a, (pim_upstream_add w sg ifp).2.upstreams[up]? = some a) ∧
      ∀ j, j ≠ up → (pim_upstream_add w sg ifp).2.upstreams[j]? = w.upstreams[j]? := by
  cases hf : pim_upstream_find w sg with
  | some i =>
    obtain ⟨a, ha, -⟩ := findIdx?_some_get _ _ _ hf
    rw [pim_upstream_add_found w sg ifp i hf]
    refine ⟨rfl, (fun h => by cases h), ?_⟩
    intro up hup
    simp only [Option.some.injEq] at hup
    subst hup
    refine ⟨⟨_, by simp only [getElem?_upd_self, ha, Option.map_some']; rfl⟩, ?_⟩
    intro j hj
    exact upd_getElem?_ne _ _ _ _ (Ne.symm hj)
  | none =>
    have hfo : w.upstreams.findIdx? (fun u => decide (u.sg = sg)) = none := hf
    by_cases he : w.env.head?.getD 0 = 0
    · simp only [pim_upstream_add, hf, extcall, List.headD_eq_head?_getD, he]
      refine ⟨rfl, (fun h => by simp at h), ?_⟩
      intro up hup
      simp at hup
      subst hup
      refine ⟨⟨_, by simp; rfl⟩, ?_⟩
      intro j hj
      rcases Nat.lt_or_gt_of_ne hj with h | h
      · simp [List.getElem?_append_left h]
      · have h1 : w.upstreams.length + 1 ≤ j := h
        rw [List.getElem?_eq_none (by simp; omega), List.getElem?_eq_none (by omega)]
    · simp [pim_upstream_add, hf, extcall, he]

/-- A run of `pim_mroute_add` that returns leaves both tables as they were. -/
theorem pim_mroute_add_any_frame (w : World) (c : channel_oil) (v : Int × channel_oil × World)
    (h : pim_mroute_add w c = .ok v) :
    v.2.2.upstreams = w.upstreams ∧ v.2.2.oils = w.oils := by
  by_cases hwf : c.oil.mfcc_origin = INADDR_ANY → c.oil.mfcc_parent < c.oil.mfcc_ttls.length
  · obtain ⟨r, c1, w1, evs, hres, hw1, -⟩ := pim_mroute_add_frame w c hwf
    rw [hres] at h
    simp only [Except.ok.injEq] at h
    subst h
    constructor <;> · simp only; rw [hw1]
  · have hsrc : c.oil.mfcc_origin = INADDR_ANY := by
      by_contra hne
      exact hwf (fun h0 => absurd h0 hne)
    have hlen : ¬ c.oil.mfcc_parent < c.oil.mfcc_ttls.length := fun hl => hwf (fun _ => hl)
    by_cases hdis : w.qpim_mroute_socket_fd < 0
    · rw [pim_mroute_add_disabled w c hdis] at h
      simp only [Except.ok.injEq] at h
      subst h
      exact ⟨rfl, rfl⟩
    · have hnone : c.oil.mfcc_ttls[c.oil.mfcc_parent]? = none :=
        List.getElem?_eq_none (not_lt.mp hlen)
      simp [pim_mroute_add, PIM_MROUTE_IS_DISABLED, hdis, hsrc, arr_get, hnone, bind,
        Except.bind, pure, Except.pure] at h

/-- A run of `pim_mroute_add` through a pointer that returns leaves the upstream table and the size of the cache table as they were. -/
theorem pim_mroute_add_at_any_frame (w : World) (o : Nat) (v : Int × World)
    (h : pim_mroute_add_at w o = .ok v) :
    v.2.upstreams = w.upstreams ∧ v.2.oils.length = w.oils.length := by
  unfold pim_mroute_add_at at h
  simp only [bind, Except.bind, pure, Except.pure] at h
  repeat' split at h
  all_goals (try simp at h)
  all_goals (try (subst h))
  all_goals
    (have hf := pim_mroute_add_any_frame _ _ _ ‹_›
     simp [hf.1, hf.2])

/-- A run of `pim_channel_add_oif` that returns leaves the upstream table and the size of the cache table as they were. -/
theorem pim_channel_add_oif_any_frame (w : World) (o oif mask : Nat) (w1 : World)
    (h : pim_channel_add_oif w o oif mask = .ok w1) :
    w1.upstreams = w.upstreams ∧ w1.oils.length = w.oils.length := by
  unfold pim_channel_add_oif at h
  simp only [bind, Except.bind, pure, Except.pure, emit] at h
  repeat' split at h
  all_goals (try simp at h)
  all_goals (try (subst h; exact ⟨rfl, by simp [upd_length]⟩))

/-- Every upstream record after `pim_mroute_msg_nocache` is the record that was
at the same place before, or points to an existing cache entry. -/
theorem pim_mroute_msg_nocache_upstreams (w : World) (fd : Int) (ifp : Option interface)
    (msg : List Nat) (r : Int) (w1 : World)
    (h : pim_mroute_msg_nocache w fd ifp msg = .ok (r, w1)) :
    ∀ (j : Nat) (u1 : pim_upstream), w1.upstreams[j]? = some u1 →
      w.upstreams[j]? = some u1 ∨
      ∃ (o : Nat) (c : channel_oil), u1.channel_oil = some o ∧ w1.oils[o]? = some c := by
  cases ifp with
  | none => simp [pim_mroute_msg_nocache, bind, Except.bind] at h
  | some ifp0 =>
  cases hdst : im_dst msg with
  | error e => simp [pim_mroute_msg_nocache, hdst, bind, Except.bind] at h
  | ok dst =>
  by_cases hrp : (RP w dst).rpf_addr = INADDR_NONE
  · simp [pim_mroute_msg_nocache, hdst, hrp, bind, Except.bind, pure, Except.pure] at h
    obtain ⟨-, rfl⟩ := h
    exact fun j u1 hj => Or.inl hj
  cases hinfo : ifp0.info with
  | none =>
    simp [pim_mroute_msg_nocache, hdst, hrp, hinfo, bind, Except.bind, pure, Except.pure] at h
    obtain ⟨-, rfl⟩ := h
    exact fun j u1 hj => Or.inl hj
  | some pim_ifp =>
  by_cases hdr : PIM_I_am_DR pim_ifp = true
  swap
  · simp [pim_mroute_msg_nocache, hdst, hrp, hinfo, hdr, bind, Except.bind, pure,
      Except.pure] at h
    obtain ⟨-, rfl⟩ := h
    exact fun j u1 hj => Or.inl hj
  by_cases hss : pim_ifp.itype = PIM_INTERFACE_SSM
  · simp [pim_mroute_msg_nocache, hdst, hrp, hinfo, hdr, hss, bind, Except.bind, pure,
      Except.pure] at h
    obtain ⟨-, rfl⟩ := h
    exact fun j u1 hj => Or.inl hj
  cases hsrc : im_src msg with
  | error e =>
    simp [pim_mroute_msg_nocache, hdst, hrp, hinfo, hdr, hss, hsrc, bind, Except.bind, pure,
      Except.pure] at h
  | ok src =>
  cases hconn : pim_if_connected_to_source (some ifp0) src with
  | error e =>
    simp [pim_mroute_msg_nocache, hdst, hrp, hinfo, hdr, hss, hsrc, hconn, bind, Except.bind,
      pure, Except.pure] at h
  | ok conn =>
  cases conn with
  | false =>
    simp [pim_mroute_msg_nocache, hdst, hrp, hinfo, hdr, hss, hsrc, hconn, bind, Except.bind,
      pure, Except.pure] at h
    obtain ⟨-, rfl⟩ := h
    exact fun j u1 hj => Or.inl hj
  | true =>
  obtain ⟨hA1, hA2, hA3⟩ :=
    pim_channel_oil_add_valid w { src := src, grp := dst } pim_ifp.mroute_vif_index
  rcases hoa : pim_channel_oil_add w { src := src, grp := dst } pim_ifp.mroute_vif_index with
    ⟨oo, wa⟩
  rw [hoa] at hA1 hA2 hA3
  simp only at hA1 hA2 hA3
  cases oo with
  | none =>
    simp [pim_mroute_msg_nocache, hdst, hrp, hinfo, hdr, hss, hsrc, hconn, hoa, bind,
      Except.bind, pure, Except.pure] at h
    obtain ⟨-, rfl⟩ := h
    intro j u1 hj
    rw [hA1] at hj
    exact Or.inl hj
  | some o =>
  have ho : o < wa.oils.length := hA3 o rfl
  obtain ⟨hB1, hB2, hB3⟩ := pim_upstream_add_shape wa { src := src, grp := dst } (some ifp0)
  rcases hua : pim_upstream_add wa { src := src, grp := dst } (some ifp0) with ⟨uu, wb⟩
  rw [hua] at hB1 hB2 hB3
  simp only at hB1 hB2 hB3
  cases uu with
  | none =>
    simp [pim_mroute_msg_nocache, hdst, hrp, hinfo, hdr, hss, hsrc, hconn, hoa, hua, bind,
      Except.bind, pure, Except.pure] at h
    obtain ⟨-, rfl⟩ := h
    intro j u1 hj
    rw [hB2 rfl, hA1] at hj
    exact Or.inl hj
  | some up =>
  obtain ⟨⟨a, ha⟩, hne⟩ := hB3 up rfl
  have hob : o < wb.oils.length := by rw [hB1]; exact ho
  obtain ⟨cb, hcb⟩ : ∃ cb, wb.oils[o]? = some cb := ⟨_, List.getElem?_eq_getElem hob⟩
  simp [pim_mroute_msg_nocache, hdst, hrp, hinfo, hdr, hss, hsrc, hconn, hoa, hua,
    pim_upstream_keep_alive_timer_start, deref, ha, emit, pim_channel_add_oif,
    getElem?_upd_self, hcb, bind, Except.bind, pure, Except.pure] at h
  intro j u1 hj
  by_cases hju : j = up
  · subst hju
    right
    split_ifs at h <;>
    · simp only [Except.ok.injEq, Prod.mk.injEq] at h
      obtain ⟨-, rfl⟩ := h
      simp only [getElem?_upd_self, ha, Option.map_some', Option.some.injEq] at hj
      subst hj
      refine ⟨o, ?_⟩
      simp only [getElem?_upd_self, hcb, Option.map_some']
      exact ⟨_, trivial, rfl⟩
  · left
    have hju2 : up ≠ j := Ne.symm hju
    split_ifs at h <;>
    · simp only [Except.ok.injEq, Prod.mk.injEq] at h
      obtain ⟨-, rfl⟩ := h
      simp only [upd_getElem?_ne _ _ _ _ hju2] at hj
      rw [hne j hju, hA1] at hj
      exact hj

/-- A read after a write through a pointer: another slot is untouched, the
written slot holds the image of the old record. -/
theorem upd_getElem?_cases {α : Type} (l : List α) (i j : Nat) (f : α → α) (x : α)
    (h : (upd l i f)[j]? = some x) :
    (j ≠ i ∧ l[j]? = some x) ∨ (j = i ∧ ∃ a, l[i]? = some a ∧ x = f a) := by
  by_cases hji : j = i
  · subst hji
    right
    rw [getElem?_upd_self] at h
    cases hl : l[j]? with
    | none => rw [hl] at h; cases h
    | some a =>
      rw [hl] at h
      exact ⟨rfl, a, rfl, (Option.some.inj h).symm⟩
  · left
    rw [upd_getElem?_ne _ _ _ _ (Ne.symm hji)] at h
    exact ⟨hji, h⟩

/-- Every upstream record after `pim_mroute_msg_wrvifwhole` is the record that
was at the same place before, or points to an existing cache entry. -/
theorem pim_mroute_msg_wrvifwhole_upstreams (w : World) (fd : Int) (ifp : Option interface)
    (buf : List Nat) (r : Int) (w1 : World)
    (h : pim_mroute_msg_wrvifwhole w fd ifp buf = .ok (r, w1)) :
    ∀ (j : Nat) (u1 : pim_upstream), w1.upstreams[j]? = some u1 →
      w.upstreams[j]? = some u1 ∨
      ∃ (o : Nat) (c : channel_oil), u1.channel_oil = some o ∧ w1.oils[o]? = some c := by
  cases hsrc : ip_src buf with
  | error e => simp [pim_mroute_msg_wrvifwhole, hsrc, bind, Except.bind] at h
  | ok src =>
  cases hdst : ip_dst buf with
  | error e => simp [pim_mroute_msg_wrvifwhole, hsrc, hdst, bind, Except.bind] at h
  | ok dst =>
  cases ifp with
  | none =>
    cases hd : w.debug_mroute <;>
      simp [pim_mroute_msg_wrvifwhole, hsrc, hdst, hd, pim_ifchannel_find, bind, Except.bind,
        pure, Except.pure] at h
  | some ifp0 =>
  rcases hch : pim_ifchannel_find w (some ifp0) { src := src, grp := dst } with e | ch
  · simp [pim_ifchannel_find] at hch
  cases ch with
  | some chi =>
    simp [pim_mroute_msg_wrvifwhole, hsrc, hdst, hch, bind, Except.bind, pure,
      Except.pure] at h
    obtain ⟨-, rfl⟩ := h
    exact fun j u1 hj => Or.inl hj
  | none =>
  cases hup : pim_upstream_find w { src := src, grp := dst } with
  | some up =>
    cases hu : w.upstreams[up]? with
    | none =>
      simp [pim_mroute_msg_wrvifwhole, hsrc, hdst, hch, hup, deref, hu, bind, Except.bind,
        pure, Except.pure] at h
    | some u =>
    by_cases hfhr : u.fhr = 0
    swap
    · simp [pim_mroute_msg_wrvifwhole, hsrc, hdst, hch, hup, deref, hu, hfhr, bind,
        Except.bind, pure, Except.pure] at h
      obtain ⟨-, rfl⟩ := h
      exact fun j u1 hj => Or.inl hj
    cases hrpi : (RP w dst).source_nexthop.interface with
    | none =>
      simp [pim_mroute_msg_wrvifwhole, hsrc, hdst, hch, hup, deref, hu, hfhr, hrpi, bind,
        Except.bind, pure, Except.pure] at h
    | some rpf_ifp =>
    cases hnh : w.nexthops.lookup u.upstream_register with
    | none =>
      simp [pim_mroute_msg_wrvifwhole, hsrc, hdst, hch, hup, deref, hu, hfhr, hrpi,
        pim_nexthop_lookup, hnh, bind, Except.bind, pure, Except.pure] at h
    | some source =>
    cases hinfo : rpf_ifp.info with
    | none =>
      simp [pim_mroute_msg_wrvifwhole, hsrc, hdst, hch, hup, deref, hu, hfhr, hrpi,
        pim_nexthop_lookup, hnh, hinfo, bind, Except.bind, pure, Except.pure] at h
    | some pim_ifp =>
    cases hco : u.channel_oil with
    | some o =>
      cases hc : w.oils[o]? with
      | none =>
        simp [pim_mroute_msg_wrvifwhole, hsrc, hdst, hch, hup, deref, hu, hfhr, hrpi,
          pim_nexthop_lookup, hnh, hinfo, emit, hco, hc, bind, Except.bind, pure,
          Except.pure] at h
      | some c =>
      have hlt : o < w.oils.length := (List.getElem?_eq_some.mp hc).1
      by_cases hi : c.installed = 0
      · rcases hadd : pim_mroute_add_at
            { w with trace := w.trace ++
              [Event.pim_nexthop_lookup u.upstream_register 0,
               Event.pim_register_stop_send source.interface { src := src, grp := dst }
                 pim_ifp.primary_address u.upstream_register] } o with e | v
        · simp [pim_mroute_msg_wrvifwhole, hsrc, hdst, hch, hup, deref, hu, hfhr, hrpi,
            pim_nexthop_lookup, hnh, hinfo, emit, hco, hc, hi, hadd, bind, Except.bind, pure,
            Except.pure] at h
        · obtain ⟨hf1, hf2⟩ := pim_mroute_add_at_any_frame _ _ _ hadd
          simp [pim_mroute_msg_wrvifwhole, hsrc, hdst, hch, hup, deref, hu, hfhr, hrpi,
            pim_nexthop_lookup, hnh, hinfo, emit, hco, hc, hi, hadd, bind, Except.bind, pure,
            Except.pure] at h
          obtain ⟨-, rfl⟩ := h
          intro j u1 hj
          simp only [hf1] at hj
          rcases upd_getElem?_cases _ _ _ _ _ hj with ⟨-, hx⟩ | ⟨rfl, a, ha, rfl⟩
          · exact Or.inl hx
          · right
            have hau : a = u := Option.some.inj (ha.symm.trans hu)
            subst hau
            have hlt1 : o < v.2.oils.length := by rw [hf2]; exact hlt
            exact ⟨o, _, hco, List.getElem?_eq_getElem hlt1⟩
      · simp [pim_mroute_msg_wrvifwhole, hsrc, hdst, hch, hup, deref, hu, hfhr, hrpi,
          pim_nexthop_lookup, hnh, hinfo, emit, hco, hc, hi, bind, Except.bind, pure,
          Except.pure] at h
        obtain ⟨-, rfl⟩ := h
        intro j u1 hj
        simp only at hj
        rcases upd_getElem?_cases _ _ _ _ _ hj with ⟨-, hx⟩ | ⟨rfl, a, ha, rfl⟩
        · exact Or.inl hx
        · right
          have hau : a = u := Option.some.inj (ha.symm.trans hu)
          subst hau
          exact ⟨o, c, hco, hc⟩
    | none =>
      obtain ⟨hA1, hA2, hA3⟩ := pim_channel_oil_add_valid
        { w with trace := w.trace ++
          [Event.pim_nexthop_lookup u.upstream_register 0,
           Event.pim_register_stop_send source.interface { src := src, grp := dst }
             pim_ifp.primary_address u.upstream_register] }
        { src := src, grp := dst } pim_ifp.mroute_vif_index
      rcases hoa : pim_channel_oil_add
        { w with trace := w.trace ++
          [Event.pim_nexthop_lookup u.upstream_register 0,
           Event.pim_register_stop_send source.interface { src := src, grp := dst }
             pim_ifp.primary_address u.upstream_register] }
        { src := src, grp := dst } pim_ifp.mroute_vif_index with ⟨oo, wa⟩
      rw [hoa] at hA1 hA2 hA3
      simp only at hA1 hA2 hA3
      cases oo with
      | none =>
        simp [pim_mroute_msg_wrvifwhole, hsrc, hdst, hch, hup, deref, hu, hfhr, hrpi,
          pim_nexthop_lookup, hnh, hinfo, emit, hco, hoa, bind, Except.bind, pure,
          Except.pure] at h
      | some o =>
      have hlt : o < wa.oils.length := hA3 o rfl
      obtain ⟨c, hc⟩ : ∃ c, wa.oils[o]? = some c := ⟨_, List.getElem?_eq_getElem hlt⟩
      by_cases hi : c.installed = 0
      · rcases hadd : pim_mroute_add_at
            { wa with upstreams := upd wa.upstreams up (fun u =>
                { u with channel_oil := some o }) } o with e | v
        · simp [pim_mroute_msg_wrvifwhole, hsrc, hdst, hch, hup, deref, hu, hfhr, hrpi,
            pim_nexthop_lookup, hnh, hinfo, emit, hco, hoa, hc, hi, hadd, bind, Except.bind,
            pure, Except.pure] at h
        · obtain ⟨hf1, hf2⟩ := pim_mroute_add_at_any_frame _ _ _ hadd
          simp [pim_mroute_msg_wrvifwhole, hsrc, hdst, hch, hup, deref, hu, hfhr, hrpi,
            pim_nexthop_lookup, hnh, hinfo, emit, hco, hoa, hc, hi, hadd, bind, Except.bind,
            pure, Except.pure] at h
          obtain ⟨-, rfl⟩ := h
          intro j u1 hj
          simp only [hf1, hA1] at hj
          rcases upd_getElem?_cases _ _ _ _ _ hj with ⟨hne, hx⟩ | ⟨rfl, a, ha, rfl⟩
          · rw [upd_getElem?_ne _ _ _ _ (Ne.symm hne)] at hx
            exact Or.inl hx
          · right
            rw [getElem?_upd_self, hu] at ha
            simp only [Option.map_some', Option.some.injEq] at ha
            subst ha
            have hlt1 : o < v.2.oils.length := by rw [hf2]; exact hlt
            exact ⟨o, _, rfl, List.getElem?_eq_getElem hlt1⟩
      · simp [pim_mroute_msg_wrvifwhole, hsrc, hdst, hch, hup, deref, hu, hfhr, hrpi,
          pim_nexthop_lookup, hnh, hinfo, emit, hco, hoa, hc, hi, bind, Except.bind, pure,
          Except.pure] at h
        obtain ⟨-, rfl⟩ := h
        intro j u1 hj
        simp only [hA1] at hj
        rcases upd_getElem?_cases _ _ _ _ _ hj with ⟨hne, hx⟩ | ⟨rfl, a, ha, rfl⟩
        · rw [upd_getElem?_ne _ _ _ _ (Ne.symm hne)] at hx
          exact Or.inl hx
        · right
          rw [getElem?_upd_self, hu] at ha
          simp only [Option.map_some', Option.some.injEq] at ha
          subst ha
          exact ⟨o, _, rfl, hc⟩
  | none =>
    cases hinfo : ifp0.info with
    | none =>
      simp [pim_mroute_msg_wrvifwhole, hsrc, hdst, hch, hup, hinfo, bind, Except.bind, pure,
        Except.pure] at h
    | some pim_ifp =>
    obtain ⟨hA1, hA2, hA3⟩ :=
      pim_channel_oil_add_valid w { src := src, grp := dst } pim_ifp.mroute_vif_index
    rcases hoa : pim_channel_oil_add w { src := src, grp := dst } pim_ifp.mroute_vif_index with
      ⟨oo, wa⟩
    rw [hoa] at hA1 hA2 hA3
    simp only at hA1 hA2 hA3
    cases oo with
    | none =>
      simp [pim_mroute_msg_wrvifwhole, hsrc, hdst, hch, hup, hinfo, hoa, bind, Except.bind,
        pure, Except.pure] at h
    | some o =>
    have hlt : o < wa.oils.length := hA3 o rfl
    obtain ⟨c, hc⟩ : ∃ c, wa.oils[o]? = some c := ⟨_, List.getElem?_eq_getElem hlt⟩
    rcases hconn : pim_if_connected_to_source (some ifp0) src with e | conn
    · simp [pim_if_connected_to_source] at hconn
    have hstep : (∃ e, c.installed = 0 ∧ pim_mroute_add_at wa o = .error e) ∨
        ∃ wr, wr.upstreams = w.upstreams ∧ o < wr.oils.length ∧
          ((c.installed = 0 ∧ ∃ r0, pim_mroute_add_at wa o = .ok (r0, wr)) ∨
           (c.installed ≠ 0 ∧ wr = wa)) := by
      by_cases hi : c.installed = 0
      · rcases hadd : pim_mroute_add_at wa o with e | v
        · exact Or.inl ⟨e, hi, rfl⟩
        · obtain ⟨hf1, hf2⟩ := pim_mroute_add_at_any_frame _ _ _ hadd
          exact Or.inr ⟨v.2, by rw [hf1, hA1], by rw [hf2]; exact hlt,
            Or.inl ⟨hi, v.1, rfl⟩⟩
      · exact Or.inr ⟨wa, hA1, hlt, Or.inr ⟨hi, rfl⟩⟩
    rcases hstep with ⟨e, hi, hadd⟩ | ⟨wr, hr1, hr2, hcase⟩
    · simp [pim_mroute_msg_wrvifwhole, hsrc, hdst, hch, hup, hinfo, hoa, deref, hc, hi, hadd,
        bind, Except.bind, pure, Except.pure] at h
    obtain ⟨hB1, hB2, hB3⟩ := pim_upstream_add_shape wr { src := src, grp := dst } (some ifp0)
    rcases hua : pim_upstream_add wr { src := src, grp := dst } (some ifp0) with ⟨uu, wb⟩
    rw [hua] at hB1 hB2 hB3
    simp only at hB1 hB2 hB3
    cases conn with
    | false =>
      rcases hcase with ⟨hi, r0, hadd⟩ | ⟨hi, hwr⟩
      · simp [pim_mroute_msg_wrvifwhole, hsrc, hdst, hch, hup, hinfo, hoa, deref, hc, hi, hadd,
          hconn, bind, Except.bind, pure, Except.pure] at h
        obtain ⟨-, rfl⟩ := h
        intro j u1 hj
        rw [hr1] at hj
        exact Or.inl hj
      · subst hwr
        simp [pim_mroute_msg_wrvifwhole, hsrc, hdst, hch, hup, hinfo, hoa, deref, hc, hi,
          hconn, bind, Except.bind, pure, Except.pure] at h
        obtain ⟨-, rfl⟩ := h
        intro j u1 hj
        rw [hr1] at hj
        exact Or.inl hj
    | true =>
    cases uu with
    | none =>
      have hb := hB2 rfl
      rcases hcase with ⟨hi, r0, hadd⟩ | ⟨hi, hwr⟩
      · simp [pim_mroute_msg_wrvifwhole, hsrc, hdst, hch, hup, hinfo, hoa, deref, hc, hi, hadd,
          hconn, hua, bind, Except.bind, pure, Except.pure] at h
        obtain ⟨-, rfl⟩ := h
        intro j u1 hj
        rw [hb, hr1] at hj
        exact Or.inl hj
      · subst hwr
        simp [pim_mroute_msg_wrvifwhole, hsrc, hdst, hch, hup, hinfo, hoa, deref, hc, hi,
          hconn, hua, bind, Except.bind, pure, Except.pure] at h
        obtain ⟨-, rfl⟩ := h
        intro j u1 hj
        rw [hb, hr1] at hj
        exact Or.inl hj
    | some up =>
    obtain ⟨⟨a, ha⟩, hne⟩ := hB3 up rfl
    have hob : o < wb.oils.length := by rw [hB1]; exact hr2
    obtain ⟨cb, hcb⟩ : ∃ cb, wb.oils[o]? = some cb := ⟨_, List.getElem?_eq_getElem hob⟩
    rcases hcase with ⟨hi, r0, hadd⟩ | ⟨hi, hwr⟩
    · simp [pim_mroute_msg_wrvifwhole, hsrc, hdst, hch, hup, hinfo, hoa, deref, hc, hi, hadd,
        hconn, hua, pim_upstream_keep_alive_timer_start, getElem?_upd_self, ha, emit,
        pim_channel_add_oif, hcb, bind, Except.bind, pure, Except.pure] at h
      split_ifs at h <;>
      · simp only at h
        split at h
        · cases h
        · rename_i v hv
          obtain ⟨hw1, hw2⟩ := pim_mroute_msg_wholepkt_frame _ _ _ _ v.1 v.2 hv
          simp only [Except.ok.injEq, Prod.mk.injEq] at h
          obtain ⟨-, rfl⟩ := h
          intro j u1 hj
          rw [hw1] at hj
          simp only at hj
          by_cases hju : j = up
          · subst hju
            right
            simp only [getElem?_upd_self, ha, Option.map_some', Option.some.injEq] at hj
            subst hj
            refine ⟨o, ?_⟩
            rw [hw2]
            simp only [getElem?_upd_self, hcb, Option.map_some']
            exact ⟨_, trivial, rfl⟩
          · left
            have hju2 : up ≠ j := Ne.symm hju
            simp only [upd_getElem?_ne _ _ _ _ hju2] at hj
            rw [hne j hju, hr1] at hj
            exact hj
    · subst hwr
      simp [pim_mroute_msg_wrvifwhole, hsrc, hdst, hch, hup, hinfo, hoa, deref, hc, hi,
        hconn, hua, pim_upstream_keep_alive_timer_start, getElem?_upd_self, ha, emit,
        pim_channel_add_oif, hcb, bind, Except.bind, pure, Except.pure] at h
      split_ifs at h <;>
      · simp only at h
        split at h
        · cases h
        · rename_i v hv
          obtain ⟨hw1, hw2⟩ := pim_mroute_msg_wholepkt_frame _ _ _ _ v.1 v.2 hv
          simp only [Except.ok.injEq, Prod.mk.injEq] at h
          obtain ⟨-, rfl⟩ := h
          intro j u1 hj
          rw [hw1] at hj
          simp only at hj
          by_cases hju : j = up
          · subst hju
            right
            simp only [getElem?_upd_self, ha, Option.map_some', Option.some.injEq] at hj
            subst hj
            refine ⟨o, ?_⟩
            rw [hw2]
            simp only [getElem?_upd_self, hcb, Option.map_some']
            exact ⟨_, trivial, rfl⟩
          · left
            have hju2 : up ≠ j := Ne.symm hju
            simp only [upd_getElem?_ne _ _ _ _ hju2] at hj
            rw [hne j hju, hr1] at hj
            exact hj

/-- A run of `pim_mroute_msg` that returns either changed nothing or is the run
of one of the four handlers on the interface of the upcall's VIF. -/
theorem pim_mroute_msg_dispatch (w : World) (fd : Int) (buf : List Nat) (buf_size : Int)
    (r : Int) (w1 : World) (h : pim_mroute_msg w fd buf buf_size = .ok (r, w1)) :
    w1 = w ∨ ∃ ifp,
      pim_mroute_msg_wrongvif w fd ifp buf = .ok (r, w1) ∨
      pim_mroute_msg_nocache w fd ifp buf = .ok (r, w1) ∨
      pim_mroute_msg_wholepkt w fd ifp buf = .ok (r, w1) ∨
      pim_mroute_msg_wrvifwhole w fd ifp buf = .ok (r, w1) := by
  unfold pim_mroute_msg at h
  simp only [bind, Except.bind, pure, Except.pure] at h
  repeat' split at h
  all_goals (try (simp only [Except.ok.injEq, Prod.mk.injEq, reduceCtorEq] at h))
  all_goals
    first
    | exact False.elim h
    | exact Or.inl h.2.symm
    | exact Or.inr ⟨_, Or.inl h⟩
    | exact Or.inr ⟨_, Or.inr (Or.inl h)⟩
    | exact Or.inr ⟨_, Or.inr (Or.inr (Or.inl h))⟩
    | exact Or.inr ⟨_, Or.inr (Or.inr (Or.inr h))⟩

/-! ## The Joined invariant -/

/-- C24: the four upcall handlers and `pim_mroute_msg` preserve "every upstream
record whose join state is Joined has a cache entry attached": if it holds
before a run that returns, it holds after it.  Moreover every record the run
created or changed (in particular every record it set to Joined) has its
`channel_oil` pointing to an entry that exists in the cache table afterwards. -/
theorem pim_mroute_msg_joined_has_channel_oil (w : World) (fd : Int) (ifp : Option interface)
    (buf : List Nat) (buf_size : Int) (r : Int) (w1 : World)
    (hrun : pim_mroute_msg_nocache w fd ifp buf = .ok (r, w1) ∨
      pim_mroute_msg_wholepkt w fd ifp buf = .ok (r, w1) ∨
      pim_mroute_msg_wrongvif w fd ifp buf = .ok (r, w1) ∨
      pim_mroute_msg_wrvifwhole w fd ifp buf = .ok (r, w1) ∨
      pim_mroute_msg w fd buf buf_size = .ok (r, w1))
    (hinv : ∀ u ∈ w.upstreams,
      u.join_state = pim_upstream_state.PIM_UPSTREAM_JOINED → u.channel_oil.isSome = true) :
    (∀ u ∈ w1.upstreams,
      u.join_state = pim_upstream_state.PIM_UPSTREAM_JOINED → u.channel_oil.isSome = true) ∧
    (∀ (j : Nat) (u1 : pim_upstream), w1.upstreams[j]? = some u1 →
      w.upstreams[j]? ≠ some u1 →
      ∃ (o : Nat) (c : channel_oil), u1.channel_oil = some o ∧ w1.oils[o]? = some c) := by
  have hH : ∀ ifp0,
      (pim_mroute_msg_wrongvif w fd ifp0 buf = .ok (r, w1) ∨
       pim_mroute_msg_nocache w fd ifp0 buf = .ok (r, w1) ∨
       pim_mroute_msg_wholepkt w fd ifp0 buf = .ok (r, w1) ∨
       pim_mroute_msg_wrvifwhole w fd ifp0 buf = .ok (r, w1)) →
      ∀ (j : Nat) (u1 : pim_upstream), w1.upstreams[j]? = some u1 →
        w.upstreams[j]? = some u1 ∨
        ∃ (o : Nat) (c : channel_oil), u1.channel_oil = some o ∧ w1.oils[o]? = some c := by
    intro ifp0 hc
    rcases hc with h | h | h | h
    · intro j u1 hj
      rw [(pim_mroute_msg_wrongvif_frame w fd ifp0 buf r w1 h).1] at hj
      exact Or.inl hj
    · exact pim_mroute_msg_nocache_upstreams w fd ifp0 buf r w1 h
    · intro j u1 hj
      rw [(pim_mroute_msg_wholepkt_frame w fd ifp0 buf r w1 h).1] at hj
      exact Or.inl hj
    · exact pim_mroute_msg_wrvifwhole_upstreams w fd ifp0 buf r w1 h
  have hP : ∀ (j : Nat) (u1 : pim_upstream), w1.upstreams[j]? = some u1 →
      w.upstreams[j]? = some u1 ∨
      ∃ (o : Nat) (c : channel_oil), u1.channel_oil = some o ∧ w1.oils[o]? = some c := by
    rcases hrun with h | h | h | h | h
    · exact hH ifp (Or.inr (Or.inl h))
    · exact hH ifp (Or.inr (Or.inr (Or.inl h)))
    · exact hH ifp (Or.inl h)
    · exact hH ifp (Or.inr (Or.inr (Or.inr h)))
    · rcases pim_mroute_msg_dispatch w fd buf buf_size r w1 h with hw | ⟨ifp0, hc⟩
      · intro j u1 hj
        rw [hw] at hj
        exact Or.inl hj
      · exact hH ifp0 hc
  constructor
  · intro u hu hj
    obtain ⟨j, hju⟩ := List.getElem?_of_mem hu
    rcases hP j u hju with h0 | ⟨o, c, ho, -⟩
    · exact hinv u (List.getElem?_mem h0) hj
    · rw [ho]
      rfl
  · intro j u1 hj hne
    rcases hP j u1 hj with h0 | h0
    · exact absurd h0 hne
    · exact h0

/-- Witness of C24's theorem: the NOCACHE upcall of (10.0.0.5, 224.1.1.1) on
`eth0` in `w_eth0` creates a Joined record attached to the entry at index 0. -/
theorem pim_mroute_msg_joined_has_channel_oil_witness :
    ∃ w1, pim_mroute_msg_nocache w_eth0 7 (some eth0) (upcall_5 1) = .ok (0, w1) ∧
      (∀ u ∈ w_eth0.upstreams,
        u.join_state = pim_upstream_state.PIM_UPSTREAM_JOINED → u.channel_oil.isSome = true) ∧
      w1.upstreams.map (fun u => (u.join_state, u.channel_oil)) =
        [(pim_upstream_state.PIM_UPSTREAM_JOINED, some 0)] ∧
      w1.oils.length = 1 ∧
      ((∀ u ∈ w1.upstreams,
        u.join_state = pim_upstream_state.PIM_UPSTREAM_JOINED → u.channel_oil.isSome = true) ∧
      (∀ (j : Nat) (u1 : pim_upstream), w1.upstreams[j]? = some u1 →
        w_eth0.upstreams[j]? ≠ some u1 →
        ∃ (o : Nat) (c : channel_oil), u1.channel_oil = some o ∧ w1.oils[o]? = some c)) :=
  ⟨_, rfl, (fun u hu => by simp [w_eth0, w0] at hu), rfl, rfl,
    pim_mroute_msg_joined_has_channel_oil w_eth0 7 (some eth0) (upcall_5 1) 20 0 _ (Or.inl rfl)
      (fun u hu => by simp [w_eth0, w0] at hu)⟩

end PimMroute
